import Mathlib

/-!
# ONE runtime (onert): dynamic tensor manager and model loader

A shallow embedding of
`runtime/onert/core/src/backend/cpu_common/DynamicTensorManager.cc` and of
`runtime/onert/frontend/base_loader/include/base_loader.h`: the loading entry
points, the operand loader and the operation loaders.

Conventions of the embedding:

* C++ objects mutated in place become explicit state that every operation takes
  and returns;
* `assert(c)` is a checked precondition: when `c` is false the operation stops
  with `Error.assertion` and the state it had at that point;
* a C++ exception stops the operation with an `Error` value and leaves the state
  reached so far, exactly as the caller of the C++ method would observe it;
* in the loader, the use of a null table, an unchecked access past the end of a
  vector and a read of memory that was handed back with `munmap` stop the load
  like a failed `assert` does (`LoadError.null_dereference`,
  `LoadError.out_of_bounds`, `LoadError.unmapped_access`, `LoadError.assertion`):
  they end the process, so a `catch (...)` handler does not catch them, while it
  catches every exception.
-/

namespace onert

/-! ## ir: indices, shapes, data types -/

/-- Index of an operand (`ir::OperandIndex`). -/
abbrev OperandIndex := Nat

/-- Index of an operation (`ir::OperationIndex`). -/
abbrev OperationIndex := Nat

/-- Element types (`ir::DataType`): the ones `tensorTypeToDataType` produces, and
`UINT8`, which `loadElementwiseUnary` gives to the operands of a cast. -/
inductive DataType where
  | FLOAT32
  | INT32
  | BOOL8
  | QUANT_UINT8_ASYMM
  | QUANT_INT8_SYMM
  | INT64
  | UINT8
  deriving DecidableEq, Repr

/-- Modelled from the spec: `sizeOfDataType` is declared outside src/. The spec
lists the element types as 8-bit quantized (one byte), 32-bit float and integer
(four bytes), 64-bit integer (eight bytes) and boolean (one byte). -/
def sizeOfDataType : DataType → Nat
  | .FLOAT32 => 4
  | .INT32 => 4
  | .BOOL8 => 1
  | .QUANT_UINT8_ASYMM => 1
  | .QUANT_INT8_SYMM => 1
  | .INT64 => 8
  | .UINT8 => 1

/-- Modelled from the spec: `ir::Shape` is declared outside src/. A shape is an
ordered sequence of non-negative dimension sizes. -/
structure Shape where
  dims : List Nat
  deriving DecidableEq, Repr

/-- Modelled from the spec: `Shape::num_elements` is declared outside src/; the
number of elements is the product of the dimension sizes. -/
def Shape.num_elements (s : Shape) : Nat := s.dims.prod

/-- Memory layout of a backend tensor (`ir::Layout`). -/
inductive Layout where
  | UNKNOWN
  | NHWC
  | NCHW
  deriving DecidableEq, Repr

/-- Modelled from the spec: `ir::OperandInfo` is declared outside src/. It holds
the shape, the element type and the persistent `dynamic` flag of an operand. -/
structure OperandInfo where
  shape : Shape
  data_type : DataType
  is_dynamic : Bool
  deriving DecidableEq, Repr

/-- Modelled from the spec: `OperandInfo::total_size` is declared outside src/;
the byte size of an operand is its number of elements times its element size. -/
def OperandInfo.total_size (i : OperandInfo) : Nat :=
  i.shape.num_elements * sizeOfDataType i.data_type

/-- Byte size required by `s` for a tensor of element type `dt`, as `applyShape`
computes `new_size`. -/
def byteSize (s : Shape) (dt : DataType) : Nat := s.num_elements * sizeOfDataType dt

/-! ## backend/cpu_common: allocator objects, memory manager, tensors -/

/-- Modelled from the spec: the `Allocator` class is declared outside src/. An
allocator object owns one runtime buffer of `capacity` bytes until it is
released; once released it has no buffer any more. -/
structure Allocator where
  capacity : Nat
  released : Bool
  deriving DecidableEq, Repr

/-- One call received by the dynamic memory manager. -/
inductive MemCall where
  | allocate (ind : OperandIndex) (capacity : Nat)
  | deallocate (ind : OperandIndex)
  deriving DecidableEq, Repr

/-- Modelled from the spec: the `DynamicMemoryManager` class is declared outside
src/. It is the allocate/deallocate-by-operand-index indirection of the spec:
`mem_alloc_map` gives the allocator object currently held for an operand index,
`allocators` is the store of allocator objects (an object is named by its
position, which is its identity), and `calls` records the calls received, oldest
first. -/
structure DynamicMemoryManager where
  mem_alloc_map : OperandIndex → Option Nat
  allocators : List Allocator
  calls : List MemCall

/-- Modelled from the spec: `DynamicMemoryManager::allocate` is declared outside
src/. It makes a new allocator object of the requested capacity, holds it for
`ind`, and returns it. -/
def DynamicMemoryManager.allocate (m : DynamicMemoryManager) (ind : OperandIndex)
    (capacity : Nat) : DynamicMemoryManager × Nat :=
  let alloc := m.allocators.length
  ({ mem_alloc_map := Function.update m.mem_alloc_map ind (some alloc),
     allocators := m.allocators ++ [{ capacity := capacity, released := false }],
     calls := m.calls ++ [MemCall.allocate ind capacity] }, alloc)

/-- The store of allocator objects after the object `alloc` released its buffer. -/
def releaseAllocator (as : List Allocator) (alloc : Nat) : List Allocator :=
  match as[alloc]? with
  | some a => as.set alloc { a with released := true }
  | none => as

/-- Modelled from the spec: `DynamicMemoryManager::deallocate` is declared
outside src/. It releases the buffer of the allocator object held for `ind` and
stops holding it, so that the operand is unallocated afterwards. -/
def DynamicMemoryManager.deallocate (m : DynamicMemoryManager) (ind : OperandIndex) :
    DynamicMemoryManager :=
  let allocators1 :=
    match m.mem_alloc_map ind with
    | some alloc => releaseAllocator m.allocators alloc
    | none => m.allocators
  { mem_alloc_map := Function.update m.mem_alloc_map ind none,
    allocators := allocators1,
    calls := m.calls ++ [MemCall.deallocate ind] }

/-- Whether the allocator object `alloc` still owns its buffer. -/
def DynamicMemoryManager.owns (m : DynamicMemoryManager) (alloc : Nat) : Bool :=
  match m.allocators[alloc]? with
  | some a => !a.released
  | none => false

/-- Identity of a buffer: placed by the static allocator (outside this core), or
owned by an allocator object of the dynamic memory manager. -/
inductive Buffer where
  | static_buffer (address : Nat)
  | dynamic_buffer (alloc : Nat)
  deriving DecidableEq, Repr

/-- Modelled from the spec: the cpu_common `Tensor` class is declared outside
src/. A tensor is built from an `OperandInfo` and a layout and holds no buffer at
first; `static_buffer` is a buffer placed by the static allocator and
`allocator` the allocator object handed over by the dynamic memory manager. -/
structure Tensor where
  info : OperandInfo
  layout : Layout
  static_buffer : Option Nat
  allocator : Option Nat
  deriving DecidableEq, Repr

namespace Tensor

/-- Constructor `Tensor(info, layout)`: no buffer yet. -/
def make (info : OperandInfo) (layout : Layout) : Tensor :=
  { info := info, layout := layout, static_buffer := none, allocator := none }

/-- Accessor `is_dynamic()`. -/
def is_dynamic (t : Tensor) : Bool := t.info.is_dynamic

/-- Method `set_dynamic()`. -/
def set_dynamic (t : Tensor) : Tensor := { t with info := { t.info with is_dynamic := true } }

/-- Accessor `data_type()`. -/
def data_type (t : Tensor) : DataType := t.info.data_type

/-- Accessor `total_size()`. -/
def total_size (t : Tensor) : Nat := t.info.total_size

/-- Modelled from the spec: `Tensor::buffer` is declared outside src/. A tensor
that was handed an allocator object has that object's buffer, none once the
object is released (the operand is then unallocated); a tensor without
allocator object has the buffer the static allocator placed, if any. -/
def buffer (t : Tensor) (m : DynamicMemoryManager) : Option Buffer :=
  match t.allocator with
  | some alloc => if m.owns alloc then some (Buffer.dynamic_buffer alloc) else none
  | none => t.static_buffer.map Buffer.static_buffer

/-- Modelled from the spec: `Tensor::setBuffer` is declared outside src/; the
tensor takes the allocator object as its buffer. -/
def setBuffer (t : Tensor) (alloc : Nat) : Tensor := { t with allocator := some alloc }

/-- Modelled from the spec: `Tensor::overwriteBuffer` is declared outside src/;
the tensor takes the allocator object in place of whatever buffer it had. -/
def overwriteBuffer (t : Tensor) (alloc : Nat) : Tensor := { t with allocator := some alloc }

end Tensor

/-- Modelled from the spec: the helper `setShape` is declared outside src/; it
sets the shape of the tensor to `new_shape`. -/
def setShape (t : Tensor) (new_shape : Shape) : Tensor :=
  { t with info := { t.info with shape := new_shape } }

/-- How an operation can stop early. -/
inductive Error where
  | assertion
  | out_of_range
  deriving DecidableEq, Repr

/-- State of a `DynamicTensorManager`: the dynamic memory manager it owns, the
tensor registry it shares, and the deallocation plan. -/
structure DynamicTensorManager where
  dynamic_mem_mgr : DynamicMemoryManager
  tensors : OperandIndex → Option Tensor
  dealloc_tensor_map : OperationIndex → Option (List OperandIndex)

/-- Result of one operation: the state it leaves and the error that stopped it,
if any. -/
structure Outcome where
  state : DynamicTensorManager
  error : Option Error

namespace DynamicTensorManager

/-- Lambda `allocTensorMem` of `applyShape`, for the tensor `tensor` of `ind`. -/
def allocTensorMem (d : DynamicTensorManager) (ind : OperandIndex) (tensor : Tensor)
    (overwrite : Bool) : DynamicTensorManager :=
  let capacity := tensor.total_size
  let r := d.dynamic_mem_mgr.allocate ind capacity
  let tensor1 := if overwrite then tensor.overwriteBuffer r.2 else tensor.setBuffer r.2
  { d with dynamic_mem_mgr := r.1, tensors := Function.update d.tensors ind (some tensor1) }

/-- Method `DynamicTensorManager::applyShape`. -/
def applyShape (d : DynamicTensorManager) (ind : OperandIndex) (new_shape : Shape) : Outcome :=
  match d.tensors ind with
  | none => { state := d, error := some Error.assertion }
  | some tensor =>
    let previously_dynamic := tensor.is_dynamic
    if !previously_dynamic then
      { state := allocTensorMem d ind (setShape tensor new_shape).set_dynamic true, error := none }
    else if tensor.buffer d.dynamic_mem_mgr = none then
      { state := allocTensorMem d ind (setShape tensor new_shape).set_dynamic false,
        error := none }
    else
      let previous_size := tensor.total_size
      let new_size := new_shape.num_elements * sizeOfDataType tensor.data_type
      if previous_size ≠ new_size then
        let d1 := { d with dynamic_mem_mgr := d.dynamic_mem_mgr.deallocate ind }
        { state := allocTensorMem d1 ind (setShape tensor new_shape).set_dynamic false,
          error := none }
      else
        { state := d, error := none }

/-- Lambda `allocTensorMem` of the deprecated `allocate`: it sets the shape, then
allocates and sets the buffer. -/
def allocateTensorMem (d : DynamicTensorManager) (ind : OperandIndex) (tensor : Tensor)
    (new_shape : Shape) : DynamicTensorManager :=
  let tensor1 := setShape tensor new_shape
  let capacity := tensor1.total_size
  let r := d.dynamic_mem_mgr.allocate ind capacity
  let tensor2 := tensor1.setBuffer r.2
  { d with dynamic_mem_mgr := r.1, tensors := Function.update d.tensors ind (some tensor2) }

/-- Method `DynamicTensorManager::allocate` (deprecated). -/
def allocate (d : DynamicTensorManager) (ind : OperandIndex) (new_shape : Shape) : Outcome :=
  match d.tensors ind with
  | none => { state := d, error := some Error.assertion }
  | some tensor =>
    if tensor.buffer d.dynamic_mem_mgr = none then
      { state := allocateTensorMem d ind tensor new_shape, error := none }
    else if tensor.total_size ≠ new_shape.num_elements * sizeOfDataType tensor.data_type then
      let d1 := { d with dynamic_mem_mgr := d.dynamic_mem_mgr.deallocate ind }
      { state := allocateTensorMem d1 ind tensor new_shape, error := none }
    else
      { state := d, error := none }

/-- Method `DynamicTensorManager::buildTensor`. -/
def buildTensor (d : DynamicTensorManager) (ind : OperandIndex) (tensor_info : OperandInfo)
    (backend_layout : Layout) : Outcome :=
  if (d.tensors ind).isSome then
    { state := d, error := some Error.assertion }
  else
    let tensor := Tensor.make tensor_info backend_layout
    { state := { d with tensors := Function.update d.tensors ind (some tensor) }, error := none }

/-- Method `DynamicTensorManager::changeShape` (to be deprecated). -/
def changeShape (d : DynamicTensorManager) (ind : OperandIndex) (new_shape : Shape) : Outcome :=
  match d.tensors ind with
  | none => { state := d, error := some Error.assertion }
  | some tensor =>
    let tensor1 := (setShape tensor new_shape).set_dynamic
    { state := { d with tensors := Function.update d.tensors ind (some tensor1) }, error := none }

/-- Insertion into an `unordered_set`: nothing changes when the element is there. -/
def emplace (input_set : List OperandIndex) (operand_ind : OperandIndex) : List OperandIndex :=
  if operand_ind ∈ input_set then input_set else input_set ++ [operand_ind]

/-- Method `DynamicTensorManager::planDealloc`. -/
def planDealloc (d : DynamicTensorManager) (op_ind : OperationIndex)
    (operand_ind : OperandIndex) : Outcome :=
  match d.dealloc_tensor_map op_ind with
  | some input_set =>
    let input_set1 := emplace input_set operand_ind
    let map1 := Function.update d.dealloc_tensor_map op_ind (some input_set1)
    { state := { d with dealloc_tensor_map := map1 }, error := none }
  | none =>
    let map1 := Function.update d.dealloc_tensor_map op_ind (some [operand_ind])
    { state := { d with dealloc_tensor_map := map1 }, error := none }

/-- Loop of `deallocInput` over the planned operands; `_tensors->at` throws
`std::out_of_range` for an operand that is not registered. -/
def deallocInputLoop (d : DynamicTensorManager) : List OperandIndex → Outcome
  | [] => { state := d, error := none }
  | input_ind :: rest =>
    match d.tensors input_ind with
    | none => { state := d, error := some Error.out_of_range }
    | some tensor =>
      if !tensor.is_dynamic then
        deallocInputLoop d rest
      else
        deallocInputLoop { d with dynamic_mem_mgr := d.dynamic_mem_mgr.deallocate input_ind } rest

/-- Method `DynamicTensorManager::deallocInput`. -/
def deallocInput (d : DynamicTensorManager) (op_ind : OperationIndex) : Outcome :=
  match d.dealloc_tensor_map op_ind with
  | none => { state := d, error := none }
  | some input_set => deallocInputLoop d input_set

/-- Method `DynamicTensorManager::deallocSubgraphOutput`. -/
def deallocSubgraphOutput (d : DynamicTensorManager) (output_ind : OperandIndex) : Outcome :=
  match d.tensors output_ind with
  | none => { state := d, error := some Error.out_of_range }
  | some tensor =>
    if !tensor.is_dynamic then
      { state := d, error := none }
    else
      { state := { d with dynamic_mem_mgr := d.dynamic_mem_mgr.deallocate output_ind },
        error := none }

/-- Constructor `DynamicTensorManager(reg)`: a new memory manager, the given
registry, an empty plan. -/
def create (reg : OperandIndex → Option Tensor) : DynamicTensorManager :=
  { dynamic_mem_mgr := { mem_alloc_map := fun _ => none, allocators := [], calls := [] },
    tensors := reg,
    dealloc_tensor_map := fun _ => none }

/-- The buffer of the tensor registered for `ind`, none when it has none or when
no tensor is registered. -/
def bufferOf (d : DynamicTensorManager) (ind : OperandIndex) : Option Buffer :=
  match d.tensors ind with
  | some tensor => tensor.buffer d.dynamic_mem_mgr
  | none => none

/-- The operands planned for deallocation after `op_ind`. -/
def planned (d : DynamicTensorManager) (op_ind : OperationIndex) : List OperandIndex :=
  match d.dealloc_tensor_map op_ind with
  | some input_set => input_set
  | none => []

/-! ### Runs of the manager -/

/-- One call of the six state-changing methods of the manager on registered
tensors and on the plan. -/
inductive Op where
  | applyShape (ind : OperandIndex) (new_shape : Shape)
  | allocate (ind : OperandIndex) (new_shape : Shape)
  | changeShape (ind : OperandIndex) (new_shape : Shape)
  | planDealloc (op_ind : OperationIndex) (operand_ind : OperandIndex)
  | deallocInput (op_ind : OperationIndex)
  | deallocSubgraphOutput (output_ind : OperandIndex)
  deriving DecidableEq, Repr

/-- The outcome of one call. -/
def step (d : DynamicTensorManager) : Op → Outcome
  | Op.applyShape ind s => d.applyShape ind s
  | Op.allocate ind s => d.allocate ind s
  | Op.changeShape ind s => d.changeShape ind s
  | Op.planDealloc op x => d.planDealloc op x
  | Op.deallocInput op => d.deallocInput op
  | Op.deallocSubgraphOutput x => d.deallocSubgraphOutput x

/-- The state after a sequence of calls; a call that stops with an error leaves
the state it reached and the run goes on from there. -/
def run (d : DynamicTensorManager) : List Op → DynamicTensorManager
  | [] => d
  | op :: ops => run (step d op).state ops

/-- The dynamic flag of the tensor registered for `ind` (false when there is none). -/
def dynamicFlag (d : DynamicTensorManager) (ind : OperandIndex) : Bool :=
  match d.tensors ind with
  | some tensor => tensor.is_dynamic
  | none => false

/-- Whether the operand `ind` is currently allocated: the dynamic memory manager
holds an allocation for it. -/
def allocated (d : DynamicTensorManager) (ind : OperandIndex) : Bool :=
  (d.dynamic_mem_mgr.mem_alloc_map ind).isSome

/-- The next `applyShape ind s` on `d`, for a tensor of element type `dt`,
succeeds, issues exactly one `allocate` of the byte size of `s` and no
`deallocate`, and gives the tensor the buffer of a new allocator object. -/
def AllocatesAnew (d : DynamicTensorManager) (ind : OperandIndex) (s : Shape)
    (dt : DataType) : Prop :=
  (d.applyShape ind s).error = none ∧
  (d.applyShape ind s).state.dynamic_mem_mgr.calls
    = d.dynamic_mem_mgr.calls ++ [MemCall.allocate ind (s.num_elements * sizeOfDataType dt)] ∧
  (d.applyShape ind s).state.bufferOf ind
    = some (Buffer.dynamic_buffer d.dynamic_mem_mgr.allocators.length)

/-! ### Sample states -/

/-- A float tensor description of shape 2x3, not dynamic. -/
def sampleInfo : OperandInfo :=
  { shape := { dims := [2, 3] }, data_type := DataType.FLOAT32, is_dynamic := false }

/-- A manager with one tensor, registered for operand 0 by `buildTensor`. -/
def sampleFresh : DynamicTensorManager :=
  (buildTensor (create (fun _ => none)) 0 sampleInfo Layout.NHWC).state

/-- The manager `sampleFresh` after a first `applyShape 0 [2, 3]`: the tensor is
dynamic and holds a buffer of 24 bytes. -/
def sampleDynamic : DynamicTensorManager :=
  (sampleFresh.applyShape 0 { dims := [2, 3] }).state

/-- A float tensor of shape [2] that is not dynamic and holds a buffer placed by
the static allocator at address 100. -/
def staticTensor : Tensor :=
  { info := { shape := { dims := [2] }, data_type := DataType.FLOAT32, is_dynamic := false },
    layout := Layout.NHWC, static_buffer := some 100, allocator := none }

/-- A manager whose registry holds `staticTensor` for operand 0. -/
def sampleStatic : DynamicTensorManager :=
  create (fun i => if i = 0 then some staticTensor else none)

/-- The manager `sampleFresh` after `changeShape 0 [4]` and `planDealloc 5 0`:
the tensor is dynamic, holds no buffer, and is planned after operation 5. -/
def samplePlanned : DynamicTensorManager :=
  ((sampleFresh.changeShape 0 { dims := [4] }).state.planDealloc 5 0).state

/-- The manager `sampleDynamic` with operand 0 planned after operation 5. -/
def sampleDynamicPlanned : DynamicTensorManager :=
  (sampleDynamic.planDealloc 5 0).state

/-- The manager `sampleDynamic` after `changeShape 0 [10]`: the tensor has the
shape [10] and still holds the buffer of 24 bytes. -/
def sampleReshaped : DynamicTensorManager :=
  (sampleDynamic.changeShape 0 { dims := [10] }).state

/-! ### Plans and capacities -/

/-- The manager after `planDealloc` was called for each pair of `pairs`, first to
last. -/
def planDeallocAll (d : DynamicTensorManager) (pairs : List (OperationIndex × OperandIndex)) :
    DynamicTensorManager :=
  pairs.foldl (fun d1 p => (d1.planDealloc p.1 p.2).state) d

/-- Whether the call is a `changeShape`. -/
def Op.isChangeShape : Op → Bool
  | Op.changeShape _ _ => true
  | _ => false

/-- Every allocator object handed to a registered tensor is in the store of the
memory manager and, while it owns its buffer, has the capacity the tensor's
current shape and element type require. -/
def CapacityMatches (d : DynamicTensorManager) : Prop :=
  ∀ (ind : OperandIndex) (t : Tensor) (a : Nat), d.tensors ind = some t →
    t.allocator = some a →
    ∃ alloc, d.dynamic_mem_mgr.allocators[a]? = some alloc ∧
      (alloc.released = false → alloc.capacity = t.total_size)

end DynamicTensorManager

end onert

/-! ## frontend/base_loader: loading entry points -/

namespace onert

namespace base_loader

/-- How a load stops early. `open_failed`, `fstat_failed`, `mmap_failed` and
`load_failed` are the `std::runtime_error`s the loader throws and `out_of_range`
is the `std::out_of_range` of a checked `at`; these are C++ exceptions. The
others end the process instead of throwing: `assertion` is a failed `assert`,
`null_dereference` the use of a null table or vector, `out_of_bounds` an
unchecked access past the end of a vector, and `unmapped_access` a read of bytes
of the mapped file that were handed back with `munmap`. -/
inductive LoadError where
  | open_failed
  | fstat_failed
  | mmap_failed
  | load_failed (message : String)
  | out_of_range
  | assertion
  | null_dereference
  | out_of_bounds
  | unmapped_access
  deriving DecidableEq, Repr

/-- Whether the error is a C++ exception, which a `catch (...)` handler catches. -/
def LoadError.isException : LoadError → Bool
  | LoadError.open_failed => true
  | LoadError.fstat_failed => true
  | LoadError.mmap_failed => true
  | LoadError.load_failed _ => true
  | LoadError.out_of_range => true
  | LoadError.assertion => false
  | LoadError.null_dereference => false
  | LoadError.out_of_bounds => false
  | LoadError.unmapped_access => false

/-- The parts of the loader that the template parameter `LoaderDomain` and the
derived loader supply; they are declared outside src/ and are parameters here.
`VerifyModelBuffer bytes size` is the verdict of the schema verifier built over
`bytes` and `size` (the spec gives the verifier as `verify(bytes, size) -> bool`),
`GetModel` reads the model at the base address, `subgraphs` lists the serialized
subgraphs of a model and `loadSubgraph` is the pure virtual method that loads
one of them or throws. -/
structure LoaderDomain (Model SubGraph Graph : Type) where
  VerifyModelBuffer : List Nat → Nat → Bool
  GetModel : List Nat → Model
  subgraphs : Model → List SubGraph
  loadSubgraph : SubGraph → Except LoadError Graph

/-- The files the loader can see: `open_rdonly` is `open(path, O_RDONLY)` (none
when the descriptor is negative), `fstat` gives the size (none when it fails) and
`mmap` the mapped bytes (none for `MAP_FAILED`). -/
structure FileSystem where
  open_rdonly : String → Option Nat
  fstat : Nat → Option Nat
  mmap : Nat → Nat → Option (List Nat)

/-- State of a `BaseLoader`: the bytes at `_base`, the descriptor `_fd`, the
bytes and size the verifier was built over, the model read so far, and the
subgraphs collection of the caller that `_subgraphs` refers to. -/
structure BaseLoader (Model Graph : Type) where
  base : List Nat
  fd : Option Nat
  verifier : List Nat × Nat
  model : Option Model
  subgraphs : List (Nat × Graph)

/-- Result of a load: the loader state it leaves and the error thrown, if any. -/
structure LoadOutcome (Model Graph : Type) where
  loader : BaseLoader Model Graph
  error : Option LoadError

/-- Loop of `loadModel` over the serialized subgraphs: each one is loaded and
pushed under its index; the first failure ends the loop. -/
def loadSubgraphs {Model SubGraph Graph : Type} (dom : LoaderDomain Model SubGraph Graph) :
    List SubGraph → Nat → List (Nat × Graph) → Except LoadError (List (Nat × Graph))
  | [], _, subgraphs => Except.ok subgraphs
  | domain_subgraph :: rest, subgraph_index, subgraphs =>
    match dom.loadSubgraph domain_subgraph with
    | Except.error e => Except.error e
    | Except.ok subg =>
      loadSubgraphs dom rest (subgraph_index + 1) (subgraphs ++ [(subgraph_index, subg)])

/-- Method `BaseLoader::loadModel`. The verifier is run first and its verdict is
not looked at: the statement `LoaderDomain::VerifyModelBuffer(*_verifier.get());`
discards the value. -/
def loadModel {Model SubGraph Graph : Type} (dom : LoaderDomain Model SubGraph Graph)
    (l : BaseLoader Model Graph) : LoadOutcome Model Graph :=
  let _verdict := dom.VerifyModelBuffer l.verifier.1 l.verifier.2
  let model := dom.GetModel l.base
  let l1 := { l with model := some model }
  match loadSubgraphs dom (dom.subgraphs model) 0 [] with
  | Except.error e => { loader := l1, error := some e }
  | Except.ok subgraphs => { loader := { l1 with subgraphs := subgraphs }, error := none }

/-- Method `BaseLoader::loadFromBuffer`. -/
def loadFromBuffer {Model SubGraph Graph : Type} (dom : LoaderDomain Model SubGraph Graph)
    (l : BaseLoader Model Graph) (buffer : List Nat) (size : Nat) : LoadOutcome Model Graph :=
  loadModel dom { l with base := buffer, verifier := (buffer, size) }

/-- Method `BaseLoader::loadFromFile`. The result of `open` is stored in `_fd`
before it is looked at. -/
def loadFromFile {Model SubGraph Graph : Type} (files : FileSystem)
    (dom : LoaderDomain Model SubGraph Graph) (l : BaseLoader Model Graph)
    (file_path : String) : LoadOutcome Model Graph :=
  match files.open_rdonly file_path with
  | none => { loader := { l with fd := none }, error := some LoadError.open_failed }
  | some fd =>
    let l1 := { l with fd := some fd }
    match files.fstat fd with
    | none => { loader := l1, error := some LoadError.fstat_failed }
    | some size =>
      match files.mmap fd size with
      | none => { loader := l1, error := some LoadError.mmap_failed }
      | some base => loadModel dom { l1 with base := base, verifier := (base, size) }

/-- Constructor `BaseLoader(subgs)`: nothing mapped, no model, the subgraphs
collection of the caller. -/
def create {Model Graph : Type} (subgs : List (Nat × Graph)) : BaseLoader Model Graph :=
  { base := [], fd := none, verifier := ([], 0), model := none, subgraphs := subgs }

/-! ### Sample domain -/

/-- A loader domain whose schema verifier rejects every buffer. Its model is the
byte sequence itself, every byte is one serialized subgraph, and loading a
subgraph yields the byte. -/
def rejectingDomain : LoaderDomain (List Nat) Nat Nat :=
  { VerifyModelBuffer := fun _ _ => false
    GetModel := fun bytes => bytes
    subgraphs := fun model => model
    loadSubgraph := fun subg => Except.ok subg }

/-- A loader domain like `rejectingDomain`, except that the subgraph 0 fails to
load. -/
def failingDomain : LoaderDomain (List Nat) Nat Nat :=
  { VerifyModelBuffer := fun _ _ => true
    GetModel := fun bytes => bytes
    subgraphs := fun model => model
    loadSubgraph := fun subg =>
      if subg = 0 then Except.error (LoadError.load_failed "bad subgraph") else Except.ok subg }

/-- A file system with the one file `model.tflite` holding the byte 7. -/
def sampleFiles : FileSystem :=
  { open_rdonly := fun path => if path = "model.tflite" then some 3 else none
    fstat := fun fd => if fd = 3 then some 1 else none
    mmap := fun fd _ => if fd = 3 then some [7] else none }

end base_loader

end onert

/-! ## ir: operands, operations, graph -/

namespace onert

/-- A `float` value: a rational, or the positive infinity
(`ElementwiseActivation::infinity`). The loader copies floats and never
computes with them; `0.0`, `1.f` and `6.f` are the rationals 0, 1 and 6. -/
inductive Float32 where
  | finite (value : Rat)
  | infinity
  deriving DecidableEq, Repr

/-- Conversion of a 32-bit signed value to `uint32_t`. -/
def toUInt32 (x : Int) : Nat := (x % 4294967296).toNat

/-- Conversion of an integer value to `uint16_t`. -/
def toUInt16 (x : Int) : Nat := (x % 65536).toNat

namespace ir

/-- Modelled from the spec: the default constructor of `ir::OperandIndex` is
declared outside src/; it gives the designated absent (undefined) index, which
is the largest 32-bit value and names no operand. -/
def undefinedOperandIndex : OperandIndex := 4294967295

/-- Fused activation of an operation (`ir::Activation`), the values the loader
produces. -/
inductive Activation where
  | NONE
  | RELU
  | RELU1
  | RELU6
  | TANH
  deriving DecidableEq, Repr

/-- Padding scheme (`ir::PaddingType`), the values the loader produces. -/
inductive PaddingType where
  | SAME
  | VALID
  deriving DecidableEq, Repr

/-- Pooling kinds (`ir::operation::Pool2D::PoolType`). -/
inductive PoolType where
  | AVG
  | MAX
  deriving DecidableEq, Repr

/-- Arithmetic kinds (`ir::operation::BinaryArithmetic::ArithmeticType`). -/
inductive ArithmeticType where
  | ADD
  | SUB
  | MUL
  | DIV
  deriving DecidableEq, Repr

/-- Activation kinds (`ir::operation::ElementwiseActivation::Type`). -/
inductive ElementwiseActivationType where
  | LEAKY_RELU
  | LOGISTIC
  | RELU
  | TANH
  deriving DecidableEq, Repr

/-- Binary kinds (`ir::operation::ElementwiseBinary::ElementwiseBinaryType`). -/
inductive ElementwiseBinaryType where
  | LOGICAL_OR
  | MAX
  | MIN
  deriving DecidableEq, Repr

/-- Unary kinds (`ir::operation::ElementwiseUnary::Type`). -/
inductive ElementwiseUnaryType where
  | ABS
  | CAST
  | COS
  | ERF
  | EXP
  | LOG
  | LOGICAL_NOT
  | NEG
  | QUANTIZE
  | ROUND
  | RSQRT
  | SIN
  | SQRT
  | ZEROS_LIKE
  deriving DecidableEq, Repr

/-- Reduction kinds (`ir::operation::Reduce::ReduceType`). -/
inductive ReduceType where
  | ALL
  | ANY
  | MAX
  | MEAN
  | PROD
  | SUM
  deriving DecidableEq, Repr

/-- Comparison kinds (`ir::operation::Comparison::ComparisonType`). -/
inductive ComparisonType where
  | Equal
  | NotEqual
  | GreaterEqual
  | Greater
  | LessEqual
  | Less
  deriving DecidableEq, Repr

/-- The operator kind of an operation together with its kind-specific parameter
record: one constructor for each `ir::operation` class the loader builds, with
the fields of its `Param` that the loader sets. A `padding_type` of none is a
padding type the loader left as constructed; `Squeeze` has no dimensions when
the serialized operator gives none. -/
inductive Param where
  | ArgMax (output_type : DataType)
  | BatchMatMul (adj_x adj_y : Bool)
  | BatchToSpaceND
  | BinaryArithmetic (arithmetic_type : ArithmeticType) (activation : Activation)
  | BroadcastTo
  | Comparison (comparison_type : ComparisonType)
  | Concat (axis : Int)
  | Conv2D (activation : Activation) (stride_vertical stride_horizontal : Int)
      (padding_type : Option PaddingType) (dilation_width_factor dilation_height_factor : Int)
  | Custom (constraint : Nat) (id : String) (userdata_data : List Nat) (userdata_size : Nat)
  | DepthwiseConv2D (activation : Activation) (stride_vertical stride_horizontal : Int)
      (padding_type : Option PaddingType) (multiplier : Int)
  | Einsum (equation : String)
  | ElementwiseActivation (op_type : ElementwiseActivationType) (alpha beta : Float32)
  | ElementwiseBinary (op_type : ElementwiseBinaryType)
  | ElementwiseUnary (op_type : ElementwiseUnaryType)
  | ExpandDims
  | Fill
  | FullyConnected (activation : Activation)
  | FusedBatchNorm (is_training : Bool) (epsilon : Float32) (data_format : String)
  | Gather (axis : Int)
  | If (then_subg_index else_subg_index : Nat)
  | L2Normalization
  | LogSoftmax (beta : Float32) (axis : Int)
  | MatrixBandPart
  | OneHot (axis : Int)
  | PReLU
  | Pack (num axis : Int)
  | Pad
  | Pool2D (op_type : PoolType) (stride_vertical stride_horizontal : Int)
      (padding_type : Option PaddingType) (kw kh : Int) (activation : Activation)
  | Pow
  | Range
  | Rank
  | Reduce (reduce_type : ReduceType) (keep_dims : Bool)
  | Reshape (new_shape : List Int)
  | ResizeBilinear (height_out width_out : Int) (align_corners half_pixel_centers : Bool)
  | ResizeNearestNeighbor (height_out width_out : Int) (align_corners : Bool)
  | Reverse
  | Select
  | Shape
  | Slice
  | Softmax (beta : Float32)
  | SpaceToBatchND
  | SpaceToDepth (block_size : Int)
  | Split (axis : Int) (num_splits : Int)
  | SplitV (num_splits : Int)
  | SquaredDifference
  | Squeeze (dims : Option (List Int))
  | StatelessRandomUniform
  | StridedSlice (begin_mask end_mask shrink_axis_mask : Int)
  | Tile
  | Transpose (perm : List Int)
  | TransposeConv (stride_vertical stride_horizontal : Int) (padding_type : Option PaddingType)
  | Unpack (num axis : Int)
  | While (cond_subg_index body_subg_index : Nat)
  deriving Repr

/-- Modelled from the spec: `ir::Operation` is declared outside src/. One node of
the graph: an ordered sequence of input operand indices, an ordered sequence of
output operand indices, and the kind with its parameter record. Building an
operation checks nothing: the loader itself checks input counts afterwards. -/
structure Operation where
  inputs : List OperandIndex
  outputs : List OperandIndex
  param : Param
  deriving Repr

/-- Modelled from the spec: `ir::Data` and its two classes are declared outside
src/. The value of a constant operand is externally owned (`ExternalData`, a view
of bytes the loader does not own) or cached (`CachedData`, an owned copy). -/
inductive Data where
  | ExternalData (bytes : List Nat)
  | CachedData (bytes : List Nat)
  deriving DecidableEq, Repr

/-- The bytes of a value. -/
def Data.bytes : Data → List Nat
  | Data.ExternalData bytes => bytes
  | Data.CachedData bytes => bytes

/-- Modelled from the spec: `ir::TypeInfo` is declared outside src/. It holds the
element type and the quantization parameters (one scale, one zero point) of an
operand, and the segments and indices of a 2-D sparse tensor once
`sparse2DMetadata` was called. -/
structure TypeInfo where
  type : DataType
  scale : Float32
  offset : Int
  sparse2DMetadata : Option (List Nat × List Nat)
  deriving DecidableEq, Repr

/-- Modelled from the spec: `ir::Operand` is declared outside src/. One tensor
slot of the graph: shape, type information and the value, if one was set. -/
structure Operand where
  shape : Shape
  typeInfo : TypeInfo
  data : Option Data
  deriving DecidableEq, Repr

/-- Modelled from the spec: `Operand::isConstant` is declared outside src/. An
operand is constant exactly when a value was set for it: a constant operand
always has a populated value buffer and the loader sets a value only for
constant tensors. -/
def Operand.isConstant (o : Operand) : Bool := o.data.isSome

/-- The bytes of the value of the operand (none for an operand without value). -/
def Operand.valueBytes (o : Operand) : List Nat :=
  match o.data with
  | some data => data.bytes
  | none => []

/-- Modelled from the spec: `Operand::operandSize` is declared outside src/; the
byte size of the operand, its number of elements times its element size. -/
def Operand.operandSize (o : Operand) : Nat :=
  o.shape.num_elements * sizeOfDataType o.typeInfo.type

/-- Modelled from the spec: `Operand::type(DataType)` is declared outside src/;
the element type of the operand is replaced and nothing else changes. -/
def Operand.setType (o : Operand) (type : DataType) : Operand :=
  { o with typeInfo := { o.typeInfo with type := type } }

/-- Modelled from the spec: `ir::Graph` is declared outside src/. A subgraph is
an ordered collection of operands and an ordered collection of operations, each
in the order of creation. -/
structure Graph where
  operands : List Operand
  operations : List Operation
  deriving Repr

/-- Modelled from the spec: `Graph::addOperand` is declared outside src/. The
operand is appended and gets the next index (indices are dense and assigned
monotonically). -/
def Graph.addOperand (g : Graph) (shape : Shape) (type_info : TypeInfo) : Graph × OperandIndex :=
  ({ g with operands := g.operands ++ [{ shape := shape, typeInfo := type_info, data := none }] },
    g.operands.length)

/-- Modelled from the spec: `Graph::addOperation` is declared outside src/. The
operation is appended (construction is append-only). -/
def Graph.addOperation (g : Graph) (node : Operation) : Graph :=
  { g with operations := g.operations ++ [node] }

/-- The operands with the operand of `index` replaced by its image under `f`;
nothing changes when there is no such operand. -/
def Graph.modifyOperand (g : Graph) (index : OperandIndex) (f : Operand → Operand) : Graph :=
  match g.operands[index]? with
  | some o => { g with operands := g.operands.set index (f o) }
  | none => g

/-- Modelled from the spec: `Graph::setOperandValue` is declared outside src/;
the value of the operand is set, which makes it constant. -/
def Graph.setOperandValue (g : Graph) (index : OperandIndex) (data : Data) : Graph :=
  g.modifyOperand index (fun o => { o with data := some data })

end ir

end onert

/-! ## frontend/base_loader: the serialized model -/

namespace onert

namespace base_loader

/-- Element type of a serialized tensor (`TensorType` of the loader domain): the
enumerators the loader names, and any other enumerator, given by its code. -/
inductive TensorType where
  | FLOAT32
  | INT32
  | BOOL
  | UINT8
  | INT8
  | INT64
  | other (code : Nat)
  deriving DecidableEq, Repr

/-- Fused activation of a serialized operator (`ActivationFunctionType` of the
loader domain): the enumerators the loader names, and any other one. -/
inductive ActivationFunctionType where
  | NONE
  | RELU
  | RELU_N1_TO_1
  | RELU6
  | TANH
  | other (code : Nat)
  deriving DecidableEq, Repr

/-- Padding of a serialized operator (`Padding` of the loader domain). -/
inductive Padding where
  | SAME
  | VALID
  | other (code : Nat)
  deriving DecidableEq, Repr

/-- Format of a sparse dimension (`DimensionType` of the loader domain). -/
inductive DimensionType where
  | DENSE
  | SPARSE_CSR
  | other (code : Nat)
  deriving DecidableEq, Repr

/-- Format of the custom options (`CustomOptionsFormat` of the loader domain). -/
inductive CustomOptionsFormat where
  | FLEXBUFFERS
  | other (code : Nat)
  deriving DecidableEq, Repr

/-- Operator code (`BuiltinOperator` of the loader domain): the enumerators the
loader names, and any other enumerator, given by its code. -/
inductive BuiltinOperator where
  | CONV_2D
  | AVERAGE_POOL_2D
  | DEPTHWISE_CONV_2D
  | TRANSPOSE_CONV
  | RESHAPE
  | SOFTMAX
  | MAX_POOL_2D
  | CONCATENATION
  | FULLY_CONNECTED
  | ADD
  | SUB
  | MUL
  | DIV
  | PACK
  | RELU
  | RELU_N1_TO_1
  | RELU6
  | RESIZE_BILINEAR
  | RESIZE_NEAREST_NEIGHBOR
  | RSQRT
  | SELECT
  | SELECT_V2
  | SQRT
  | SQUARED_DIFFERENCE
  | TANH
  | TRANSPOSE
  | MEAN
  | REDUCE_ANY
  | REDUCE_MAX
  | REVERSE_V2
  | PAD
  | PADV2
  | LOGISTIC
  | EXP
  | EXPAND_DIMS
  | GATHER
  | SPACE_TO_BATCH_ND
  | BATCH_TO_SPACE_ND
  | SUM
  | CUSTOM
  | SQUEEZE
  | PRELU
  | SPLIT
  | SPLIT_V
  | SLICE
  | STRIDED_SLICE
  | UNPACK
  | MINIMUM
  | MAXIMUM
  | CAST
  | EQUAL
  | NOT_EQUAL
  | GREATER_EQUAL
  | GREATER
  | LESS_EQUAL
  | LESS
  | ONE_HOT
  | ABS
  | COS
  | SIN
  | SHAPE
  | REDUCE_PROD
  | IF
  | WHILE
  | NEG
  | ARG_MAX
  | LOG
  | ROUND
  | POW
  | LOGICAL_NOT
  | LOGICAL_OR
  | FILL
  | ZEROS_LIKE
  | TILE
  | RANGE
  | BATCH_MATMUL
  | LOG_SOFTMAX
  | QUANTIZE
  | SPACE_TO_DEPTH
  | L2_NORMALIZATION
  | LEAKY_RELU
  | RANK
  | other (code : Nat)
  deriving Repr

/-- Serialized options table `Conv2DOptions`, the fields the loader reads. -/
structure Conv2DOptions where
  padding : Padding
  stride_w : Int
  stride_h : Int
  fused_activation_function : ActivationFunctionType
  dilation_w_factor : Int
  dilation_h_factor : Int
  deriving Repr

/-- Serialized options table `DepthwiseConv2DOptions`, the fields the loader reads. -/
structure DepthwiseConv2DOptions where
  padding : Padding
  stride_w : Int
  stride_h : Int
  depth_multiplier : Int
  fused_activation_function : ActivationFunctionType
  deriving Repr

/-- Serialized options table `TransposeConvOptions`, the fields the loader reads. -/
structure TransposeConvOptions where
  padding : Padding
  stride_w : Int
  stride_h : Int
  deriving Repr

/-- Serialized options table `Pool2DOptions`, the fields the loader reads. -/
structure Pool2DOptions where
  padding : Padding
  stride_w : Int
  stride_h : Int
  filter_width : Int
  filter_height : Int
  fused_activation_function : ActivationFunctionType
  deriving Repr

/-- Serialized options table `ReshapeOptions`, the fields the loader reads. -/
structure ReshapeOptions where
  new_shape : Option (List Int)
  deriving Repr

/-- Serialized options table `SoftmaxOptions`, the fields the loader reads. -/
structure SoftmaxOptions where
  beta : Float32
  deriving Repr

/-- Serialized options table `ConcatenationOptions`, the fields the loader reads. -/
structure ConcatenationOptions where
  axis : Int
  deriving Repr

/-- Serialized options table `FullyConnectedOptions`, the fields the loader reads. -/
structure FullyConnectedOptions where
  fused_activation_function : ActivationFunctionType
  deriving Repr

/-- Serialized options table `AddOptions`, the fields the loader reads. -/
structure AddOptions where
  fused_activation_function : ActivationFunctionType
  deriving Repr

/-- Serialized options table `SubOptions`, the fields the loader reads. -/
structure SubOptions where
  fused_activation_function : ActivationFunctionType
  deriving Repr

/-- Serialized options table `MulOptions`, the fields the loader reads. -/
structure MulOptions where
  fused_activation_function : ActivationFunctionType
  deriving Repr

/-- Serialized options table `DivOptions`, the fields the loader reads. -/
structure DivOptions where
  fused_activation_function : ActivationFunctionType
  deriving Repr

/-- Serialized options table `PackOptions`, the fields the loader reads. -/
structure PackOptions where
  values_count : Int
  axis : Int
  deriving Repr

/-- Serialized options table `ResizeBilinearOptions`, the fields the loader reads. -/
structure ResizeBilinearOptions where
  align_corners : Bool
  half_pixel_centers : Bool
  deriving Repr

/-- Serialized options table `ResizeNearestNeighborOptions`, the fields the loader reads. -/
structure ResizeNearestNeighborOptions where
  align_corners : Bool
  deriving Repr

/-- Serialized options table `ReducerOptions`, the fields the loader reads. -/
structure ReducerOptions where
  keep_dims : Bool
  deriving Repr

/-- Serialized options table `GatherOptions`, the fields the loader reads. -/
structure GatherOptions where
  axis : Int
  deriving Repr

/-- Serialized options table `BatchMatMulOptions`, the fields the loader reads. -/
structure BatchMatMulOptions where
  adjoint_lhs : Bool
  adjoint_rhs : Bool
  deriving Repr

/-- Serialized options table `SpaceToDepthOptions`, the fields the loader reads. -/
structure SpaceToDepthOptions where
  block_size : Int
  deriving Repr

/-- Serialized options table `SqueezeOptions`, the fields the loader reads. -/
structure SqueezeOptions where
  squeeze_dims : Option (List Int)
  deriving Repr

/-- Serialized options table `SplitOptions`, the fields the loader reads. -/
structure SplitOptions where
  num_splits : Int
  deriving Repr

/-- Serialized options table `SplitVOptions`, the fields the loader reads. -/
structure SplitVOptions where
  num_splits : Int
  deriving Repr

/-- Serialized options table `StridedSliceOptions`, the fields the loader reads. -/
structure StridedSliceOptions where
  begin_mask : Int
  end_mask : Int
  shrink_axis_mask : Int
  deriving Repr

/-- Serialized options table `UnpackOptions`, the fields the loader reads. -/
structure UnpackOptions where
  num : Int
  axis : Int
  deriving Repr

/-- Serialized options table `OneHotOptions`, the fields the loader reads. -/
structure OneHotOptions where
  axis : Int
  deriving Repr

/-- Serialized options table `IfOptions`, the fields the loader reads. -/
structure IfOptions where
  then_subgraph_index : Int
  else_subgraph_index : Int
  deriving Repr

/-- Serialized options table `WhileOptions`, the fields the loader reads. -/
structure WhileOptions where
  cond_subgraph_index : Int
  body_subgraph_index : Int
  deriving Repr

/-- Serialized options table `ArgMaxOptions`, the fields the loader reads. -/
structure ArgMaxOptions where
  output_type : TensorType
  deriving Repr

/-- Serialized options table `LeakyReluOptions`, the fields the loader reads. -/
structure LeakyReluOptions where
  alpha : Float32
  deriving Repr

/-- The union `builtin_options` of a serialized operator: one of the tables the
loader reads, or anything else (no table, or a table the loader never reads). -/
inductive BuiltinOptions where
  | Conv2DOptions (options : base_loader.Conv2DOptions)
  | DepthwiseConv2DOptions (options : base_loader.DepthwiseConv2DOptions)
  | TransposeConvOptions (options : base_loader.TransposeConvOptions)
  | Pool2DOptions (options : base_loader.Pool2DOptions)
  | ReshapeOptions (options : base_loader.ReshapeOptions)
  | SoftmaxOptions (options : base_loader.SoftmaxOptions)
  | ConcatenationOptions (options : base_loader.ConcatenationOptions)
  | FullyConnectedOptions (options : base_loader.FullyConnectedOptions)
  | AddOptions (options : base_loader.AddOptions)
  | SubOptions (options : base_loader.SubOptions)
  | MulOptions (options : base_loader.MulOptions)
  | DivOptions (options : base_loader.DivOptions)
  | PackOptions (options : base_loader.PackOptions)
  | ResizeBilinearOptions (options : base_loader.ResizeBilinearOptions)
  | ResizeNearestNeighborOptions (options : base_loader.ResizeNearestNeighborOptions)
  | ReducerOptions (options : base_loader.ReducerOptions)
  | GatherOptions (options : base_loader.GatherOptions)
  | BatchMatMulOptions (options : base_loader.BatchMatMulOptions)
  | SpaceToDepthOptions (options : base_loader.SpaceToDepthOptions)
  | SqueezeOptions (options : base_loader.SqueezeOptions)
  | SplitOptions (options : base_loader.SplitOptions)
  | SplitVOptions (options : base_loader.SplitVOptions)
  | StridedSliceOptions (options : base_loader.StridedSliceOptions)
  | UnpackOptions (options : base_loader.UnpackOptions)
  | OneHotOptions (options : base_loader.OneHotOptions)
  | IfOptions (options : base_loader.IfOptions)
  | WhileOptions (options : base_loader.WhileOptions)
  | ArgMaxOptions (options : base_loader.ArgMaxOptions)
  | LeakyReluOptions (options : base_loader.LeakyReluOptions)
  | other
  deriving Repr

/-- Serialized operator (`Operator` of the loader domain): the index of its
operator code, its input and output tensor indices (-1 is the absent index), its
builtin options and its custom options (none when the vector is null). -/
structure Operator where
  opcode_index : Nat
  inputs : List Int
  outputs : List Int
  builtin_options : BuiltinOptions
  custom_options : Option (List Nat)
  custom_options_format : CustomOptionsFormat
  deriving Repr

/-- Accessor `builtin_options_as_Conv2DOptions`: null unless the union holds that table. -/
def Operator.builtin_options_as_Conv2DOptions (op : Operator) : Option Conv2DOptions :=
  match op.builtin_options with
  | BuiltinOptions.Conv2DOptions options => some options
  | _ => none

/-- Accessor `builtin_options_as_DepthwiseConv2DOptions`: null unless the union holds that table. -/
def Operator.builtin_options_as_DepthwiseConv2DOptions (op : Operator) : Option DepthwiseConv2DOptions :=
  match op.builtin_options with
  | BuiltinOptions.DepthwiseConv2DOptions options => some options
  | _ => none

/-- Accessor `builtin_options_as_TransposeConvOptions`: null unless the union holds that table. -/
def Operator.builtin_options_as_TransposeConvOptions (op : Operator) : Option TransposeConvOptions :=
  match op.builtin_options with
  | BuiltinOptions.TransposeConvOptions options => some options
  | _ => none

/-- Accessor `builtin_options_as_Pool2DOptions`: null unless the union holds that table. -/
def Operator.builtin_options_as_Pool2DOptions (op : Operator) : Option Pool2DOptions :=
  match op.builtin_options with
  | BuiltinOptions.Pool2DOptions options => some options
  | _ => none

/-- Accessor `builtin_options_as_ReshapeOptions`: null unless the union holds that table. -/
def Operator.builtin_options_as_ReshapeOptions (op : Operator) : Option ReshapeOptions :=
  match op.builtin_options with
  | BuiltinOptions.ReshapeOptions options => some options
  | _ => none

/-- Accessor `builtin_options_as_SoftmaxOptions`: null unless the union holds that table. -/
def Operator.builtin_options_as_SoftmaxOptions (op : Operator) : Option SoftmaxOptions :=
  match op.builtin_options with
  | BuiltinOptions.SoftmaxOptions options => some options
  | _ => none

/-- Accessor `builtin_options_as_ConcatenationOptions`: null unless the union holds that table. -/
def Operator.builtin_options_as_ConcatenationOptions (op : Operator) : Option ConcatenationOptions :=
  match op.builtin_options with
  | BuiltinOptions.ConcatenationOptions options => some options
  | _ => none

/-- Accessor `builtin_options_as_FullyConnectedOptions`: null unless the union holds that table. -/
def Operator.builtin_options_as_FullyConnectedOptions (op : Operator) : Option FullyConnectedOptions :=
  match op.builtin_options with
  | BuiltinOptions.FullyConnectedOptions options => some options
  | _ => none

/-- Accessor `builtin_options_as_AddOptions`: null unless the union holds that table. -/
def Operator.builtin_options_as_AddOptions (op : Operator) : Option AddOptions :=
  match op.builtin_options with
  | BuiltinOptions.AddOptions options => some options
  | _ => none

/-- Accessor `builtin_options_as_SubOptions`: null unless the union holds that table. -/
def Operator.builtin_options_as_SubOptions (op : Operator) : Option SubOptions :=
  match op.builtin_options with
  | BuiltinOptions.SubOptions options => some options
  | _ => none

/-- Accessor `builtin_options_as_MulOptions`: null unless the union holds that table. -/
def Operator.builtin_options_as_MulOptions (op : Operator) : Option MulOptions :=
  match op.builtin_options with
  | BuiltinOptions.MulOptions options => some options
  | _ => none

/-- Accessor `builtin_options_as_DivOptions`: null unless the union holds that table. -/
def Operator.builtin_options_as_DivOptions (op : Operator) : Option DivOptions :=
  match op.builtin_options with
  | BuiltinOptions.DivOptions options => some options
  | _ => none

/-- Accessor `builtin_options_as_PackOptions`: null unless the union holds that table. -/
def Operator.builtin_options_as_PackOptions (op : Operator) : Option PackOptions :=
  match op.builtin_options with
  | BuiltinOptions.PackOptions options => some options
  | _ => none

/-- Accessor `builtin_options_as_ResizeBilinearOptions`: null unless the union holds that table. -/
def Operator.builtin_options_as_ResizeBilinearOptions (op : Operator) : Option ResizeBilinearOptions :=
  match op.builtin_options with
  | BuiltinOptions.ResizeBilinearOptions options => some options
  | _ => none

/-- Accessor `builtin_options_as_ResizeNearestNeighborOptions`: null unless the union holds that table. -/
def Operator.builtin_options_as_ResizeNearestNeighborOptions (op : Operator) : Option ResizeNearestNeighborOptions :=
  match op.builtin_options with
  | BuiltinOptions.ResizeNearestNeighborOptions options => some options
  | _ => none

/-- Accessor `builtin_options_as_ReducerOptions`: null unless the union holds that table. -/
def Operator.builtin_options_as_ReducerOptions (op : Operator) : Option ReducerOptions :=
  match op.builtin_options with
  | BuiltinOptions.ReducerOptions options => some options
  | _ => none

/-- Accessor `builtin_options_as_GatherOptions`: null unless the union holds that table. -/
def Operator.builtin_options_as_GatherOptions (op : Operator) : Option GatherOptions :=
  match op.builtin_options with
  | BuiltinOptions.GatherOptions options => some options
  | _ => none

/-- Accessor `builtin_options_as_BatchMatMulOptions`: null unless the union holds that table. -/
def Operator.builtin_options_as_BatchMatMulOptions (op : Operator) : Option BatchMatMulOptions :=
  match op.builtin_options with
  | BuiltinOptions.BatchMatMulOptions options => some options
  | _ => none

/-- Accessor `builtin_options_as_SpaceToDepthOptions`: null unless the union holds that table. -/
def Operator.builtin_options_as_SpaceToDepthOptions (op : Operator) : Option SpaceToDepthOptions :=
  match op.builtin_options with
  | BuiltinOptions.SpaceToDepthOptions options => some options
  | _ => none

/-- Accessor `builtin_options_as_SqueezeOptions`: null unless the union holds that table. -/
def Operator.builtin_options_as_SqueezeOptions (op : Operator) : Option SqueezeOptions :=
  match op.builtin_options with
  | BuiltinOptions.SqueezeOptions options => some options
  | _ => none

/-- Accessor `builtin_options_as_SplitOptions`: null unless the union holds that table. -/
def Operator.builtin_options_as_SplitOptions (op : Operator) : Option SplitOptions :=
  match op.builtin_options with
  | BuiltinOptions.SplitOptions options => some options
  | _ => none

/-- Accessor `builtin_options_as_SplitVOptions`: null unless the union holds that table. -/
def Operator.builtin_options_as_SplitVOptions (op : Operator) : Option SplitVOptions :=
  match op.builtin_options with
  | BuiltinOptions.SplitVOptions options => some options
  | _ => none

/-- Accessor `builtin_options_as_StridedSliceOptions`: null unless the union holds that table. -/
def Operator.builtin_options_as_StridedSliceOptions (op : Operator) : Option StridedSliceOptions :=
  match op.builtin_options with
  | BuiltinOptions.StridedSliceOptions options => some options
  | _ => none

/-- Accessor `builtin_options_as_UnpackOptions`: null unless the union holds that table. -/
def Operator.builtin_options_as_UnpackOptions (op : Operator) : Option UnpackOptions :=
  match op.builtin_options with
  | BuiltinOptions.UnpackOptions options => some options
  | _ => none

/-- Accessor `builtin_options_as_OneHotOptions`: null unless the union holds that table. -/
def Operator.builtin_options_as_OneHotOptions (op : Operator) : Option OneHotOptions :=
  match op.builtin_options with
  | BuiltinOptions.OneHotOptions options => some options
  | _ => none

/-- Accessor `builtin_options_as_IfOptions`: null unless the union holds that table. -/
def Operator.builtin_options_as_IfOptions (op : Operator) : Option IfOptions :=
  match op.builtin_options with
  | BuiltinOptions.IfOptions options => some options
  | _ => none

/-- Accessor `builtin_options_as_WhileOptions`: null unless the union holds that table. -/
def Operator.builtin_options_as_WhileOptions (op : Operator) : Option WhileOptions :=
  match op.builtin_options with
  | BuiltinOptions.WhileOptions options => some options
  | _ => none

/-- Accessor `builtin_options_as_ArgMaxOptions`: null unless the union holds that table. -/
def Operator.builtin_options_as_ArgMaxOptions (op : Operator) : Option ArgMaxOptions :=
  match op.builtin_options with
  | BuiltinOptions.ArgMaxOptions options => some options
  | _ => none

/-- Accessor `builtin_options_as_LeakyReluOptions`: null unless the union holds that table. -/
def Operator.builtin_options_as_LeakyReluOptions (op : Operator) : Option LeakyReluOptions :=
  match op.builtin_options with
  | BuiltinOptions.LeakyReluOptions options => some options
  | _ => none

/-- Entry of the operator code list: the builtin code and, for a custom
operator, its name (none when the string is null). -/
structure OperatorCode where
  builtin_code : BuiltinOperator
  custom_code : Option String
  deriving Repr

/-- Quantization table of a serialized tensor: the scale and zero-point vectors
(none when null) and whether the details are a custom quantization. -/
structure QuantizationParameters where
  scale : Option (List Float32)
  zero_point : Option (List Int)
  details_as_CustomQuantization : Bool
  deriving DecidableEq, Repr

/-- The union `SparseIndexVector` with its type tag: a vector table of 32-bit
signed, 16-bit unsigned or 8-bit unsigned values (`values` is none when the
vector inside is null), or any other tag. -/
inductive SparseIndexVector where
  | Int32Vector (values : Option (List Int))
  | Uint16Vector (values : Option (List Int))
  | Uint8Vector (values : Option (List Int))
  | other
  deriving DecidableEq, Repr

/-- Metadata of one dimension of a sparse tensor; a segment or index array of
none is a null union value. -/
structure DimensionMetadata where
  format : DimensionType
  array_segments : Option SparseIndexVector
  array_indices : Option SparseIndexVector
  deriving DecidableEq, Repr

/-- Sparsity table of a serialized tensor; `dim_metadata` is none when the vector
is null. -/
structure SparsityParameters where
  dim_metadata : Option (List DimensionMetadata)
  deriving DecidableEq, Repr

/-- Serialized tensor (`Tensor` of the loader domain). The shape is none when the
vector is null; its dimension sizes are non-negative. The name is none when the
string is null. -/
structure Tensor where
  shape : Option (List Nat)
  type : TensorType
  buffer : Nat
  name : Option String
  quantization : Option QuantizationParameters
  is_variable : Bool
  sparsity : Option SparsityParameters
  deriving DecidableEq, Repr

/-- Data section of a serialized buffer: where it lies, as the distance of its
first byte from `_base`, and its bytes. -/
structure BufferData where
  offset : Int
  bytes : List Nat
  deriving DecidableEq, Repr

/-- Serialized buffer (`Buffer` of the loader domain); `data` is none when the
data section is null. -/
structure Buffer where
  data : Option BufferData
  deriving DecidableEq, Repr

/-- Serialized model (`Model` of the loader domain), the parts the operand and
operation loaders read. -/
structure Model where
  operator_codes : List OperatorCode
  buffers : List Buffer
  deriving Repr

/-- What `flexbuffers` reads from one attribute of a custom options map, by
accessor. -/
structure Reference where
  AsInt8 : Int
  AsBool : Bool
  AsFloat : Float32
  ToString : String
  deriving DecidableEq, Repr

end base_loader

end onert


/-! ## frontend/base_loader: operands and operations -/

namespace onert

namespace base_loader

open ir

/-- What the loader takes from outside src/: the pure virtual
`allowOptionalInputTensor` of the derived loader; the `flexbuffers` library, as
the attribute that `GetRoot(data, size).AsMap()[key]` finds; the numbering of the
domain's `ActivationFunctionType`, as the result of the `static_cast` from an
8-bit value; the number of entries of the array `Squeeze::Param::dims`; and the
readers `Operand::asVector` and `Operand::asScalar` of 32-bit integers, as
functions of the bytes of the value. -/
structure LoaderHooks where
  allowOptionalInputTensor : BuiltinOperator → Bool
  GetRoot : List Nat → String → Reference
  toActivationFunctionType : Int → ActivationFunctionType
  squeeze_dims_capacity : Nat
  asVector : List Nat → List Int
  asScalar : List Nat → Int

/-- The members of a `BaseLoader` that loading operands and operations reads or
writes: `_pagesize`, `_fd` (none is -1), the model, `_tensor_to_operand`,
`_tensor_names`, and a record of the ranges handed to `munmap`, each as the
distance of its start from `_base` and its size. -/
structure LoaderState where
  pagesize : Int
  fd : Option Nat
  model : Model
  tensor_to_operand : List OperandIndex
  tensor_names : List (OperandIndex × String)
  unmapped : List (Int × Int)

/-- Result of loading into a subgraph: the subgraph as it is left and the error
that stopped the load, if any. -/
structure GraphOutcome where
  subg : Graph
  error : Option LoadError
  deriving Repr

/-- Method `isOptionalInputTensor`. -/
def isOptionalInputTensor (idx : Int) : Bool := idx == -1

/-- Method `BaseLoader::convertActivation`. -/
def convertActivation (type : ActivationFunctionType) : Except LoadError Activation :=
  match type with
  | ActivationFunctionType.NONE => Except.ok Activation.NONE
  | ActivationFunctionType.RELU => Except.ok Activation.RELU
  | ActivationFunctionType.RELU_N1_TO_1 => Except.ok Activation.RELU1
  | ActivationFunctionType.RELU6 => Except.ok Activation.RELU6
  | ActivationFunctionType.TANH => Except.ok Activation.TANH
  | ActivationFunctionType.other _ =>
    Except.error (LoadError.load_failed "Unsupported activation type")

/-- Method `BaseLoader::tensorTypeToDataType`. -/
def tensorTypeToDataType (type : TensorType) : Except LoadError DataType :=
  match type with
  | TensorType.FLOAT32 => Except.ok DataType.FLOAT32
  | TensorType.INT32 => Except.ok DataType.INT32
  | TensorType.BOOL => Except.ok DataType.BOOL8
  | TensorType.UINT8 => Except.ok DataType.QUANT_UINT8_ASYMM
  | TensorType.INT8 => Except.ok DataType.QUANT_INT8_SYMM
  | TensorType.INT64 => Except.ok DataType.INT64
  | TensorType.other _ => Except.error (LoadError.load_failed "Unsupported tensor type")

/-- Method `BaseLoader::tensorIdxToOperandIdx`. The subscript of
`_tensor_to_operand` is not checked: an index that is not the absent one and
names no loaded tensor is an access out of bounds. -/
def tensorIdxToOperandIdx (l : LoaderState) (tensorIdx : Int) : Except LoadError OperandIndex :=
  if isOptionalInputTensor tensorIdx then
    Except.ok undefinedOperandIndex
  else if tensorIdx < 0 then
    Except.error LoadError.out_of_bounds
  else
    match l.tensor_to_operand[tensorIdx.toNat]? with
    | some operand_index => Except.ok operand_index
    | none => Except.error LoadError.out_of_bounds

/-- The builtin code of the operator, `_model->operator_codes()->Get(
op->opcode_index())->builtin_code()`; `Get` asserts that the index is in range. -/
def builtinCodeOf (l : LoaderState) (op : Operator) : Except LoadError BuiltinOperator :=
  match l.model.operator_codes[op.opcode_index]? with
  | some op_code => Except.ok op_code.builtin_code
  | none => Except.error LoadError.assertion

/-- First loop of `loadOperationIO`, over the input indices: the check of the
absent index, then the operand index is appended. -/
def loadInputs (h : LoaderHooks) (l : LoaderState) (op : Operator) :
    List Int → List OperandIndex → Except LoadError (List OperandIndex)
  | [], inputs => Except.ok inputs
  | idx :: rest, inputs =>
    match builtinCodeOf l op with
    | Except.error e => Except.error e
    | Except.ok builtin_code =>
      if isOptionalInputTensor idx && !h.allowOptionalInputTensor builtin_code then
        Except.error (LoadError.load_failed "loader doesn't support optional input tensor yet")
      else
        match tensorIdxToOperandIdx l idx with
        | Except.error e => Except.error e
        | Except.ok operand_index => loadInputs h l op rest (inputs ++ [operand_index])

/-- Second loop of `loadOperationIO`, over the output indices. -/
def loadOutputs (l : LoaderState) : List Int → List OperandIndex →
    Except LoadError (List OperandIndex)
  | [], outputs => Except.ok outputs
  | idx :: rest, outputs =>
    match tensorIdxToOperandIdx l idx with
    | Except.error e => Except.error e
    | Except.ok operand_index => loadOutputs l rest (outputs ++ [operand_index])

/-- Method `BaseLoader::loadOperationIO`, called with empty `inputs` and
`outputs`, which it returns filled. -/
def loadOperationIO (h : LoaderHooks) (l : LoaderState) (op : Operator) :
    Except LoadError (List OperandIndex × List OperandIndex) :=
  match loadInputs h l op op.inputs [] with
  | Except.error e => Except.error e
  | Except.ok inputs =>
    match loadOutputs l op.outputs [] with
    | Except.error e => Except.error e
    | Except.ok outputs => Except.ok (inputs, outputs)

/-- Method `BaseLoader::loadStridesAndPaddings`: the vertical stride, the
horizontal stride and the padding type, which is set only for `SAME` and
`VALID`. -/
def loadStridesAndPaddings (padding : Padding) (stride_w stride_h : Int) :
    Int × Int × Option PaddingType :=
  (stride_h, stride_w,
    match padding with
    | Padding.SAME => some PaddingType.SAME
    | Padding.VALID => some PaddingType.VALID
    | Padding.other _ => none)

/-- Method `BaseLoader::loadOperationTo`: the operation is built from the operand
indices and the parameters and appended; the new operation is returned with the
subgraph. -/
def loadOperationTo (h : LoaderHooks) (l : LoaderState) (op : Operator) (subg : Graph)
    (param : Param) : Except LoadError (Graph × Operation) :=
  match loadOperationIO h l op with
  | Except.error e => Except.error e
  | Except.ok io =>
    let new_op : Operation := { inputs := io.1, outputs := io.2, param := param }
    Except.ok (subg.addOperation new_op, new_op)

/-- The outcome of a handler that ends with `loadOperationTo`. -/
def appended (subg : Graph) (r : Except LoadError (Graph × Operation)) : GraphOutcome :=
  match r with
  | Except.error e => { subg := subg, error := some e }
  | Except.ok added => { subg := added.1, error := none }

/-- The outcome of a handler that stops with `e` and leaves `subg`. -/
def stopped (subg : Graph) (e : LoadError) : GraphOutcome := { subg := subg, error := some e }

end base_loader

end onert

/-! ### Operation handlers -/

namespace onert

namespace base_loader

open ir

/-- Modelled from the spec: the enumerators `FullyConnected::INPUT` and
`FullyConnected::WEIGHT` are declared outside src/; the inputs of an operator
are numbered from 0 in their order (input, weight). -/
def FullyConnected_INPUT : Nat := 0

/-- Modelled from the spec: see `FullyConnected_INPUT`. -/
def FullyConnected_WEIGHT : Nat := 1

/-- Modelled from the spec: the enumerator `ElementwiseUnary::Input::INPUT` is
declared outside src/; it is the first input. -/
def ElementwiseUnary_INPUT : Nat := 0

/-- Modelled from the spec: the enumerator `ArgMax::Input::AXIS` is declared
outside src/; the axis follows the data input. -/
def ArgMax_AXIS : Nat := 1

/-- Modelled from the spec: the enumerator `Tile::MULTIPLES` is declared outside
src/; the multiples follow the data input. -/
def Tile_MULTIPLES : Nat := 1

/-- Method `BaseLoader::loadConv2D`. -/
def loadConv2D (h : LoaderHooks) (l : LoaderState) (op : Operator) (subg : Graph) :
    GraphOutcome :=
  match op.builtin_options_as_Conv2DOptions with
  | none => stopped subg LoadError.null_dereference
  | some options =>
    match convertActivation options.fused_activation_function with
    | Except.error e => stopped subg e
    | Except.ok activation =>
      let sp := loadStridesAndPaddings options.padding options.stride_w options.stride_h
      appended subg (loadOperationTo h l op subg
        (Param.Conv2D activation sp.1 sp.2.1 sp.2.2 options.dilation_w_factor
          options.dilation_h_factor))

/-- Method `BaseLoader::loadDepthwiseConv2D`. -/
def loadDepthwiseConv2D (h : LoaderHooks) (l : LoaderState) (op : Operator) (subg : Graph) :
    GraphOutcome :=
  match op.builtin_options_as_DepthwiseConv2DOptions with
  | none => stopped subg LoadError.null_dereference
  | some options =>
    match convertActivation options.fused_activation_function with
    | Except.error e => stopped subg e
    | Except.ok activation =>
      let sp := loadStridesAndPaddings options.padding options.stride_w options.stride_h
      appended subg (loadOperationTo h l op subg
        (Param.DepthwiseConv2D activation sp.1 sp.2.1 sp.2.2 options.depth_multiplier))

/-- Method `BaseLoader::loadTransposeConv`. -/
def loadTransposeConv (h : LoaderHooks) (l : LoaderState) (op : Operator) (subg : Graph) :
    GraphOutcome :=
  match op.builtin_options_as_TransposeConvOptions with
  | none => stopped subg LoadError.null_dereference
  | some options =>
    let sp := loadStridesAndPaddings options.padding options.stride_w options.stride_h
    appended subg (loadOperationTo h l op subg (Param.TransposeConv sp.1 sp.2.1 sp.2.2))

/-- Method `BaseLoader::loadPool2D`, with `loadPool2DOptions` inlined: strides and
padding, filter size, then the activation. -/
def loadPool2D (h : LoaderHooks) (l : LoaderState) (op : Operator) (subg : Graph)
    (op_type : PoolType) : GraphOutcome :=
  match op.builtin_options_as_Pool2DOptions with
  | none => stopped subg LoadError.null_dereference
  | some options =>
    let sp := loadStridesAndPaddings options.padding options.stride_w options.stride_h
    match convertActivation options.fused_activation_function with
    | Except.error e => stopped subg e
    | Except.ok activation =>
      appended subg (loadOperationTo h l op subg
        (Param.Pool2D op_type sp.1 sp.2.1 sp.2.2 options.filter_width options.filter_height
          activation))

/-- Method `BaseLoader::loadReshape`. The new shape is read from the options, if
there are any; the operands are not looked at. -/
def loadReshape (h : LoaderHooks) (l : LoaderState) (op : Operator) (subg : Graph) :
    GraphOutcome :=
  let new_shape : List Int :=
    match op.builtin_options_as_ReshapeOptions with
    | some options =>
      match options.new_shape with
      | some new_shape => new_shape
      | none => []
    | none => []
  appended subg (loadOperationTo h l op subg (Param.Reshape new_shape))

/-- Method `BaseLoader::loadSoftmax`. -/
def loadSoftmax (h : LoaderHooks) (l : LoaderState) (op : Operator) (subg : Graph) :
    GraphOutcome :=
  match op.builtin_options_as_SoftmaxOptions with
  | none => stopped subg LoadError.null_dereference
  | some options => appended subg (loadOperationTo h l op subg (Param.Softmax options.beta))

/-- Method `BaseLoader::loadConcatenation`. -/
def loadConcatenation (h : LoaderHooks) (l : LoaderState) (op : Operator) (subg : Graph) :
    GraphOutcome :=
  match op.builtin_options_as_ConcatenationOptions with
  | none => stopped subg LoadError.null_dereference
  | some options => appended subg (loadOperationTo h l op subg (Param.Concat options.axis))

/-- Method `BaseLoader::loadFC`. After the operation is appended, a float input
with 8-bit asymmetric weights turns the weights into 8-bit symmetric ones. -/
def loadFC (h : LoaderHooks) (l : LoaderState) (op : Operator) (subg : Graph) : GraphOutcome :=
  match op.builtin_options_as_FullyConnectedOptions with
  | none => stopped subg LoadError.null_dereference
  | some options =>
    match convertActivation options.fused_activation_function with
    | Except.error e => stopped subg e
    | Except.ok activation =>
      match loadOperationTo h l op subg (Param.FullyConnected activation) with
      | Except.error e => stopped subg e
      | Except.ok added =>
        let subg1 := added.1
        let fc := added.2
        match fc.inputs[FullyConnected_INPUT]? with
        | none => stopped subg1 LoadError.out_of_range
        | some input_index =>
          match subg1.operands[input_index]? with
          | none => stopped subg1 LoadError.out_of_range
          | some input_operand =>
            match fc.inputs[FullyConnected_WEIGHT]? with
            | none => stopped subg1 LoadError.out_of_range
            | some weights_index =>
              match subg1.operands[weights_index]? with
              | none => stopped subg1 LoadError.out_of_range
              | some weights_operand =>
                if input_operand.typeInfo.type = DataType.FLOAT32 ∧
                    weights_operand.typeInfo.type = DataType.QUANT_UINT8_ASYMM then
                  { subg := subg1.modifyOperand weights_index
                      (fun o => o.setType DataType.QUANT_INT8_SYMM),
                    error := none }
                else
                  { subg := subg1, error := none }

/-- Method `BaseLoader::loadAddV2`. -/
def loadAddV2 (h : LoaderHooks) (l : LoaderState) (op : Operator) (subg : Graph) :
    GraphOutcome :=
  match op.custom_options with
  | none =>
    appended subg (loadOperationTo h l op subg
      (Param.BinaryArithmetic ArithmeticType.ADD Activation.NONE))
  | some custom_op_data =>
    let attr_map := h.GetRoot custom_op_data
    let fused_activation_func :=
      h.toActivationFunctionType (attr_map "fused_activation_function").AsInt8
    match convertActivation fused_activation_func with
    | Except.error e => stopped subg e
    | Except.ok activation =>
      appended subg (loadOperationTo h l op subg
        (Param.BinaryArithmetic ArithmeticType.ADD activation))

/-- The fused activation that `loadBinaryArithmetic` reads from the options table
of the arithmetic type; none when that table is null. -/
def arithmeticActivation (op : Operator) (op_type : ArithmeticType) :
    Option ActivationFunctionType :=
  match op_type with
  | ArithmeticType.ADD => op.builtin_options_as_AddOptions.map (fun o => o.fused_activation_function)
  | ArithmeticType.SUB => op.builtin_options_as_SubOptions.map (fun o => o.fused_activation_function)
  | ArithmeticType.MUL => op.builtin_options_as_MulOptions.map (fun o => o.fused_activation_function)
  | ArithmeticType.DIV => op.builtin_options_as_DivOptions.map (fun o => o.fused_activation_function)

/-- Method `BaseLoader::loadBinaryArithmetic`. -/
def loadBinaryArithmetic (h : LoaderHooks) (l : LoaderState) (op : Operator) (subg : Graph)
    (op_type : ArithmeticType) : GraphOutcome :=
  match arithmeticActivation op op_type with
  | none => stopped subg LoadError.null_dereference
  | some fused_activation_function =>
    match convertActivation fused_activation_function with
    | Except.error e => stopped subg e
    | Except.ok activation =>
      appended subg (loadOperationTo h l op subg (Param.BinaryArithmetic op_type activation))

/-- Method `BaseLoader::loadPack`. -/
def loadPack (h : LoaderHooks) (l : LoaderState) (op : Operator) (subg : Graph) :
    GraphOutcome :=
  match op.builtin_options_as_PackOptions with
  | none => stopped subg LoadError.null_dereference
  | some options =>
    appended subg (loadOperationTo h l op subg (Param.Pack options.values_count options.axis))

/-- Method `BaseLoader::loadElementwiseActivation`. -/
def loadElementwiseActivation (h : LoaderHooks) (l : LoaderState) (op : Operator)
    (subg : Graph) (op_type : ElementwiseActivationType) (alpha beta : Float32) :
    GraphOutcome :=
  appended subg (loadOperationTo h l op subg (Param.ElementwiseActivation op_type alpha beta))

/-- Method `BaseLoader::loadResizeBilinear`. -/
def loadResizeBilinear (h : LoaderHooks) (l : LoaderState) (op : Operator) (subg : Graph) :
    GraphOutcome :=
  match loadOperationIO h l op with
  | Except.error e => stopped subg e
  | Except.ok io =>
    match io.1[0]?, io.1[1]? with
    | some input, some size =>
      match subg.operands[size]? with
      | none => stopped subg LoadError.out_of_range
      | some size_operand =>
        if !size_operand.isConstant then
          stopped subg
            (LoadError.load_failed "ResizeBilinear: non-constant 'size' is not supported.")
        else
          let size_v := h.asVector size_operand.valueBytes
          match size_v[0]?, size_v[1]? with
          | some height_out, some width_out =>
            match op.builtin_options_as_ResizeBilinearOptions with
            | none => stopped subg LoadError.null_dereference
            | some options =>
              let new_op : Operation :=
                { inputs := [input], outputs := io.2,
                  param := Param.ResizeBilinear height_out width_out options.align_corners
                    options.half_pixel_centers }
              { subg := subg.addOperation new_op, error := none }
          | _, _ => stopped subg LoadError.out_of_bounds
    | _, _ => stopped subg LoadError.out_of_range

/-- Method `BaseLoader::loadResizeNearestNeighbor`. -/
def loadResizeNearestNeighbor (h : LoaderHooks) (l : LoaderState) (op : Operator)
    (subg : Graph) : GraphOutcome :=
  match loadOperationIO h l op with
  | Except.error e => stopped subg e
  | Except.ok io =>
    match io.1[0]?, io.1[1]? with
    | some input, some size =>
      match subg.operands[size]? with
      | none => stopped subg LoadError.out_of_range
      | some size_operand =>
        if !size_operand.isConstant then
          stopped subg
            (LoadError.load_failed "ResizeNearestNeighbor: non-constant 'size' is not supported.")
        else
          let size_v := h.asVector size_operand.valueBytes
          match size_v[0]?, size_v[1]? with
          | some height_out, some width_out =>
            match op.builtin_options_as_ResizeNearestNeighborOptions with
            | none => stopped subg LoadError.null_dereference
            | some options =>
              let new_op : Operation :=
                { inputs := [input], outputs := io.2,
                  param := Param.ResizeNearestNeighbor height_out width_out
                    options.align_corners }
              { subg := subg.addOperation new_op, error := none }
          | _, _ => stopped subg LoadError.out_of_bounds
    | _, _ => stopped subg LoadError.out_of_range

/-- Method `BaseLoader::loadTranspose`. -/
def loadTranspose (h : LoaderHooks) (l : LoaderState) (op : Operator) (subg : Graph) :
    GraphOutcome :=
  match loadOperationIO h l op with
  | Except.error e => stopped subg e
  | Except.ok io =>
    match io.1[0]?, io.1[1]? with
    | some input, some perm =>
      match subg.operands[perm]? with
      | none => stopped subg LoadError.out_of_range
      | some perm_operand =>
        if !perm_operand.isConstant then
          stopped subg (LoadError.load_failed "Transpose: non-constant 'perm' is not supported.")
        else
          let new_op : Operation :=
            { inputs := [input], outputs := io.2,
              param := Param.Transpose (h.asVector perm_operand.valueBytes) }
          { subg := subg.addOperation new_op, error := none }
    | _, _ => stopped subg LoadError.out_of_range

/-- Method `BaseLoader::loadReduce`. -/
def loadReduce (h : LoaderHooks) (l : LoaderState) (op : Operator) (subg : Graph)
    (reduce_type : ReduceType) : GraphOutcome :=
  match op.builtin_options_as_ReducerOptions with
  | none => stopped subg LoadError.null_dereference
  | some options =>
    appended subg (loadOperationTo h l op subg (Param.Reduce reduce_type options.keep_dims))

/-- Method `BaseLoader::loadReduceAll`. -/
def loadReduceAll (h : LoaderHooks) (l : LoaderState) (op : Operator) (subg : Graph) :
    GraphOutcome :=
  let keep_dims : Bool :=
    match op.custom_options with
    | none => false
    | some custom_op_data => (h.GetRoot custom_op_data "keep_dims").AsBool
  appended subg (loadOperationTo h l op subg (Param.Reduce ReduceType.ALL keep_dims))

/-- Method `BaseLoader::loadElementwiseBinary`. -/
def loadElementwiseBinary (h : LoaderHooks) (l : LoaderState) (op : Operator) (subg : Graph)
    (op_type : ElementwiseBinaryType) : GraphOutcome :=
  appended subg (loadOperationTo h l op subg (Param.ElementwiseBinary op_type))

/-- Lambda `qasymm8ToUint8` of `loadElementwiseUnary`. -/
def qasymm8ToUint8 (operand : Operand) : Operand :=
  if operand.typeInfo.type = DataType.QUANT_UINT8_ASYMM then operand.setType DataType.UINT8
  else operand

/-- Method `BaseLoader::loadElementwiseUnary`. For a cast, the input and the
first output are turned from 8-bit asymmetric into plain 8-bit operands after the
operation is appended. -/
def loadElementwiseUnary (h : LoaderHooks) (l : LoaderState) (op : Operator) (subg : Graph)
    (op_type : ElementwiseUnaryType) : GraphOutcome :=
  match loadOperationTo h l op subg (Param.ElementwiseUnary op_type) with
  | Except.error e => stopped subg e
  | Except.ok added =>
    let subg1 := added.1
    let eu := added.2
    if op_type = ElementwiseUnaryType.CAST then
      match eu.inputs[ElementwiseUnary_INPUT]? with
      | none => stopped subg1 LoadError.out_of_range
      | some input_index =>
        match subg1.operands[input_index]? with
        | none => stopped subg1 LoadError.out_of_range
        | some _ =>
          let subg2 := subg1.modifyOperand input_index qasymm8ToUint8
          match eu.outputs[0]? with
          | none => stopped subg2 LoadError.out_of_range
          | some output_index =>
            match subg2.operands[output_index]? with
            | none => stopped subg2 LoadError.out_of_range
            | some _ => { subg := subg2.modifyOperand output_index qasymm8ToUint8, error := none }
    else
      { subg := subg1, error := none }

/-- Method `BaseLoader::loadGather`. -/
def loadGather (h : LoaderHooks) (l : LoaderState) (op : Operator) (subg : Graph) :
    GraphOutcome :=
  match op.builtin_options_as_GatherOptions with
  | none => stopped subg LoadError.null_dereference
  | some options => appended subg (loadOperationTo h l op subg (Param.Gather options.axis))

/-- Method `BaseLoader::loadBatchMatMul`. -/
def loadBatchMatMul (h : LoaderHooks) (l : LoaderState) (op : Operator) (subg : Graph) :
    GraphOutcome :=
  match builtinCodeOf l op with
  | Except.error e => stopped subg e
  | Except.ok BuiltinOperator.BATCH_MATMUL =>
    match op.builtin_options_as_BatchMatMulOptions with
    | none => stopped subg LoadError.null_dereference
    | some options =>
      appended subg (loadOperationTo h l op subg
        (Param.BatchMatMul options.adjoint_lhs options.adjoint_rhs))
  | Except.ok BuiltinOperator.CUSTOM =>
    match op.custom_options with
    | none => appended subg (loadOperationTo h l op subg (Param.BatchMatMul false false))
    | some custom_op_data =>
      let attr_map := h.GetRoot custom_op_data
      appended subg (loadOperationTo h l op subg
        (Param.BatchMatMul (attr_map "adj_x").AsBool (attr_map "adj_y").AsBool))
  | Except.ok _ => stopped subg (LoadError.load_failed "Wrong loaded operation")

/-- Method `BaseLoader::loadSpaceToDepth`. -/
def loadSpaceToDepth (h : LoaderHooks) (l : LoaderState) (op : Operator) (subg : Graph) :
    GraphOutcome :=
  match op.builtin_options_as_SpaceToDepthOptions with
  | none => stopped subg LoadError.null_dereference
  | some options =>
    appended subg (loadOperationTo h l op subg (Param.SpaceToDepth options.block_size))

end base_loader

end onert

namespace onert

namespace base_loader

open ir

/-- Method `BaseLoader::loadSqueeze`. -/
def loadSqueeze (h : LoaderHooks) (l : LoaderState) (op : Operator) (subg : Graph) :
    GraphOutcome :=
  match op.builtin_options_as_SqueezeOptions with
  | none => stopped subg LoadError.null_dereference
  | some options =>
    match options.squeeze_dims with
    | some dims =>
      if dims.length > h.squeeze_dims_capacity then
        stopped subg (LoadError.load_failed "Squeeze: 'param.ndims' is out of range.")
      else
        appended subg (loadOperationTo h l op subg (Param.Squeeze (some dims)))
    | none => appended subg (loadOperationTo h l op subg (Param.Squeeze none))

/-- Method `BaseLoader::loadSplit`. -/
def loadSplit (h : LoaderHooks) (l : LoaderState) (op : Operator) (subg : Graph) :
    GraphOutcome :=
  match loadOperationIO h l op with
  | Except.error e => stopped subg e
  | Except.ok io =>
    match io.1[1]?, io.1[0]? with
    | some input, some axis =>
      match subg.operands[axis]? with
      | none => stopped subg LoadError.out_of_range
      | some axis_operand =>
        if !axis_operand.isConstant then
          stopped subg (LoadError.load_failed "Split: non-constant 'axis' is not supported.")
        else
          match op.builtin_options_as_SplitOptions with
          | none => stopped subg LoadError.null_dereference
          | some options =>
            let new_op : Operation :=
              { inputs := [input], outputs := io.2,
                param := Param.Split (h.asScalar axis_operand.valueBytes) options.num_splits }
            { subg := subg.addOperation new_op, error := none }
    | _, _ => stopped subg LoadError.out_of_range

/-- Method `BaseLoader::loadSplitV`. -/
def loadSplitV (h : LoaderHooks) (l : LoaderState) (op : Operator) (subg : Graph) :
    GraphOutcome :=
  match op.builtin_options_as_SplitVOptions with
  | none => stopped subg LoadError.null_dereference
  | some options => appended subg (loadOperationTo h l op subg (Param.SplitV options.num_splits))

/-- Method `BaseLoader::loadStridedSlice`. -/
def loadStridedSlice (h : LoaderHooks) (l : LoaderState) (op : Operator) (subg : Graph) :
    GraphOutcome :=
  match op.builtin_options_as_StridedSliceOptions with
  | none => stopped subg LoadError.null_dereference
  | some options =>
    appended subg (loadOperationTo h l op subg
      (Param.StridedSlice options.begin_mask options.end_mask options.shrink_axis_mask))

/-- Method `BaseLoader::loadUnpack`. -/
def loadUnpack (h : LoaderHooks) (l : LoaderState) (op : Operator) (subg : Graph) :
    GraphOutcome :=
  match op.builtin_options_as_UnpackOptions with
  | none => stopped subg LoadError.null_dereference
  | some options =>
    appended subg (loadOperationTo h l op subg (Param.Unpack options.num options.axis))

/-- The comparison type that `loadComparison` chooses for a builtin code; none
for a code that is not a comparison. -/
def comparisonTypeOf : BuiltinOperator → Option ComparisonType
  | BuiltinOperator.EQUAL => some ComparisonType.Equal
  | BuiltinOperator.NOT_EQUAL => some ComparisonType.NotEqual
  | BuiltinOperator.GREATER_EQUAL => some ComparisonType.GreaterEqual
  | BuiltinOperator.GREATER => some ComparisonType.Greater
  | BuiltinOperator.LESS_EQUAL => some ComparisonType.LessEqual
  | BuiltinOperator.LESS => some ComparisonType.Less
  | _ => none

/-- Method `BaseLoader::loadComparison`. -/
def loadComparison (h : LoaderHooks) (l : LoaderState) (op : Operator) (subg : Graph) :
    GraphOutcome :=
  match builtinCodeOf l op with
  | Except.error e => stopped subg e
  | Except.ok builtin_op =>
    match comparisonTypeOf builtin_op with
    | none => stopped subg (LoadError.load_failed "Unsupported operation")
    | some comparison_type =>
      appended subg (loadOperationTo h l op subg (Param.Comparison comparison_type))

/-- Method `BaseLoader::loadEinsum`. The number of inputs is checked after the
operation is appended. -/
def loadEinsum (h : LoaderHooks) (l : LoaderState) (op : Operator) (subg : Graph) :
    GraphOutcome :=
  match op.custom_options with
  | none => stopped subg (LoadError.load_failed "Einsum: empty equation")
  | some custom_op_data =>
    let attr_map := h.GetRoot custom_op_data
    match loadOperationTo h l op subg (Param.Einsum (attr_map "equation").ToString) with
    | Except.error e => stopped subg e
    | Except.ok added =>
      if added.2.inputs.length ≠ 2 then
        stopped added.1 (LoadError.load_failed "Einsum: NYI input - only support two inputs")
      else
        { subg := added.1, error := none }

/-- Method `BaseLoader::loadFusedBatchNorm`. The number of inputs is checked after
the operation is appended. -/
def loadFusedBatchNorm (h : LoaderHooks) (l : LoaderState) (op : Operator) (subg : Graph) :
    GraphOutcome :=
  match op.custom_options with
  | none => stopped subg (LoadError.load_failed "FusedBatchNorm: empty option")
  | some custom_op_data =>
    let attr_map := h.GetRoot custom_op_data
    match loadOperationTo h l op subg
        (Param.FusedBatchNorm (attr_map "is_training").AsBool (attr_map "epsilon").AsFloat
          (attr_map "data_format").ToString) with
    | Except.error e => stopped subg e
    | Except.ok added =>
      if added.2.inputs.length ≠ 5 then
        stopped added.1
          (LoadError.load_failed "FusedBatchNorm: NYI input - only support five inputs")
      else
        { subg := added.1, error := none }

/-- Method `BaseLoader::loadOneHot`. -/
def loadOneHot (h : LoaderHooks) (l : LoaderState) (op : Operator) (subg : Graph) :
    GraphOutcome :=
  if op.inputs.length ≠ 4 ∨ op.outputs.length ≠ 1 then
    stopped subg (LoadError.load_failed "OneHot Op has wrong number of input or output tensors.")
  else
    match op.builtin_options_as_OneHotOptions with
    | none => stopped subg LoadError.null_dereference
    | some options => appended subg (loadOperationTo h l op subg (Param.OneHot options.axis))

/-- Method `BaseLoader::loadIf`. The serialized indices are converted to
`uint32_t`. -/
def loadIf (h : LoaderHooks) (l : LoaderState) (op : Operator) (subg : Graph) : GraphOutcome :=
  match op.builtin_options_as_IfOptions with
  | none => stopped subg LoadError.null_dereference
  | some options =>
    let then_index := toUInt32 options.then_subgraph_index
    let else_index := toUInt32 options.else_subgraph_index
    appended subg (loadOperationTo h l op subg (Param.If then_index else_index))

/-- Method `BaseLoader::loadWhile`. The serialized indices are converted to
`uint32_t`. -/
def loadWhile (h : LoaderHooks) (l : LoaderState) (op : Operator) (subg : Graph) :
    GraphOutcome :=
  match op.builtin_options_as_WhileOptions with
  | none => stopped subg LoadError.null_dereference
  | some options =>
    let cond_index := toUInt32 options.cond_subgraph_index
    let body_index := toUInt32 options.body_subgraph_index
    appended subg (loadOperationTo h l op subg (Param.While cond_index body_index))

/-- Method `BaseLoader::loadArgMax`. -/
def loadArgMax (h : LoaderHooks) (l : LoaderState) (op : Operator) (subg : Graph) :
    GraphOutcome :=
  match op.builtin_options_as_ArgMaxOptions with
  | none => stopped subg LoadError.null_dereference
  | some options =>
    let output_type := options.output_type
    if output_type = TensorType.INT32 ∨ output_type = TensorType.INT64 then
      match tensorTypeToDataType output_type with
      | Except.error e => stopped subg e
      | Except.ok data_type =>
        match loadOperationTo h l op subg (Param.ArgMax data_type) with
        | Except.error e => stopped subg e
        | Except.ok added =>
          let subg1 := added.1
          match added.2.inputs[ArgMax_AXIS]? with
          | none => stopped subg1 LoadError.out_of_range
          | some axis_index =>
            match subg1.operands[axis_index]? with
            | none => stopped subg1 LoadError.out_of_range
            | some axisOperand =>
              if !(axisOperand.operandSize = 4 ∧
                    (axisOperand.typeInfo.type = DataType.INT32 ∨
                      axisOperand.typeInfo.type = DataType.INT64)) then
                stopped subg1 (LoadError.load_failed
                  "ArgMax: `axis` with an int32 or int64 element is only supported.")
              else
                { subg := subg1, error := none }
    else
      stopped subg (LoadError.load_failed "ArgMax: `output_type` must be either int32 or int64.")

/-- Method `BaseLoader::loadTile`. -/
def loadTile (h : LoaderHooks) (l : LoaderState) (op : Operator) (subg : Graph) :
    GraphOutcome :=
  match loadOperationIO h l op with
  | Except.error e => stopped subg e
  | Except.ok io =>
    match io.1[Tile_MULTIPLES]? with
    | none => stopped subg LoadError.out_of_range
    | some multiples =>
      match subg.operands[multiples]? with
      | none => stopped subg LoadError.out_of_range
      | some multiples_operand =>
        if !multiples_operand.isConstant then
          stopped subg (LoadError.load_failed "Tile: non-constant 'multiples' is not supported.")
        else
          let new_op : Operation := { inputs := io.1, outputs := io.2, param := Param.Tile }
          { subg := subg.addOperation new_op, error := none }

/-- Method `BaseLoader::loadLogSoftmax`. -/
def loadLogSoftmax (h : LoaderHooks) (l : LoaderState) (op : Operator) (subg : Graph) :
    GraphOutcome :=
  appended subg (loadOperationTo h l op subg (Param.LogSoftmax (Float32.finite 1) (-1)))

/-- Method `BaseLoader::loadLeakyRelu`. -/
def loadLeakyRelu (h : LoaderHooks) (l : LoaderState) (op : Operator) (subg : Graph) :
    GraphOutcome :=
  match op.builtin_options_as_LeakyReluOptions with
  | none => stopped subg LoadError.null_dereference
  | some options =>
    loadElementwiseActivation h l op subg ElementwiseActivationType.LEAKY_RELU options.alpha
      (Float32.finite 1)

/-- The local enumeration `BuiltinOP` of `loadCustom`. -/
inductive BuiltinOP where
  | AddV2
  | ReduceAll
  | MatrixBandPart
  | BatchMatMul
  | Einsum
  | BroadcastTo
  | FusedBatchNorm
  | StatelessRandomUniform
  | Erf
  deriving DecidableEq, Repr

/-- The map `builtin_map` of `loadCustom`, from the name of a custom operator to
`BuiltinOP`; none when `at` throws `std::out_of_range`. -/
def builtin_map (custom_op_name : String) : Option BuiltinOP :=
  if custom_op_name = "AddV2" then some BuiltinOP.AddV2
  else if custom_op_name = "All" then some BuiltinOP.ReduceAll
  else if custom_op_name = "MatrixBandPart" then some BuiltinOP.MatrixBandPart
  else if custom_op_name = "BatchMatMulV2" then some BuiltinOP.BatchMatMul
  else if custom_op_name = "Einsum" then some BuiltinOP.Einsum
  else if custom_op_name = "FusedBatchNormV3" then some BuiltinOP.FusedBatchNorm
  else if custom_op_name = "BroadcastTo" then some BuiltinOP.BroadcastTo
  else if custom_op_name = "StatelessRandomUniform" then some BuiltinOP.StatelessRandomUniform
  else if custom_op_name = "Erf" then some BuiltinOP.Erf
  else none

/-- The `try` block of `loadCustom`: the lookup of the name in `builtin_map`,
then the handler of the known custom operator. -/
def loadKnownCustom (h : LoaderHooks) (l : LoaderState) (op : Operator) (subg : Graph)
    (custom_op_name : String) : GraphOutcome :=
  match builtin_map custom_op_name with
  | none => stopped subg LoadError.out_of_range
  | some BuiltinOP.AddV2 => loadAddV2 h l op subg
  | some BuiltinOP.ReduceAll => loadReduceAll h l op subg
  | some BuiltinOP.MatrixBandPart => appended subg (loadOperationTo h l op subg Param.MatrixBandPart)
  | some BuiltinOP.BatchMatMul => loadBatchMatMul h l op subg
  | some BuiltinOP.Einsum => loadEinsum h l op subg
  | some BuiltinOP.BroadcastTo => appended subg (loadOperationTo h l op subg Param.BroadcastTo)
  | some BuiltinOP.FusedBatchNorm => loadFusedBatchNorm h l op subg
  | some BuiltinOP.StatelessRandomUniform =>
    appended subg (loadOperationTo h l op subg Param.StatelessRandomUniform)
  | some BuiltinOP.Erf => loadElementwiseUnary h l op subg ElementwiseUnaryType.ERF

/-- The `catch (...)` block of `loadCustom`: a generic `Custom` operation that
carries the name and a copy of the custom option bytes. -/
def loadGenericCustom (h : LoaderHooks) (l : LoaderState) (op : Operator) (subg : Graph)
    (custom_op_name : String) : GraphOutcome :=
  match loadOperationIO h l op with
  | Except.error e => stopped subg e
  | Except.ok io =>
    let constraint := io.1.length
    match op.custom_options with
    | none => stopped subg LoadError.null_dereference
    | some custom_options =>
      let custom_op_data_size := custom_options.length
      let custom_op_data := custom_options
      let new_op : Operation :=
        { inputs := io.1, outputs := io.2,
          param := Param.Custom constraint custom_op_name custom_op_data custom_op_data_size }
      { subg := subg.addOperation new_op, error := none }

/-- Method `BaseLoader::loadCustom`. Whatever exception leaves the `try` block,
from the lookup of the name or from the handler of a known custom operator, is
caught by `catch (...)`, which goes on with the subgraph as the handler left it. -/
def loadCustom (h : LoaderHooks) (l : LoaderState) (op : Operator) (subg : Graph) :
    GraphOutcome :=
  if op.custom_options_format ≠ CustomOptionsFormat.FLEXBUFFERS then
    stopped subg LoadError.assertion
  else
    match l.model.operator_codes[op.opcode_index]? with
    | none => stopped subg LoadError.assertion
    | some op_code =>
      match op_code.custom_code with
      | none => stopped subg LoadError.null_dereference
      | some custom_op_name =>
        let tried := loadKnownCustom h l op subg custom_op_name
        match tried.error with
        | none => tried
        | some e =>
          if e.isException then loadGenericCustom h l op tried.subg custom_op_name
          else tried

end base_loader

end onert

namespace onert

namespace base_loader

open ir

/-- The `switch` of `loadOperation` over the builtin code: the handler of each
code in the dispatch list, and the unsupported-operation error for every other
code. (`L2_NORMALIZATION` ends with `break` where the others end with `return`;
nothing follows the `switch`, so it returns all the same.) -/
def dispatchOperation (h : LoaderHooks) (l : LoaderState) (op : Operator) (subg : Graph) :
    BuiltinOperator → GraphOutcome
  | BuiltinOperator.CONV_2D => loadConv2D h l op subg
  | BuiltinOperator.AVERAGE_POOL_2D => loadPool2D h l op subg PoolType.AVG
  | BuiltinOperator.DEPTHWISE_CONV_2D => loadDepthwiseConv2D h l op subg
  | BuiltinOperator.TRANSPOSE_CONV => loadTransposeConv h l op subg
  | BuiltinOperator.RESHAPE => loadReshape h l op subg
  | BuiltinOperator.SOFTMAX => loadSoftmax h l op subg
  | BuiltinOperator.MAX_POOL_2D => loadPool2D h l op subg PoolType.MAX
  | BuiltinOperator.CONCATENATION => loadConcatenation h l op subg
  | BuiltinOperator.FULLY_CONNECTED => loadFC h l op subg
  | BuiltinOperator.ADD => loadBinaryArithmetic h l op subg ArithmeticType.ADD
  | BuiltinOperator.SUB => loadBinaryArithmetic h l op subg ArithmeticType.SUB
  | BuiltinOperator.MUL => loadBinaryArithmetic h l op subg ArithmeticType.MUL
  | BuiltinOperator.DIV => loadBinaryArithmetic h l op subg ArithmeticType.DIV
  | BuiltinOperator.PACK => loadPack h l op subg
  | BuiltinOperator.RELU =>
    loadElementwiseActivation h l op subg ElementwiseActivationType.RELU Float32.infinity
      (Float32.finite 0)
  | BuiltinOperator.RELU_N1_TO_1 =>
    loadElementwiseActivation h l op subg ElementwiseActivationType.RELU (Float32.finite 1)
      (Float32.finite (-1))
  | BuiltinOperator.RELU6 =>
    loadElementwiseActivation h l op subg ElementwiseActivationType.RELU (Float32.finite 6)
      (Float32.finite 0)
  | BuiltinOperator.RESIZE_BILINEAR => loadResizeBilinear h l op subg
  | BuiltinOperator.RESIZE_NEAREST_NEIGHBOR => loadResizeNearestNeighbor h l op subg
  | BuiltinOperator.RSQRT => loadElementwiseUnary h l op subg ElementwiseUnaryType.RSQRT
  | BuiltinOperator.SELECT => appended subg (loadOperationTo h l op subg Param.Select)
  | BuiltinOperator.SELECT_V2 => appended subg (loadOperationTo h l op subg Param.Select)
  | BuiltinOperator.SQRT => loadElementwiseUnary h l op subg ElementwiseUnaryType.SQRT
  | BuiltinOperator.SQUARED_DIFFERENCE =>
    appended subg (loadOperationTo h l op subg Param.SquaredDifference)
  | BuiltinOperator.TANH =>
    loadElementwiseActivation h l op subg ElementwiseActivationType.TANH (Float32.finite 1)
      (Float32.finite 1)
  | BuiltinOperator.TRANSPOSE => loadTranspose h l op subg
  | BuiltinOperator.MEAN => loadReduce h l op subg ReduceType.MEAN
  | BuiltinOperator.REDUCE_ANY => loadReduce h l op subg ReduceType.ANY
  | BuiltinOperator.REDUCE_MAX => loadReduce h l op subg ReduceType.MAX
  | BuiltinOperator.REVERSE_V2 => appended subg (loadOperationTo h l op subg Param.Reverse)
  | BuiltinOperator.PAD => appended subg (loadOperationTo h l op subg Param.Pad)
  | BuiltinOperator.PADV2 => appended subg (loadOperationTo h l op subg Param.Pad)
  | BuiltinOperator.LOGISTIC =>
    loadElementwiseActivation h l op subg ElementwiseActivationType.LOGISTIC
      (Float32.finite 0) (Float32.finite 0)
  | BuiltinOperator.EXP => loadElementwiseUnary h l op subg ElementwiseUnaryType.EXP
  | BuiltinOperator.EXPAND_DIMS => appended subg (loadOperationTo h l op subg Param.ExpandDims)
  | BuiltinOperator.GATHER => loadGather h l op subg
  | BuiltinOperator.SPACE_TO_BATCH_ND =>
    appended subg (loadOperationTo h l op subg Param.SpaceToBatchND)
  | BuiltinOperator.BATCH_TO_SPACE_ND =>
    appended subg (loadOperationTo h l op subg Param.BatchToSpaceND)
  | BuiltinOperator.SUM => loadReduce h l op subg ReduceType.SUM
  | BuiltinOperator.CUSTOM => loadCustom h l op subg
  | BuiltinOperator.SQUEEZE => loadSqueeze h l op subg
  | BuiltinOperator.PRELU => appended subg (loadOperationTo h l op subg Param.PReLU)
  | BuiltinOperator.SPLIT => loadSplit h l op subg
  | BuiltinOperator.SPLIT_V => loadSplitV h l op subg
  | BuiltinOperator.SLICE => appended subg (loadOperationTo h l op subg Param.Slice)
  | BuiltinOperator.STRIDED_SLICE => loadStridedSlice h l op subg
  | BuiltinOperator.UNPACK => loadUnpack h l op subg
  | BuiltinOperator.MINIMUM => loadElementwiseBinary h l op subg ElementwiseBinaryType.MIN
  | BuiltinOperator.MAXIMUM => loadElementwiseBinary h l op subg ElementwiseBinaryType.MAX
  | BuiltinOperator.CAST => loadElementwiseUnary h l op subg ElementwiseUnaryType.CAST
  | BuiltinOperator.EQUAL => loadComparison h l op subg
  | BuiltinOperator.NOT_EQUAL => loadComparison h l op subg
  | BuiltinOperator.GREATER_EQUAL => loadComparison h l op subg
  | BuiltinOperator.GREATER => loadComparison h l op subg
  | BuiltinOperator.LESS_EQUAL => loadComparison h l op subg
  | BuiltinOperator.LESS => loadComparison h l op subg
  | BuiltinOperator.ONE_HOT => loadOneHot h l op subg
  | BuiltinOperator.ABS => loadElementwiseUnary h l op subg ElementwiseUnaryType.ABS
  | BuiltinOperator.COS => loadElementwiseUnary h l op subg ElementwiseUnaryType.COS
  | BuiltinOperator.SIN => loadElementwiseUnary h l op subg ElementwiseUnaryType.SIN
  | BuiltinOperator.SHAPE => appended subg (loadOperationTo h l op subg Param.Shape)
  | BuiltinOperator.REDUCE_PROD => loadReduce h l op subg ReduceType.PROD
  | BuiltinOperator.IF => loadIf h l op subg
  | BuiltinOperator.WHILE => loadWhile h l op subg
  | BuiltinOperator.NEG => loadElementwiseUnary h l op subg ElementwiseUnaryType.NEG
  | BuiltinOperator.ARG_MAX => loadArgMax h l op subg
  | BuiltinOperator.LOG => loadElementwiseUnary h l op subg ElementwiseUnaryType.LOG
  | BuiltinOperator.ROUND => loadElementwiseUnary h l op subg ElementwiseUnaryType.ROUND
  | BuiltinOperator.POW => appended subg (loadOperationTo h l op subg Param.Pow)
  | BuiltinOperator.LOGICAL_NOT => loadElementwiseUnary h l op subg ElementwiseUnaryType.LOGICAL_NOT
  | BuiltinOperator.LOGICAL_OR => loadElementwiseBinary h l op subg ElementwiseBinaryType.LOGICAL_OR
  | BuiltinOperator.FILL => appended subg (loadOperationTo h l op subg Param.Fill)
  | BuiltinOperator.ZEROS_LIKE => loadElementwiseUnary h l op subg ElementwiseUnaryType.ZEROS_LIKE
  | BuiltinOperator.TILE => loadTile h l op subg
  | BuiltinOperator.RANGE => appended subg (loadOperationTo h l op subg Param.Range)
  | BuiltinOperator.BATCH_MATMUL => loadBatchMatMul h l op subg
  | BuiltinOperator.LOG_SOFTMAX => loadLogSoftmax h l op subg
  | BuiltinOperator.QUANTIZE => loadElementwiseUnary h l op subg ElementwiseUnaryType.QUANTIZE
  | BuiltinOperator.SPACE_TO_DEPTH => loadSpaceToDepth h l op subg
  | BuiltinOperator.L2_NORMALIZATION =>
    appended subg (loadOperationTo h l op subg Param.L2Normalization)
  | BuiltinOperator.LEAKY_RELU => loadLeakyRelu h l op subg
  | BuiltinOperator.RANK => appended subg (loadOperationTo h l op subg Param.Rank)
  | BuiltinOperator.other _ => stopped subg (LoadError.load_failed "Unsupported operation")

/-- Method `BaseLoader::loadOperation`. -/
def loadOperation (h : LoaderHooks) (l : LoaderState) (op : Operator) (subg : Graph) :
    GraphOutcome :=
  match builtinCodeOf l op with
  | Except.error e => stopped subg e
  | Except.ok builtin_op => dispatchOperation h l op subg builtin_op

end base_loader

end onert

/-! ### Operands -/

namespace onert

namespace base_loader

open ir

/-- Function `Copy`: false when the values are null, otherwise every value is
appended to `arr` after conversion to `uint16_t`. The result is the status and
`arr` as it is left. -/
def Copy (values : Option (List Int)) (arr : List Nat) : Bool × List Nat :=
  match values with
  | none => (false, arr)
  | some values => (true, arr ++ values.map toUInt16)

/-- One `switch` of `ParseSparseIndexVector` over the type of an index vector:
`Copy` for the three vector types, none for the `default` label. -/
def copyIndexVector (vector : SparseIndexVector) (arr : List Nat) : Option (Bool × List Nat) :=
  match vector with
  | SparseIndexVector.Int32Vector values => some (Copy values arr)
  | SparseIndexVector.Uint16Vector values => some (Copy values arr)
  | SparseIndexVector.Uint8Vector values => some (Copy values arr)
  | SparseIndexVector.other => none

/-- Lambda `ParseSparseIndexVector` of `loadOperand`: the status, `w1_segments`
and `w1_indices`. -/
def ParseSparseIndexVector (src_metadata : DimensionMetadata) : Bool × List Nat × List Nat :=
  match src_metadata.array_segments, src_metadata.array_indices with
  | some segments, some indices =>
    match copyIndexVector segments [] with
    | none => (false, [], [])
    | some copied_segments =>
      if copied_segments.1 != true then
        (false, copied_segments.2, [])
      else
        match copyIndexVector indices [] with
        | none => (false, copied_segments.2, [])
        | some copied_indices => (copied_indices.1, copied_segments.2, copied_indices.2)
  | _, _ => (false, [], [])

/-- Quantization part of `loadOperand`, the scale: the single value of the
vector, 0.0 when the vector is null, a load error for any other length. -/
def loadScale (scale : Option (List Float32)) : Except LoadError Float32 :=
  match scale with
  | some [value] => Except.ok value
  | some _ => Except.error (LoadError.load_failed "Only 1 scale for a tensor is supported.")
  | none => Except.ok (Float32.finite 0)

/-- Quantization part of `loadOperand`, the zero point: the single value of the
vector, 0 when the vector is null, a load error for any other length. The two
`assert`s keep the value within the range of `int32_t`. -/
def loadZeroPoint (zero_point : Option (List Int)) : Except LoadError Int :=
  match zero_point with
  | some [value] =>
    if value < -2147483648 then Except.error LoadError.assertion
    else if value > 2147483647 then Except.error LoadError.assertion
    else Except.ok value
  | some _ =>
    Except.error (LoadError.load_failed "Only 1 zero_point value for a tensor is supported.")
  | none => Except.ok 0

/-- Quantization part of `loadOperand`: the scale, then the zero point, then the
check that there are no custom quantization details. -/
def loadQuantization (q_params : Option QuantizationParameters) :
    Except LoadError (Float32 × Int) :=
  match q_params with
  | none => Except.ok (Float32.finite 0, 0)
  | some q_params =>
    match loadScale q_params.scale with
    | Except.error e => Except.error e
    | Except.ok scale =>
      match loadZeroPoint q_params.zero_point with
      | Except.error e => Except.error e
      | Except.ok zero_point =>
        if q_params.details_as_CustomQuantization then
          Except.error (LoadError.load_failed "Custom Quantization is not supported")
        else
          Except.ok (scale, zero_point)

/-- Sparsity part of `loadOperand`: the type information with the sparse
metadata, when the tensor has a sparsity table. The size of `dim_metadata` is
taken without a check for a null vector. -/
def loadSparsity (type_info : TypeInfo) (src_sparsity : Option SparsityParameters) :
    Except LoadError TypeInfo :=
  match src_sparsity with
  | none => Except.ok type_info
  | some src_sparsity =>
    match src_sparsity.dim_metadata with
    | none => Except.error LoadError.null_dereference
    | some [dim0, dim1] =>
      if dim0.format ≠ DimensionType.DENSE then
        Except.error (LoadError.load_failed "sparse tensor dim[0] is not DENSE")
      else if dim1.format ≠ DimensionType.SPARSE_CSR then
        Except.error (LoadError.load_failed "sparse tensor dim[0] is not SPARSE_CSR")
      else
        match ParseSparseIndexVector dim1 with
        | (false, _, _) =>
          Except.error
            (LoadError.load_failed "Error during parsing sparsity index information")
        | (true, w1_segments, w1_indices) =>
          Except.ok { type_info with sparse2DMetadata := some (w1_segments, w1_indices) }
    | some _ => Except.error (LoadError.load_failed "sparse tensor is supported only for 2D")

/-- Method `BaseLoader::deallocateMmappedArea`, for the range that starts `ptr`
bytes after `_base`. The offsets are `ptrdiff_t` values and `/` truncates. The
range handed to `munmap` is recorded; a failure of `munmap` is only logged. -/
def deallocateMmappedArea (l : LoaderState) (ptr : Int) (size : Nat) : LoaderState :=
  let unaligned_offset_start := ptr
  let unaligned_offset_end := unaligned_offset_start + size
  let aligned_offset_start :=
    (Int.tdiv (unaligned_offset_start + (l.pagesize - 1)) l.pagesize) * l.pagesize
  let aligned_offset_end := (Int.tdiv unaligned_offset_end l.pagesize) * l.pagesize
  let area_size := aligned_offset_end - aligned_offset_start
  if area_size > 0 then
    { l with unmapped := l.unmapped ++ [(aligned_offset_start, area_size)] }
  else
    l

/-- Result of `loadOperand`: the loader and the subgraph as they are left, and
the index of the new operand or the error that stopped the load. -/
structure OperandOutcome where
  loader : LoaderState
  subg : Graph
  result : Except LoadError OperandIndex

/-- Insertion into the map `_tensor_names`: nothing changes when the key is
there. -/
def emplaceName (names : List (OperandIndex × String)) (operand_index : OperandIndex)
    (name : String) : List (OperandIndex × String) :=
  if names.any (fun entry => entry.1 = operand_index) then names
  else names ++ [(operand_index, name)]

/-- Whether one of the `size` bytes that start `ptr` bytes after `_base` lies in
a range that was handed to `munmap`. -/
def readsUnmapped (l : LoaderState) (ptr : Int) (size : Nat) : Bool :=
  l.unmapped.any (fun area =>
    decide (0 < size ∧ area.1 < ptr + size ∧ ptr < area.1 + area.2))

/-- The block of `loadOperand` under `if (data != nullptr)`: the value of the
operand is a view of the bytes when the model is from memory (`_fd == -1`);
otherwise it is a copy of the bytes, and the range that was copied is given to
`deallocateMmappedArea` afterwards. Modelled from the spec: `CachedData` is
declared outside src/; it copies the bytes out of the memory-mapped region, so
it reads every one of them, and a byte that is no longer mapped cannot be read. -/
def loadOperandValue (l : LoaderState) (subg : Graph) (operand_index : OperandIndex)
    (data : Option BufferData) : Except LoadError (LoaderState × Graph) :=
  match data with
  | some data =>
    match l.fd with
    | none =>
      Except.ok (l, subg.setOperandValue operand_index (Data.ExternalData data.bytes))
    | some _ =>
      if readsUnmapped l data.offset data.bytes.length then
        Except.error LoadError.unmapped_access
      else
        Except.ok (deallocateMmappedArea l data.offset data.bytes.length,
          subg.setOperandValue operand_index (Data.CachedData data.bytes))
  | none => Except.ok (l, subg)

/-- Method `BaseLoader::loadOperand`. -/
def loadOperand (l : LoaderState) (tensor : Tensor) (subg : Graph) : OperandOutcome :=
  let shape : Shape :=
    match tensor.shape with
    | some tensor_shape => { dims := tensor_shape }
    | none => { dims := [] }
  match tensorTypeToDataType tensor.type with
  | Except.error e => { loader := l, subg := subg, result := Except.error e }
  | Except.ok data_type =>
    match loadQuantization tensor.quantization with
    | Except.error e => { loader := l, subg := subg, result := Except.error e }
    | Except.ok quantization =>
      let type_info : TypeInfo :=
        { type := data_type, scale := quantization.1, offset := quantization.2,
          sparse2DMetadata := none }
      match loadSparsity type_info tensor.sparsity with
      | Except.error e => { loader := l, subg := subg, result := Except.error e }
      | Except.ok type_info1 =>
        let added := subg.addOperand shape type_info1
        let operand_index := added.2
        match l.model.buffers[tensor.buffer]? with
        | none => { loader := l, subg := added.1, result := Except.error LoadError.assertion }
        | some buffer =>
          match loadOperandValue l added.1 operand_index buffer.data with
          | Except.error e => { loader := l, subg := added.1, result := Except.error e }
          | Except.ok valued =>
            match tensor.name with
            | none =>
              { loader := valued.1, subg := valued.2,
                result := Except.error LoadError.null_dereference }
            | some name =>
              let l1 : LoaderState :=
                { valued.1 with
                  tensor_names := emplaceName valued.1.tensor_names operand_index name }
              if tensor.is_variable then
                { loader := l1, subg := valued.2,
                  result := Except.error (LoadError.load_failed "Variable tensor not supported!") }
              else
                { loader := l1, subg := valued.2, result := Except.ok operand_index }

/-! ### Vocabulary of the loader properties -/

/-- A serialized tensor index that `tensorIdxToOperandIdx` can map: the absent
index -1, or the index of a tensor that was loaded. -/
def ValidTensorIndex (l : LoaderState) (idx : Int) : Prop :=
  idx = -1 ∨ (0 ≤ idx ∧ idx.toNat < l.tensor_to_operand.length)

instance (l : LoaderState) (idx : Int) : Decidable (ValidTensorIndex l idx) := by
  unfold ValidTensorIndex
  infer_instance

/-- The operand index of a serialized tensor index: the undefined index for -1,
and otherwise the operand that was created for the tensor of that index. -/
def operandOfTensor (l : LoaderState) (idx : Int) : OperandIndex :=
  if idx = -1 then undefinedOperandIndex
  else l.tensor_to_operand.getD idx.toNat undefinedOperandIndex

/-- The position, among the inputs of an operator, of the input whose value the
loader needs at load time: the size of the two resize operators, the
permutation of a transpose, the axis of a split and the multiples of a tile. -/
def structuralInput : BuiltinOperator → Option Nat
  | BuiltinOperator.RESIZE_BILINEAR => some 1
  | BuiltinOperator.RESIZE_NEAREST_NEIGHBOR => some 1
  | BuiltinOperator.TRANSPOSE => some 1
  | BuiltinOperator.SPLIT => some 0
  | BuiltinOperator.TILE => some Tile_MULTIPLES
  | _ => none

/-- The names of the custom operators that `loadCustom` knows. -/
def knownCustomNames : List String :=
  ["AddV2", "All", "MatrixBandPart", "BatchMatMulV2", "Einsum", "FusedBatchNormV3",
   "BroadcastTo", "StatelessRandomUniform", "Erf"]

/-- The new shape that `loadReshape` reads from the options of the operator: the
serialized list, or the empty list when the options or the list are absent. -/
def reshapeNewShape (op : Operator) : List Int :=
  match op.builtin_options_as_ReshapeOptions with
  | some options =>
    match options.new_shape with
    | some new_shape => new_shape
    | none => []
  | none => []

/-- The quantization table declares more or fewer than one scale or zero-point
value in a vector that is present, or it has custom quantization details. -/
def QuantizationRejected (q_params : Option QuantizationParameters) : Prop :=
  ∃ q, q_params = some q ∧
    ((∃ scale, q.scale = some scale ∧ scale.length ≠ 1) ∨
     (∃ zero_point, q.zero_point = some zero_point ∧ zero_point.length ≠ 1) ∨
     q.details_as_CustomQuantization = true)

/-- The quantization table declares exactly one zero-point value and that value
is outside the range of `int32_t`. -/
def ZeroPointOutOfRange (q_params : Option QuantizationParameters) : Prop :=
  ∃ q value, q_params = some q ∧ q.zero_point = some [value] ∧
    (value < -2147483648 ∨ 2147483647 < value)

/-- The scale that the quantization table declares: its single value, or 0 when
the table or the vector is absent. -/
def declaredScale (q_params : Option QuantizationParameters) : Float32 :=
  match q_params with
  | some q =>
    match q.scale with
    | some [value] => value
    | _ => Float32.finite 0
  | none => Float32.finite 0

/-- The zero point that the quantization table declares: its single value, or 0
when the table or the vector is absent. -/
def declaredZeroPoint (q_params : Option QuantizationParameters) : Int :=
  match q_params with
  | some q =>
    match q.zero_point with
    | some [value] => value
    | _ => 0
  | none => 0

/-! ### Sample model -/

/-- Hooks of a loader that allows the absent index for `FULLY_CONNECTED` only,
whose custom options carry no attribute, and that reads one 32-bit value per
byte. -/
def sampleHooks : LoaderHooks :=
  { allowOptionalInputTensor := fun builtin_code =>
      match builtin_code with
      | BuiltinOperator.FULLY_CONNECTED => true
      | _ => false
    GetRoot := fun _ _ =>
      { AsInt8 := 0, AsBool := false, AsFloat := Float32.finite 0, ToString := "" }
    toActivationFunctionType := fun _ => ActivationFunctionType.NONE
    squeeze_dims_capacity := 4
    asVector := fun bytes => bytes.map Int.ofNat
    asScalar := fun bytes => Int.ofNat (bytes.headD 0) }

/-- A loader in the middle of a subgraph with four tensors, loaded as the
operands 0 to 3. The operator codes are `RESHAPE`, the custom operators `Einsum`,
`FusedBatchNormV3` and `Foo`, `RESIZE_BILINEAR`, `RESIZE_NEAREST_NEIGHBOR`,
`TRANSPOSE`, `SPLIT`, `TILE`, `CONV_2D`, `LEAKY_RELU`, `IF`, `WHILE`,
`FULLY_CONNECTED` and `CAST`. Buffer 0 has no data section, buffer 1 has two
bytes, and the data section of buffer 2 is present and has no byte. -/
def sampleState : LoaderState :=
  { pagesize := 4096
    fd := none
    model :=
      { operator_codes :=
          [{ builtin_code := BuiltinOperator.RESHAPE, custom_code := none },
           { builtin_code := BuiltinOperator.CUSTOM, custom_code := some "Einsum" },
           { builtin_code := BuiltinOperator.CUSTOM, custom_code := some "FusedBatchNormV3" },
           { builtin_code := BuiltinOperator.CUSTOM, custom_code := some "Foo" },
           { builtin_code := BuiltinOperator.RESIZE_BILINEAR, custom_code := none },
           { builtin_code := BuiltinOperator.RESIZE_NEAREST_NEIGHBOR, custom_code := none },
           { builtin_code := BuiltinOperator.TRANSPOSE, custom_code := none },
           { builtin_code := BuiltinOperator.SPLIT, custom_code := none },
           { builtin_code := BuiltinOperator.TILE, custom_code := none },
           { builtin_code := BuiltinOperator.CONV_2D, custom_code := none },
           { builtin_code := BuiltinOperator.LEAKY_RELU, custom_code := none },
           { builtin_code := BuiltinOperator.IF, custom_code := none },
           { builtin_code := BuiltinOperator.WHILE, custom_code := none },
           { builtin_code := BuiltinOperator.FULLY_CONNECTED, custom_code := none },
           { builtin_code := BuiltinOperator.CAST, custom_code := none }]
        buffers := [{ data := none }, { data := some { offset := 64, bytes := [2, 2] } },
                    { data := some { offset := 72, bytes := [] } }] }
    tensor_to_operand := [0, 1, 2, 3]
    tensor_names := []
    unmapped := [] }

/-- A float operand of shape 2x2 without value and without quantization. -/
def sampleOperand : Operand :=
  { shape := { dims := [2, 2] },
    typeInfo := { type := DataType.FLOAT32, scale := Float32.finite 0, offset := 0,
                  sparse2DMetadata := none },
    data := none }

/-- A subgraph with four operands, none of them constant, and no operation. -/
def sampleGraph : Graph :=
  { operands := [sampleOperand, sampleOperand, sampleOperand, sampleOperand], operations := [] }

/-- A serialized operator with the given operator code index, inputs and custom
options, the output tensor 3, and no builtin options. -/
def sampleOperator (opcode_index : Nat) (inputs : List Int)
    (custom_options : Option (List Nat)) : Operator :=
  { opcode_index := opcode_index, inputs := inputs, outputs := [3],
    builtin_options := BuiltinOptions.other, custom_options := custom_options,
    custom_options_format := CustomOptionsFormat.FLEXBUFFERS }

/-- A quantization table with the scale 1/2 and the zero point 3. -/
def sampleQuantization : QuantizationParameters :=
  { scale := some [Float32.finite (1 / 2)], zero_point := some [3],
    details_as_CustomQuantization := false }

/-- A quantization table with no scale and the single zero point 2147483648,
which is beyond the range of `int32_t`. -/
def wideZeroPoint : QuantizationParameters :=
  { scale := none, zero_point := some [2147483648], details_as_CustomQuantization := false }

/-- A float tensor of shape 2x2 that refers to the empty buffer 0 and has the
given quantization table. -/
def sampleTensor (quantization : Option QuantizationParameters) : Tensor :=
  { shape := some [2, 2], type := TensorType.FLOAT32, buffer := 0, name := some "t",
    quantization := quantization, is_variable := false, sparsity := none }

/-- A float tensor of shape 2x2, without quantization and sparsity, that has the
given name and refers to the given buffer. -/
def sampleTensorOf (buffer : Nat) (name : String) : Tensor :=
  { shape := some [2, 2], type := TensorType.FLOAT32, buffer := buffer, name := some name,
    quantization := none, is_variable := false, sparsity := none }

/-- A subgraph without operands and operations. -/
def emptyGraph : Graph := { operands := [], operations := [] }

/-- A page of 4096 bytes, each of them 7. -/
def pageOfBytes : List Nat := List.replicate 4096 7

/-- A loader of a model that is mapped from a file (descriptor 3, pages of 4096
bytes), before any tensor is loaded. Buffer 0 has no data section; the data of
buffer 1 are the 4096 bytes `pageOfBytes`, which start 4096 bytes after `_base`. -/
def mappedState : LoaderState :=
  { pagesize := 4096
    fd := some 3
    model :=
      { operator_codes := []
        buffers := [{ data := none },
                    { data := some { offset := 4096, bytes := pageOfBytes } }] }
    tensor_to_operand := []
    tensor_names := []
    unmapped := [] }

/-- A serialized operator with the given operator code index, inputs, outputs
and builtin options, and no custom options. -/
def sampleBuiltin (opcode_index : Nat) (inputs outputs : List Int)
    (builtin_options : BuiltinOptions) : Operator :=
  { opcode_index := opcode_index, inputs := inputs, outputs := outputs,
    builtin_options := builtin_options, custom_options := none,
    custom_options_format := CustomOptionsFormat.FLEXBUFFERS }

/-- An operand like `sampleOperand` with 8-bit asymmetric quantized elements. -/
def quantizedOperand : Operand :=
  { shape := { dims := [2, 2] },
    typeInfo := { type := DataType.QUANT_UINT8_ASYMM, scale := Float32.finite (1 / 2),
                  offset := 3, sparse2DMetadata := none },
    data := none }

/-- A subgraph with four operands and no operation: the operand 1 has 8-bit
asymmetric quantized elements, the others are float operands. -/
def hybridGraph : Graph :=
  { operands := [sampleOperand, quantizedOperand, sampleOperand, sampleOperand],
    operations := [] }

/-- A `FULLY_CONNECTED` operator of `sampleState` with the input tensor 0, the
weights tensor 1, no bias and the output tensor 3, without fused activation. -/
def sampleFullyConnected : Operator :=
  sampleBuiltin 13 [0, 1, -1] [3]
    (BuiltinOptions.FullyConnectedOptions
      { fused_activation_function := ActivationFunctionType.NONE })

/-- An `IF` operator of `sampleState` with the condition tensor 0, the input
tensor 1 and the output tensor 3, which refers to the subgraphs 1 and 2. -/
def sampleIf : Operator :=
  sampleBuiltin 11 [0, 1] [3]
    (BuiltinOptions.IfOptions { then_subgraph_index := 1, else_subgraph_index := 2 })

/-- A `WHILE` operator of `sampleState` with the input tensor 0 and the output
tensor 3, which refers to the subgraphs 1 and 2. -/
def sampleWhile : Operator :=
  sampleBuiltin 12 [0] [3]
    (BuiltinOptions.WhileOptions { cond_subgraph_index := 1, body_subgraph_index := 2 })

/-- A sparsity table of two dimensions, the first dense and the second
compressed sparse row with the segments 0, 2 and the indices 0, 1. -/
def sampleSparsity : SparsityParameters :=
  { dim_metadata := some
      [{ format := DimensionType.DENSE, array_segments := none, array_indices := none },
       { format := DimensionType.SPARSE_CSR,
         array_segments := some (SparseIndexVector.Int32Vector (some [0, 2])),
         array_indices := some (SparseIndexVector.Uint8Vector (some [0, 1])) }] }

/-- The sparsity descriptors that the spec has `loadOperand` accept: exactly two
dimension-metadata entries, the first `DENSE` and the second `SPARSE_CSR`, with
the segment and the index array both present, each an `Int32`, `Uint16` or
`Uint8` vector with non-null values. -/
def AcceptedSparsity (sparsity : SparsityParameters) : Prop :=
  ∃ dim0 dim1 segments indices,
    sparsity.dim_metadata = some [dim0, dim1] ∧
    dim0.format = DimensionType.DENSE ∧ dim1.format = DimensionType.SPARSE_CSR ∧
    dim1.array_segments = some segments ∧ dim1.array_indices = some indices ∧
    (∃ values, segments = SparseIndexVector.Int32Vector (some values) ∨
      segments = SparseIndexVector.Uint16Vector (some values) ∨
      segments = SparseIndexVector.Uint8Vector (some values)) ∧
    (∃ values, indices = SparseIndexVector.Int32Vector (some values) ∨
      indices = SparseIndexVector.Uint16Vector (some values) ∨
      indices = SparseIndexVector.Uint8Vector (some values))

/-- A float tensor like `sampleTensorOf 0 "w"` with the sparsity table
`sampleSparsity`. -/
def sparseTensor : Tensor :=
  { shape := some [2, 2], type := TensorType.FLOAT32, buffer := 0, name := some "w",
    quantization := none, is_variable := false, sparsity := some sampleSparsity }

/-- A tensor like `sparseTensor` whose sparsity table has a null `dim_metadata`
vector. -/
def nullMetadataTensor : Tensor :=
  { sparseTensor with sparsity := some { dim_metadata := none } }

/-- A tensor like `sparseTensor` whose compressed dimension has a null segment
array and a null index array. -/
def nullSegmentsTensor : Tensor :=
  { sparseTensor with
    sparsity := some
      { dim_metadata := some
          [{ format := DimensionType.DENSE, array_segments := none, array_indices := none },
           { format := DimensionType.SPARSE_CSR, array_segments := none,
             array_indices := none }] } }

/-- The operand `o1` has the shape, the quantization (scale and zero point), the
sparsity metadata and the value of the operand `o`. -/
def SameButType (o o1 : Operand) : Prop :=
  o1.shape = o.shape ∧ o1.typeInfo.scale = o.typeInfo.scale ∧
  o1.typeInfo.offset = o.typeInfo.offset ∧
  o1.typeInfo.sparse2DMetadata = o.typeInfo.sparse2DMetadata ∧ o1.data = o.data

/-- The subgraph `g1` has the operands of `g`, each with the shape, quantization,
sparsity metadata and value it has in `g`, and with the element type it has in
`g` unless its index is in `ks`, its element type in `g` is `QUANT_UINT8_ASYMM`
and its element type in `g1` is `type`. -/
def RetypedAt (ks : List OperandIndex) (type : DataType) (g g1 : Graph) : Prop :=
  g1.operands.length = g.operands.length ∧
  ∀ (i : Nat) (o : Operand), g.operands[i]? = some o →
    ∃ o1, g1.operands[i]? = some o1 ∧ SameButType o o1 ∧
      (o1.typeInfo.type = o.typeInfo.type ∨
        (i ∈ ks ∧ o.typeInfo.type = DataType.QUANT_UINT8_ASYMM ∧ o1.typeInfo.type = type))

/-- The least multiple of the page size `P` that is not below the offset `s`, in
the words of the spec: `ceil(s/P)*P`. -/
def pageCeil (P s : Int) : Int := ⌈(s : ℚ) / (P : ℚ)⌉ * P

/-- The greatest multiple of the page size `P` that is not above the offset `e`,
in the words of the spec: `floor(e/P)*P`. -/
def pageFloor (P e : Int) : Int := ⌊(e : ℚ) / (P : ℚ)⌋ * P

/-- A loader like `sampleState` whose model has the single operator code
`ARG_MAX`. -/
def argMaxState : LoaderState :=
  { pagesize := 4096
    fd := none
    model :=
      { operator_codes := [{ builtin_code := BuiltinOperator.ARG_MAX, custom_code := none }]
        buffers := [{ data := none }] }
    tensor_to_operand := [0, 1, 2, 3]
    tensor_names := []
    unmapped := [] }

/-- An operand of shape [1], a single element of the given type, without value
and without quantization. -/
def singleElementOperand (type : DataType) : Operand :=
  { shape := { dims := [1] },
    typeInfo := { type := type, scale := Float32.finite 0, offset := 0,
                  sparse2DMetadata := none },
    data := none }

/-- A subgraph with four operands and no operation: the operand 1 is a single
element of the given type, the others are float operands. -/
def axisGraph (type : DataType) : Graph :=
  { operands := [sampleOperand, singleElementOperand type, sampleOperand, sampleOperand],
    operations := [] }

/-- An `ARG_MAX` operator of `argMaxState` with the input tensor 0, the axis
tensor 1 and the output tensor 3, with the given output type. -/
def sampleArgMax (output_type : TensorType) : Operator :=
  sampleBuiltin 0 [0, 1] [3] (BuiltinOptions.ArgMaxOptions { output_type := output_type })

/-- A loader like `argMaxState` whose model has the single operator code 200,
which is not a code of the dispatch list of `loadOperation`. -/
def unsupportedState : LoaderState :=
  { pagesize := 4096
    fd := none
    model :=
      { operator_codes := [{ builtin_code := BuiltinOperator.other 200, custom_code := none }]
        buffers := [{ data := none }] }
    tensor_to_operand := [0, 1, 2, 3]
    tensor_names := []
    unmapped := [] }

end base_loader

end onert

/-! ## Execution of a loaded graph, and the test `OneOp_LeakyRelu` -/

namespace onert

open ir base_loader

/-- A tensor at run time: its shape and its elements in row-major order. The
elements are finite floats, taken as rationals. -/
structure TensorValue where
  shape : List Nat
  data : List Rat
  deriving DecidableEq, Repr

/-- Modelled from the spec: the LeakyRelu kernel is outside src/. Negative
entries are scaled by alpha, non-negative entries are unchanged. -/
def leakyRelu (alpha x : Rat) : Rat :=
  if x < 0 then alpha * x else x

/-- Modelled from the spec: the executor and the kernels are outside src/.
Execution of a graph of a single operation, for an elementwise activation of the
type `LEAKY_RELU` with a finite alpha: the kernel is applied to every element of
the input, and the output has the shape of the input. Other graphs are not
modelled (none). -/
def executeSingle (g : Graph) (input : TensorValue) : Option TensorValue :=
  match g.operations with
  | [node] =>
    match node.param with
    | Param.ElementwiseActivation ElementwiseActivationType.LEAKY_RELU
        (Float32.finite alpha) _ =>
      some { shape := input.shape, data := input.data.map (leakyRelu alpha) }
    | _ => none
  | _ => none

/-- Test `OneOp_LeakyRelu`, the tensors `in` and `out` that it adds: float
tensors of shape 2x3. `CircleGen` is outside src/; the tensors it builds refer to
the buffer 0, which has no data. -/
def OneOp_LeakyRelu_tensor (name : String) : base_loader.Tensor :=
  { shape := some [2, 3], type := TensorType.FLOAT32, buffer := 0, name := some name,
    quantization := none, is_variable := false, sparsity := none }

/-- Test `OneOp_LeakyRelu`, the operator that `addOperatorLeakyRelu({{in}, {out}},
0.5)` adds: from tensor 0 to tensor 1, with the alpha 0.5. -/
def OneOp_LeakyRelu_operator : Operator :=
  { opcode_index := 0, inputs := [0], outputs := [1],
    builtin_options := BuiltinOptions.LeakyReluOptions { alpha := Float32.finite (1 / 2) },
    custom_options := none, custom_options_format := CustomOptionsFormat.FLEXBUFFERS }

/-- Test `OneOp_LeakyRelu`, the loader of its model before any tensor is loaded:
the model is in memory, its only operator code is `LEAKY_RELU` and its only
buffer is the empty buffer 0. -/
def OneOp_LeakyRelu_loader : LoaderState :=
  { pagesize := 4096
    fd := none
    model := { operator_codes := [{ builtin_code := BuiltinOperator.LEAKY_RELU,
                                     custom_code := none }],
               buffers := [{ data := none }] }
    tensor_to_operand := []
    tensor_names := []
    unmapped := [] }

/-- Test `OneOp_LeakyRelu`, its two tensors loaded in order into an empty
subgraph. -/
def OneOp_LeakyRelu_operands : OperandOutcome :=
  loadOperand (loadOperand OneOp_LeakyRelu_loader (OneOp_LeakyRelu_tensor "in") emptyGraph).loader
    (OneOp_LeakyRelu_tensor "out")
    (loadOperand OneOp_LeakyRelu_loader (OneOp_LeakyRelu_tensor "in") emptyGraph).subg

/-- Test `OneOp_LeakyRelu`, the loader once the tensors 0 and 1 are loaded as the
operands 0 and 1. -/
def OneOp_LeakyRelu_state : LoaderState :=
  { OneOp_LeakyRelu_operands.loader with tensor_to_operand := [0, 1] }

/-- Test `OneOp_LeakyRelu`, its subgraph after the operator is loaded. -/
def OneOp_LeakyRelu_graph : GraphOutcome :=
  loadOperation sampleHooks OneOp_LeakyRelu_state OneOp_LeakyRelu_operator
    OneOp_LeakyRelu_operands.subg

/-- Test `OneOp_LeakyRelu`, the input of its test case. -/
def OneOp_LeakyRelu_input : TensorValue :=
  { shape := [2, 3], data := [0, 1, 3, 1, -1, -2] }

/-- Test `OneOp_LeakyRelu`, the output that its test case expects. -/
def OneOp_LeakyRelu_expected : List Rat := [0, 1, 3, 1, -1 / 2, -1]

end onert

/-! ## Properties of the dynamic tensor manager -/

namespace onert

open DynamicTensorManager

theorem owns_allocate (m : DynamicMemoryManager) (ind : OperandIndex) (c : Nat) :
    (m.allocate ind c).1.owns m.allocators.length = true := by
  simp [DynamicMemoryManager.allocate, DynamicMemoryManager.owns]

theorem total_size_setShape (t : Tensor) (s : Shape) :
    ((setShape t s).set_dynamic).total_size = byteSize s t.data_type := by
  simp [setShape, Tensor.set_dynamic, Tensor.total_size, OperandInfo.total_size, byteSize,
    Tensor.data_type]

theorem allocTensorMem_tensors (d : DynamicTensorManager) (ind : OperandIndex) (t : Tensor)
    (ow : Bool) :
    (allocTensorMem d ind t ow).tensors ind
      = some { t with allocator := some d.dynamic_mem_mgr.allocators.length } := by
  cases ow <;>
    simp [allocTensorMem, Tensor.setBuffer, Tensor.overwriteBuffer, DynamicMemoryManager.allocate]

theorem allocTensorMem_mgr (d : DynamicTensorManager) (ind : OperandIndex) (t : Tensor)
    (ow : Bool) :
    (allocTensorMem d ind t ow).dynamic_mem_mgr = (d.dynamic_mem_mgr.allocate ind t.total_size).1 := by
  simp [allocTensorMem]

theorem allocTensorMem_bufferOf (d : DynamicTensorManager) (ind : OperandIndex) (t : Tensor)
    (ow : Bool) :
    (allocTensorMem d ind t ow).bufferOf ind
      = some (Buffer.dynamic_buffer d.dynamic_mem_mgr.allocators.length) := by
  simp [bufferOf, allocTensorMem_tensors, allocTensorMem_mgr, Tensor.buffer, owns_allocate]

theorem applyShape_same_size (d : DynamicTensorManager) (ind : OperandIndex) (s : Shape)
    (t : Tensor) (ht : d.tensors ind = some t) (hd : t.is_dynamic = true)
    (hb : t.buffer d.dynamic_mem_mgr ≠ none) (hs : t.total_size = byteSize s t.data_type) :
    d.applyShape ind s = { state := d, error := none } := by
  simp [applyShape, ht, hd, hb, hs, byteSize]

theorem applyShape_of_no_buffer (d : DynamicTensorManager) (ind : OperandIndex) (s : Shape)
    (t : Tensor) (ht : d.tensors ind = some t) (hb : t.buffer d.dynamic_mem_mgr = none) :
    (d.applyShape ind s).error = none ∧
    (d.applyShape ind s).state.dynamic_mem_mgr.calls
      = d.dynamic_mem_mgr.calls
          ++ [MemCall.allocate ind (s.num_elements * sizeOfDataType t.data_type)] ∧
    (d.applyShape ind s).state.dynamic_mem_mgr.allocators
      = d.dynamic_mem_mgr.allocators
          ++ [{ capacity := s.num_elements * sizeOfDataType t.data_type, released := false }] ∧
    (d.applyShape ind s).state.dynamic_mem_mgr.mem_alloc_map ind
      = some d.dynamic_mem_mgr.allocators.length ∧
    (d.applyShape ind s).state.bufferOf ind
      = some (Buffer.dynamic_buffer d.dynamic_mem_mgr.allocators.length) := by
  by_cases hd : t.is_dynamic = true
  · have h : d.applyShape ind s
        = { state := allocTensorMem d ind (setShape t s).set_dynamic false, error := none } := by
      simp [applyShape, ht, hd, hb]
    rw [h]
    refine ⟨rfl, ?_, ?_, ?_, allocTensorMem_bufferOf _ _ _ _⟩ <;>
      simp [allocTensorMem_mgr, total_size_setShape, byteSize, DynamicMemoryManager.allocate]
  · have h : d.applyShape ind s
        = { state := allocTensorMem d ind (setShape t s).set_dynamic true, error := none } := by
      simp [applyShape, ht, hd]
    rw [h]
    refine ⟨rfl, ?_, ?_, ?_, allocTensorMem_bufferOf _ _ _ _⟩ <;>
      simp [allocTensorMem_mgr, total_size_setShape, byteSize, DynamicMemoryManager.allocate]

theorem applyShape_after_allocTensorMem (d : DynamicTensorManager) (ind : OperandIndex)
    (t : Tensor) (ow : Bool) (s : Shape) (hd : t.is_dynamic = true)
    (hs : t.total_size = byteSize s t.data_type) :
    (allocTensorMem d ind t ow).applyShape ind s
      = { state := allocTensorMem d ind t ow, error := none } := by
  apply applyShape_same_size _ _ _ _ (allocTensorMem_tensors d ind t ow)
  · simpa [Tensor.is_dynamic] using hd
  · have h := allocTensorMem_bufferOf d ind t ow
    simp only [bufferOf, allocTensorMem_tensors] at h
    simp [h]
  · simpa [Tensor.total_size, Tensor.data_type] using hs

theorem is_dynamic_setShape (t : Tensor) (s : Shape) :
    ((setShape t s).set_dynamic).is_dynamic = true := by
  simp [setShape, Tensor.set_dynamic, Tensor.is_dynamic]

theorem data_type_setShape (t : Tensor) (s : Shape) :
    ((setShape t s).set_dynamic).data_type = t.data_type := by
  simp [setShape, Tensor.set_dynamic, Tensor.data_type]

/-- What `applyShape` does on a registered tensor, branch by branch. -/
theorem applyShape_cases (d : DynamicTensorManager) (ind : OperandIndex) (s : Shape)
    (t : Tensor) (ht : d.tensors ind = some t) :
    (∃ d1 ow, d.applyShape ind s
        = { state := allocTensorMem d1 ind (setShape t s).set_dynamic ow, error := none }) ∨
    (t.is_dynamic = true ∧ t.buffer d.dynamic_mem_mgr ≠ none ∧
      t.total_size = byteSize s t.data_type ∧
      d.applyShape ind s = { state := d, error := none }) := by
  by_cases hd : t.is_dynamic = true
  · by_cases hb : t.buffer d.dynamic_mem_mgr = none
    · left
      exact ⟨d, false, by simp [applyShape, ht, hd, hb]⟩
    · by_cases hs : t.total_size = byteSize s t.data_type
      · right
        exact ⟨hd, hb, hs, applyShape_same_size d ind s t ht hd hb hs⟩
      · left
        refine ⟨{ d with dynamic_mem_mgr := d.dynamic_mem_mgr.deallocate ind }, false, ?_⟩
        simp only [byteSize] at hs
        simp [applyShape, ht, hd, hb, hs]
  · left
    exact ⟨d, true, by simp [applyShape, ht, hd]⟩

/-- C9: for a registered tensor that holds no buffer, `applyShape ind s` issues
exactly one `allocate ind c` with `c` the number of elements of `s` times the
element size of the tensor, issues no `deallocate`, and the buffer of the tensor
afterwards is the buffer of the allocator object that `allocate` made and
returned (a new object of capacity `c`, held for `ind`). -/
theorem applyShape_without_buffer (d : DynamicTensorManager) (ind : OperandIndex) (s : Shape)
    (t : Tensor) (ht : d.tensors ind = some t) (hb : t.buffer d.dynamic_mem_mgr = none) :
    (d.applyShape ind s).error = none ∧
    (d.applyShape ind s).state.dynamic_mem_mgr.calls
      = d.dynamic_mem_mgr.calls
          ++ [MemCall.allocate ind (s.num_elements * sizeOfDataType t.data_type)] ∧
    (d.applyShape ind s).state.dynamic_mem_mgr.allocators
      = d.dynamic_mem_mgr.allocators
          ++ [{ capacity := s.num_elements * sizeOfDataType t.data_type, released := false }] ∧
    (d.applyShape ind s).state.dynamic_mem_mgr.mem_alloc_map ind
      = some d.dynamic_mem_mgr.allocators.length ∧
    (d.applyShape ind s).state.bufferOf ind
      = some (Buffer.dynamic_buffer d.dynamic_mem_mgr.allocators.length) :=
  applyShape_of_no_buffer d ind s t ht hb

/-- Witness of C9 on the freshly built tensor of `sampleFresh`: one
`allocate 0 24` and the new buffer. -/
theorem applyShape_without_buffer_witness :
    sampleFresh.tensors 0 = some (Tensor.make sampleInfo Layout.NHWC) ∧
    (Tensor.make sampleInfo Layout.NHWC).buffer sampleFresh.dynamic_mem_mgr = none ∧
    (sampleFresh.applyShape 0 { dims := [3, 2] }).state.dynamic_mem_mgr.calls
      = [MemCall.allocate 0 24] ∧
    (sampleFresh.applyShape 0 { dims := [3, 2] }).state.bufferOf 0
      = some (Buffer.dynamic_buffer 0) :=
  ⟨rfl, rfl,
    (applyShape_without_buffer sampleFresh 0 { dims := [3, 2] }
      (Tensor.make sampleInfo Layout.NHWC) rfl rfl).2.1,
    (applyShape_without_buffer sampleFresh 0 { dims := [3, 2] }
      (Tensor.make sampleInfo Layout.NHWC) rfl rfl).2.2.2.2⟩

/-- C3: for a registered tensor and two shapes of equal byte size, `applyShape`
with the first and then with the second succeeds both times; the second call
issues no call of the memory manager and leaves the manager as it was, and the
tensor holds afterwards the very buffer it held after the first call. -/
theorem applyShape_twice_equal_size (d : DynamicTensorManager) (ind : OperandIndex)
    (s1 s2 : Shape) (t : Tensor) (ht : d.tensors ind = some t)
    (hs : s1.num_elements * sizeOfDataType t.data_type
      = s2.num_elements * sizeOfDataType t.data_type) :
    (d.applyShape ind s1).error = none ∧
    ((d.applyShape ind s1).state.applyShape ind s2).error = none ∧
    ((d.applyShape ind s1).state.applyShape ind s2).state.dynamic_mem_mgr.calls
      = (d.applyShape ind s1).state.dynamic_mem_mgr.calls ∧
    ((d.applyShape ind s1).state.applyShape ind s2).state.dynamic_mem_mgr.allocators
      = (d.applyShape ind s1).state.dynamic_mem_mgr.allocators ∧
    (∃ b, (d.applyShape ind s1).state.bufferOf ind = some b ∧
      ((d.applyShape ind s1).state.applyShape ind s2).state.bufferOf ind = some b) := by
  rcases applyShape_cases d ind s1 t ht with ⟨d1, ow, h⟩ | ⟨hd, hb, hs1, h⟩
  · have h2 := applyShape_after_allocTensorMem d1 ind (setShape t s1).set_dynamic ow s2
      (is_dynamic_setShape t s1)
      (by rw [total_size_setShape, data_type_setShape]; simpa [byteSize] using hs)
    rw [h]
    dsimp only
    rw [h2]
    exact ⟨rfl, rfl, rfl, rfl, _, allocTensorMem_bufferOf _ _ _ _, allocTensorMem_bufferOf _ _ _ _⟩
  · have h2 := applyShape_same_size d ind s2 t ht hd hb
      (by rw [hs1]; simpa [byteSize] using hs)
    rw [h]
    dsimp only
    rw [h2]
    obtain ⟨b, hb1⟩ := Option.ne_none_iff_exists.mp hb
    refine ⟨rfl, rfl, rfl, rfl, b, ?_, ?_⟩ <;> simp [bufferOf, ht, ← hb1]

/-- Witness of C3 on `sampleFresh` with the shapes 2x3 and 3x2 (24 bytes each). -/
theorem applyShape_twice_equal_size_witness :
    sampleFresh.tensors 0 = some (Tensor.make sampleInfo Layout.NHWC) ∧
    ((sampleFresh.applyShape 0 { dims := [2, 3] }).state.applyShape 0
        { dims := [3, 2] }).state.dynamic_mem_mgr.calls
      = (sampleFresh.applyShape 0 { dims := [2, 3] }).state.dynamic_mem_mgr.calls :=
  ⟨rfl, (applyShape_twice_equal_size sampleFresh 0 { dims := [2, 3] } { dims := [3, 2] }
      (Tensor.make sampleInfo Layout.NHWC) rfl rfl).2.2.1⟩

/-- C2, the input on which the code departs from it: the tensor of operand 0 in
`sampleDynamic` is dynamic, has shape 2x3 and holds a buffer of 24 bytes;
`applyShape 0 [3, 2]` asks for the same byte size, succeeds, and leaves the
shape 2x3 in place: the shape is not the one that was applied. -/
theorem applyShape_equal_size_keeps_shape :
    sampleDynamic.dynamicFlag 0 = true ∧
    sampleDynamic.bufferOf 0 = some (Buffer.dynamic_buffer 0) ∧
    (sampleDynamic.applyShape 0 { dims := [3, 2] }).error = none ∧
    ((sampleDynamic.applyShape 0 { dims := [3, 2] }).state.tensors 0).map (fun t => t.info.shape)
      = some { dims := [2, 3] } ∧
    ((sampleDynamic.applyShape 0 { dims := [3, 2] }).state.tensors 0).map (fun t => t.info.shape)
      ≠ some { dims := [3, 2] } := by
  refine ⟨rfl, rfl, rfl, rfl, ?_⟩
  decide

/-- C4, counterexample: the tensor of operand 0 in `sampleStatic` holds a buffer
(placed statically, 8 bytes) and `applyShape 0 [3]` asks for 12 bytes, a
different size; the only call issued is `allocate 0 12`, without any
`deallocate`. -/
theorem applyShape_static_buffer_no_deallocate :
    sampleStatic.bufferOf 0 = some (Buffer.static_buffer 100) ∧
    staticTensor.total_size = 8 ∧
    byteSize { dims := [3] } staticTensor.data_type = 12 ∧
    (sampleStatic.applyShape 0 { dims := [3] }).state.dynamic_mem_mgr.calls
      = [MemCall.allocate 0 12] ∧
    (sampleStatic.applyShape 0 { dims := [3] }).state.dynamic_mem_mgr.calls
      ≠ sampleStatic.dynamic_mem_mgr.calls ++ [MemCall.deallocate 0, MemCall.allocate 0 12] := by
  refine ⟨rfl, rfl, rfl, rfl, ?_⟩
  decide

/-- C4, amended: for a registered tensor whose dynamic flag is set and that holds
a buffer, `applyShape ind s` with a shape whose byte size differs from the
current byte size of the tensor succeeds and issues exactly `deallocate ind`
followed by `allocate ind c`, with `c` the byte size of the new shape. -/
theorem applyShape_dynamic_resize (d : DynamicTensorManager) (ind : OperandIndex) (s : Shape)
    (t : Tensor) (ht : d.tensors ind = some t) (hd : t.is_dynamic = true)
    (hb : t.buffer d.dynamic_mem_mgr ≠ none)
    (hs : t.total_size ≠ s.num_elements * sizeOfDataType t.data_type) :
    (d.applyShape ind s).error = none ∧
    (d.applyShape ind s).state.dynamic_mem_mgr.calls
      = d.dynamic_mem_mgr.calls
          ++ [MemCall.deallocate ind,
              MemCall.allocate ind (s.num_elements * sizeOfDataType t.data_type)] := by
  have h : d.applyShape ind s
      = { state := allocTensorMem { d with dynamic_mem_mgr := d.dynamic_mem_mgr.deallocate ind }
                     ind (setShape t s).set_dynamic false,
          error := none } := by
    simp [applyShape, ht, hd, hb, hs]
  rw [h]
  refine ⟨rfl, ?_⟩
  simp [allocTensorMem_mgr, total_size_setShape, byteSize, DynamicMemoryManager.allocate,
    DynamicMemoryManager.deallocate]

/-- Witness of amended C4 on `sampleDynamic` (24 bytes held) and the shape [4]
(16 bytes). -/
theorem applyShape_dynamic_resize_witness :
    sampleDynamic.tensors 0
      = some { info := { sampleInfo with is_dynamic := true }, layout := Layout.NHWC,
               static_buffer := none, allocator := some 0 } ∧
    (sampleDynamic.applyShape 0 { dims := [4] }).state.dynamic_mem_mgr.calls
      = [MemCall.allocate 0 24, MemCall.deallocate 0, MemCall.allocate 0 16] :=
  ⟨rfl, (applyShape_dynamic_resize sampleDynamic 0 { dims := [4] }
      { info := { sampleInfo with is_dynamic := true }, layout := Layout.NHWC,
        static_buffer := none, allocator := some 0 } rfl rfl (by decide) (by decide)).2⟩

/-- C8, counterexample: the tensor of operand 0 in `sampleStatic` holds a
statically placed buffer and has 8 bytes; `applyShape 0 [2]` asks for the same 8
bytes, and yet `allocate 0 8` is issued and the buffer of the tensor is replaced
by the new allocation. -/
theorem applyShape_static_buffer_not_reused :
    sampleStatic.bufferOf 0 = some (Buffer.static_buffer 100) ∧
    staticTensor.total_size = byteSize { dims := [2] } staticTensor.data_type ∧
    (sampleStatic.applyShape 0 { dims := [2] }).state.dynamic_mem_mgr.calls
      = [MemCall.allocate 0 8] ∧
    (sampleStatic.applyShape 0 { dims := [2] }).state.bufferOf 0
      = some (Buffer.dynamic_buffer 0) ∧
    (sampleStatic.applyShape 0 { dims := [2] }).state.bufferOf 0 ≠ sampleStatic.bufferOf 0 := by
  refine ⟨rfl, rfl, rfl, rfl, ?_⟩
  decide

/-- C8, amended: for a registered tensor whose dynamic flag is set and that holds
a buffer, `applyShape ind s` with a shape whose byte size equals the current byte
size of the tensor succeeds and changes nothing: the state afterwards is the
state before, so the buffer is the same and no call is issued. -/
theorem applyShape_dynamic_equal_size (d : DynamicTensorManager) (ind : OperandIndex)
    (s : Shape) (t : Tensor) (ht : d.tensors ind = some t) (hd : t.is_dynamic = true)
    (hb : t.buffer d.dynamic_mem_mgr ≠ none)
    (hs : t.total_size = s.num_elements * sizeOfDataType t.data_type) :
    (d.applyShape ind s).error = none ∧
    (d.applyShape ind s).state = d ∧
    (d.applyShape ind s).state.bufferOf ind = d.bufferOf ind ∧
    (d.applyShape ind s).state.dynamic_mem_mgr.calls = d.dynamic_mem_mgr.calls := by
  rw [applyShape_same_size d ind s t ht hd hb hs]
  exact ⟨rfl, rfl, rfl, rfl⟩

/-- Witness of amended C8 on `sampleDynamic` (24 bytes held) and the shape 3x2. -/
theorem applyShape_dynamic_equal_size_witness :
    sampleDynamic.tensors 0
      = some { info := { sampleInfo with is_dynamic := true }, layout := Layout.NHWC,
               static_buffer := none, allocator := some 0 } ∧
    (sampleDynamic.applyShape 0 { dims := [3, 2] }).state.bufferOf 0
      = some (Buffer.dynamic_buffer 0) ∧
    (sampleDynamic.applyShape 0 { dims := [3, 2] }).state.dynamic_mem_mgr.calls
      = [MemCall.allocate 0 24] :=
  ⟨rfl,
    (applyShape_dynamic_equal_size sampleDynamic 0 { dims := [3, 2] }
      { info := { sampleInfo with is_dynamic := true }, layout := Layout.NHWC,
        static_buffer := none, allocator := some 0 } rfl rfl (by decide) rfl).2.2.1,
    (applyShape_dynamic_equal_size sampleDynamic 0 { dims := [3, 2] }
      { info := { sampleInfo with is_dynamic := true }, layout := Layout.NHWC,
        static_buffer := none, allocator := some 0 } rfl rfl (by decide) rfl).2.2.2⟩

/-! ### Releasing buffers -/

theorem owns_releaseAllocator_self (as : List Allocator) (a : Nat) :
    (match (releaseAllocator as a)[a]? with
      | some o => !o.released
      | none => false) = false := by
  unfold releaseAllocator
  cases h : as[a]? with
  | none => simp [h]
  | some o =>
    have hlt : a < as.length := by
      rcases List.getElem?_eq_some.mp h with ⟨hlt, _⟩
      exact hlt
    simp [List.getElem?_set_self hlt]

theorem getElem?_releaseAllocator_ne (as : List Allocator) (a b : Nat) (hne : b ≠ a) :
    (releaseAllocator as b)[a]? = as[a]? := by
  unfold releaseAllocator
  cases h : as[b]? with
  | none => rfl
  | some o => simp [List.getElem?_set_ne hne]

theorem owns_deallocate_self (m : DynamicMemoryManager) (x : OperandIndex) (a : Nat)
    (hm : m.mem_alloc_map x = some a) : (m.deallocate x).owns a = false := by
  simp only [DynamicMemoryManager.deallocate, DynamicMemoryManager.owns, hm]
  exact owns_releaseAllocator_self m.allocators a

theorem owns_deallocate_mono (m : DynamicMemoryManager) (y : OperandIndex) (a : Nat)
    (h : m.owns a = false) : (m.deallocate y).owns a = false := by
  cases hy : m.mem_alloc_map y with
  | none => simpa [DynamicMemoryManager.deallocate, DynamicMemoryManager.owns, hy] using h
  | some b =>
    by_cases hba : b = a
    · subst hba
      exact owns_deallocate_self m y b hy
    · simp only [DynamicMemoryManager.deallocate, DynamicMemoryManager.owns, hy,
        getElem?_releaseAllocator_ne m.allocators a b hba]
      exact h

theorem deallocInputLoop_tensors (l : List OperandIndex) :
    ∀ d : DynamicTensorManager,
      (deallocInputLoop d l).state.tensors = d.tensors ∧
      (deallocInputLoop d l).state.dealloc_tensor_map = d.dealloc_tensor_map := by
  induction l with
  | nil => intro d; exact ⟨rfl, rfl⟩
  | cons y l ih =>
    intro d
    unfold deallocInputLoop
    cases hy : d.tensors y with
    | none => exact ⟨rfl, rfl⟩
    | some ty =>
      by_cases hdy : ty.is_dynamic = true
      · simpa [hdy] using ih { d with dynamic_mem_mgr := d.dynamic_mem_mgr.deallocate y }
      · simpa [hdy] using ih d

theorem deallocInputLoop_calls (l : List OperandIndex) :
    ∀ d : DynamicTensorManager, (∀ x ∈ l, (d.tensors x).isSome = true) →
      (deallocInputLoop d l).error = none ∧
      (deallocInputLoop d l).state.dynamic_mem_mgr.calls
        = d.dynamic_mem_mgr.calls
            ++ (l.filter (fun x => d.dynamicFlag x)).map MemCall.deallocate := by
  induction l with
  | nil => intro d _; simp [deallocInputLoop]
  | cons y l ih =>
    intro d hreg
    have hy := hreg y (List.mem_cons_self y l)
    have hl : ∀ x ∈ l, (d.tensors x).isSome = true :=
      fun x hx => hreg x (List.mem_cons_of_mem y hx)
    obtain ⟨ty, hty⟩ := Option.isSome_iff_exists.mp hy
    unfold deallocInputLoop
    by_cases hdy : ty.is_dynamic = true
    · have ih1 := ih { d with dynamic_mem_mgr := d.dynamic_mem_mgr.deallocate y } hl
      have hflag : d.dynamicFlag y = true := by simp [dynamicFlag, hty, hdy]
      have hsame : ∀ x, dynamicFlag { d with dynamic_mem_mgr := d.dynamic_mem_mgr.deallocate y } x
          = d.dynamicFlag x := fun _ => rfl
      simp only [hsame] at ih1
      simp only [hty, hdy, Bool.not_true, Bool.false_eq_true, if_false]
      refine ⟨ih1.1, ?_⟩
      rw [ih1.2]
      simp [hflag, List.filter_cons, DynamicMemoryManager.deallocate]
    · have ih1 := ih d hl
      have hflag : d.dynamicFlag y = false := by simp [dynamicFlag, hty, hdy]
      simp [hty, hdy, hflag, ih1]

theorem deallocInputLoop_owns (x : OperandIndex) (t : Tensor) (a : Nat)
    (hd : t.is_dynamic = true) (l : List OperandIndex) :
    ∀ d : DynamicTensorManager, d.tensors x = some t →
      (d.dynamic_mem_mgr.owns a = false ∨ (d.dynamic_mem_mgr.mem_alloc_map x = some a ∧ x ∈ l)) →
      (∀ y ∈ l, (d.tensors y).isSome = true) →
      (deallocInputLoop d l).state.dynamic_mem_mgr.owns a = false := by
  induction l with
  | nil =>
    intro d _ h _
    rcases h with h | ⟨_, hx⟩
    · simpa [deallocInputLoop] using h
    · simp at hx
  | cons y l ih =>
    intro d ht h hreg
    have hy := hreg y (List.mem_cons_self y l)
    have hl : ∀ z ∈ l, (d.tensors z).isSome = true :=
      fun z hz => hreg z (List.mem_cons_of_mem y hz)
    obtain ⟨ty, hty⟩ := Option.isSome_iff_exists.mp hy
    unfold deallocInputLoop
    by_cases hdy : ty.is_dynamic = true
    · simp only [hty, hdy, Bool.not_true, Bool.false_eq_true, if_false]
      apply ih { d with dynamic_mem_mgr := d.dynamic_mem_mgr.deallocate y } ht _ hl
      rcases h with h | ⟨hm, hx⟩
      · exact Or.inl (owns_deallocate_mono _ y a h)
      · by_cases hyx : y = x
        · subst hyx
          exact Or.inl (owns_deallocate_self _ y a hm)
        · rcases List.mem_cons.mp hx with hx | hx
          · exact absurd hx.symm hyx
          · refine Or.inr ⟨?_, hx⟩
            simp only [DynamicMemoryManager.deallocate]
            rw [Function.update_noteq (Ne.symm hyx)]
            exact hm
    · have hyx : y ≠ x := by
        intro hyx
        subst hyx
        rw [ht] at hty
        cases hty
        exact hdy hd
      simp only [hty, hdy, Bool.not_false, if_true]
      apply ih d ht _ hl
      rcases h with h | ⟨hm, hx⟩
      · exact Or.inl h
      · rcases List.mem_cons.mp hx with hx | hx
        · exact absurd hx.symm hyx
        · exact Or.inr ⟨hm, hx⟩

theorem allocatesAnew_of_released (d : DynamicTensorManager) (x : OperandIndex) (t : Tensor)
    (a : Nat) (ht : d.tensors x = some t) (ha : t.allocator = some a)
    (ho : d.dynamic_mem_mgr.owns a = false) :
    d.bufferOf x = none ∧ ∀ s, AllocatesAnew d x s t.data_type := by
  have hb : t.buffer d.dynamic_mem_mgr = none := by simp [Tensor.buffer, ha, ho]
  refine ⟨by simp [bufferOf, ht, hb], fun s => ?_⟩
  have h := applyShape_of_no_buffer d x s t ht hb
  exact ⟨h.1, h.2.1, h.2.2.2.2⟩

/-- The calls of `deallocInput`, an operand without allocation: in
`samplePlanned` operand 0 is planned after operation 5, its dynamic flag is set,
and it is not allocated (the tensor holds no buffer and the memory manager holds
no allocation for it); `deallocInput 5` calls `deallocate 0` all the same, a call
that has nothing to release. -/
theorem deallocInput_deallocates_unallocated :
    samplePlanned.planned 5 = [0] ∧
    samplePlanned.dynamicFlag 0 = true ∧
    samplePlanned.bufferOf 0 = none ∧
    samplePlanned.dynamic_mem_mgr.mem_alloc_map 0 = none ∧
    (samplePlanned.deallocInput 5).state.dynamic_mem_mgr.calls = [MemCall.deallocate 0] ∧
    MemCall.deallocate 0 ∈ (samplePlanned.deallocInput 5).state.dynamic_mem_mgr.calls := by
  refine ⟨rfl, rfl, rfl, rfl, rfl, ?_⟩
  decide

/-- The calls of `deallocInput`: when every operand planned after `op` is
registered, `deallocInput op` succeeds and the calls it issues are exactly `deallocate x` for
the operands `x` planned after `op` whose dynamic flag is set, one call each in
the order of the plan, whether or not `x` is currently allocated; so no
`deallocate` is issued for an operand whose dynamic flag is unset or that is not
planned after `op`. The tensors and the plan are left as they were. -/
theorem deallocInput_calls (d : DynamicTensorManager) (op : OperationIndex)
    (hreg : ∀ x ∈ d.planned op, (d.tensors x).isSome = true) :
    (d.deallocInput op).error = none ∧
    (d.deallocInput op).state.dynamic_mem_mgr.calls
      = d.dynamic_mem_mgr.calls
          ++ ((d.planned op).filter (fun x => d.dynamicFlag x)).map MemCall.deallocate ∧
    (∀ x, MemCall.deallocate x
          ∈ ((d.planned op).filter (fun x => d.dynamicFlag x)).map MemCall.deallocate
        ↔ x ∈ d.planned op ∧ d.dynamicFlag x = true) ∧
    (∀ x c, MemCall.allocate x c
          ∉ ((d.planned op).filter (fun x => d.dynamicFlag x)).map MemCall.deallocate) ∧
    (d.deallocInput op).state.tensors = d.tensors ∧
    (d.deallocInput op).state.dealloc_tensor_map = d.dealloc_tensor_map := by
  have hmem : ∀ x, MemCall.deallocate x
        ∈ ((d.planned op).filter (fun x => d.dynamicFlag x)).map MemCall.deallocate
      ↔ x ∈ d.planned op ∧ d.dynamicFlag x = true := by
    intro x
    simp [List.mem_map, List.mem_filter]
  have hno : ∀ x c, MemCall.allocate x c
        ∉ ((d.planned op).filter (fun x => d.dynamicFlag x)).map MemCall.deallocate := by
    intro x c
    simp [List.mem_map]
  cases hp : d.dealloc_tensor_map op with
  | none =>
    have hpl : d.planned op = [] := by simp [planned, hp]
    refine ⟨?_, ?_, hmem, hno, ?_, ?_⟩ <;> simp [deallocInput, hp, hpl]
  | some input_set =>
    have hpl : d.planned op = input_set := by simp [planned, hp]
    rw [hpl] at hreg
    have h1 := deallocInputLoop_calls input_set d hreg
    have h2 := deallocInputLoop_tensors input_set d
    refine ⟨?_, ?_, hmem, hno, ?_, ?_⟩
    · simpa [deallocInput, hp] using h1.1
    · simpa [deallocInput, hp, hpl] using h1.2
    · simpa [deallocInput, hp] using h2.1
    · simpa [deallocInput, hp] using h2.2

/-- The calls of `deallocInput` on `sampleDynamicPlanned`: operand 0 is planned
after operation 5 and dynamic, and `deallocInput 5` issues one `deallocate 0`. -/
theorem deallocInput_calls_witness :
    (∀ x ∈ sampleDynamicPlanned.planned 5, (sampleDynamicPlanned.tensors x).isSome = true) ∧
    (sampleDynamicPlanned.deallocInput 5).state.dynamic_mem_mgr.calls
      = sampleDynamicPlanned.dynamic_mem_mgr.calls
          ++ ((sampleDynamicPlanned.planned 5).filter
                (fun x => sampleDynamicPlanned.dynamicFlag x)).map MemCall.deallocate :=
  ⟨by decide, (deallocInput_calls sampleDynamicPlanned 5 (by decide)).2.1⟩

/-! ### What `deallocInput` releases -/

theorem deallocInputLoop_map (l : List OperandIndex) :
    ∀ (d : DynamicTensorManager) (x : OperandIndex),
      (deallocInputLoop d l).state.dynamic_mem_mgr.mem_alloc_map x
          = d.dynamic_mem_mgr.mem_alloc_map x ∨
        ((deallocInputLoop d l).state.dynamic_mem_mgr.mem_alloc_map x = none ∧ x ∈ l ∧
          d.dynamicFlag x = true) := by
  induction l with
  | nil => intro d x; exact Or.inl rfl
  | cons y l ih =>
    intro d x
    unfold deallocInputLoop
    cases hy : d.tensors y with
    | none => exact Or.inl rfl
    | some ty =>
      by_cases hdy : ty.is_dynamic = true
      · simp only [hdy, Bool.not_true, Bool.false_eq_true, if_false]
        rcases ih { d with dynamic_mem_mgr := d.dynamic_mem_mgr.deallocate y } x with h | h
        · by_cases hxy : x = y
          · subst hxy
            refine Or.inr ⟨?_, List.mem_cons_self _ _, by simp [dynamicFlag, hy, hdy]⟩
            rw [h]
            simp [DynamicMemoryManager.deallocate]
          · left
            rw [h]
            simp [DynamicMemoryManager.deallocate, Function.update_noteq hxy]
        · exact Or.inr ⟨h.1, List.mem_cons_of_mem _ h.2.1, h.2.2⟩
      · simp only [hdy, Bool.not_false, if_true]
        rcases ih d x with h | h
        · exact Or.inl h
        · exact Or.inr ⟨h.1, List.mem_cons_of_mem _ h.2.1, h.2.2⟩

theorem deallocInputLoop_released (l : List OperandIndex) :
    ∀ (d : DynamicTensorManager) (x : OperandIndex),
      (∀ y ∈ l, (d.tensors y).isSome = true) → x ∈ l → d.dynamicFlag x = true →
      (deallocInputLoop d l).state.dynamic_mem_mgr.mem_alloc_map x = none := by
  induction l with
  | nil => intro d x _ hx; simp at hx
  | cons y l ih =>
    intro d x hreg hx hdx
    have hy := hreg y (List.mem_cons_self y l)
    have hl : ∀ z ∈ l, (d.tensors z).isSome = true :=
      fun z hz => hreg z (List.mem_cons_of_mem y hz)
    obtain ⟨ty, hty⟩ := Option.isSome_iff_exists.mp hy
    unfold deallocInputLoop
    simp only [hty]
    by_cases hdy : ty.is_dynamic = true
    · simp only [hdy, Bool.not_true, Bool.false_eq_true, if_false]
      by_cases hxy : x = y
      · subst hxy
        rcases deallocInputLoop_map l
          { d with dynamic_mem_mgr := d.dynamic_mem_mgr.deallocate x } x with h | h
        · rw [h]
          simp [DynamicMemoryManager.deallocate]
        · exact h.1
      · have hxl : x ∈ l := by
          rcases List.mem_cons.mp hx with h | h
          · exact absurd h hxy
          · exact h
        exact ih _ x hl hxl hdx
    · simp only [hdy, Bool.not_false, if_true]
      have hxy : x ≠ y := by
        intro h
        subst h
        simp [dynamicFlag, hty] at hdx
        exact hdy hdx
      have hxl : x ∈ l := by
        rcases List.mem_cons.mp hx with h | h
        · exact absurd h hxy
        · exact h
      exact ih d x hl hxl hdx

theorem deallocInputLoop_allocators (l : List OperandIndex) :
    ∀ (d : DynamicTensorManager) (a : Nat),
      (∀ y ∈ l, d.dynamicFlag y = true → d.dynamic_mem_mgr.mem_alloc_map y ≠ some a) →
      (deallocInputLoop d l).state.dynamic_mem_mgr.allocators[a]?
        = d.dynamic_mem_mgr.allocators[a]? := by
  induction l with
  | nil => intro d a _; rfl
  | cons y l ih =>
    intro d a hne
    unfold deallocInputLoop
    cases hy : d.tensors y with
    | none => rfl
    | some ty =>
      by_cases hdy : ty.is_dynamic = true
      · simp only [hdy, Bool.not_true, Bool.false_eq_true, if_false]
        have hya := hne y (List.mem_cons_self y l) (by simp [dynamicFlag, hy, hdy])
        rw [ih { d with dynamic_mem_mgr := d.dynamic_mem_mgr.deallocate y } a ?_]
        · simp only [DynamicMemoryManager.deallocate]
          cases hm : d.dynamic_mem_mgr.mem_alloc_map y with
          | none => rfl
          | some b =>
            have hba : b ≠ a := by
              intro h
              subst h
              exact hya hm
            exact getElem?_releaseAllocator_ne d.dynamic_mem_mgr.allocators a b hba
        · intro z hz hdz
          have hdz1 : d.dynamicFlag z = true := by simpa [dynamicFlag] using hdz
          have h1 := hne z (List.mem_cons_of_mem y hz) hdz1
          by_cases hzy : z = y
          · subst hzy
            simp [DynamicMemoryManager.deallocate]
          · simpa [DynamicMemoryManager.deallocate, Function.update_noteq hzy] using h1
      · simp only [hdy, Bool.not_false, if_true]
        exact ih d a (fun z hz hdz => hne z (List.mem_cons_of_mem y hz) hdz)

theorem deallocInputLoop_error (l : List OperandIndex) :
    ∀ d : DynamicTensorManager,
      ((deallocInputLoop d l).error = none ↔ ∀ y ∈ l, (d.tensors y).isSome = true) ∧
      ((deallocInputLoop d l).error = none ∨
        (deallocInputLoop d l).error = some Error.out_of_range) := by
  induction l with
  | nil => intro d; simp [deallocInputLoop]
  | cons y l ih =>
    intro d
    unfold deallocInputLoop
    cases hy : d.tensors y with
    | none =>
      refine ⟨?_, Or.inr rfl⟩
      simp [hy]
    | some ty =>
      by_cases hdy : ty.is_dynamic = true
      · simp only [hdy, Bool.not_true, Bool.false_eq_true, if_false]
        have h := ih { d with dynamic_mem_mgr := d.dynamic_mem_mgr.deallocate y }
        refine ⟨?_, h.2⟩
        rw [h.1]
        simp [hy]
      · simp only [hdy, Bool.not_false, if_true]
        have h := ih d
        refine ⟨?_, h.2⟩
        rw [h.1]
        simp [hy]

/-- C5: `deallocInput op` deallocates exactly the operands that are planned
after `op`, whose dynamic flag is set and that are currently allocated. Whatever
the outcome, the allocation the memory manager holds for an operand changes only
if the operand is planned after `op`, dynamic and allocated, and then the operand
is unallocated afterwards: no operand whose flag is unset, none that is not
allocated and none planned only after another operation is deallocated; an
allocator object that is held for no planned dynamic operand is as it was, and
the tensors and the plan are as they were. The call returns normally if and only
if every operand planned after `op` is registered (`at` throws otherwise), and
then every operand that is planned, dynamic and allocated is unallocated
afterwards and the allocator object that was held for it has released its
buffer. -/
theorem deallocInput_releases (d : DynamicTensorManager) (op : OperationIndex) :
    (d.deallocInput op).state.tensors = d.tensors ∧
    (d.deallocInput op).state.dealloc_tensor_map = d.dealloc_tensor_map ∧
    (∀ x, (d.deallocInput op).state.dynamic_mem_mgr.mem_alloc_map x
          ≠ d.dynamic_mem_mgr.mem_alloc_map x →
      x ∈ d.planned op ∧ d.dynamicFlag x = true ∧ d.allocated x = true ∧
        (d.deallocInput op).state.allocated x = false) ∧
    (∀ a, (∀ y ∈ d.planned op, d.dynamicFlag y = true →
          d.dynamic_mem_mgr.mem_alloc_map y ≠ some a) →
      (d.deallocInput op).state.dynamic_mem_mgr.allocators[a]?
        = d.dynamic_mem_mgr.allocators[a]?) ∧
    ((d.deallocInput op).error = none ↔ ∀ x ∈ d.planned op, (d.tensors x).isSome = true) ∧
    ((∀ x ∈ d.planned op, (d.tensors x).isSome = true) →
      (∀ x, (d.allocated x = true ∧ (d.deallocInput op).state.allocated x = false)
        ↔ (x ∈ d.planned op ∧ d.dynamicFlag x = true ∧ d.allocated x = true)) ∧
      (∀ x a, x ∈ d.planned op → d.dynamicFlag x = true →
        d.dynamic_mem_mgr.mem_alloc_map x = some a →
        (d.deallocInput op).state.dynamic_mem_mgr.owns a = false)) := by
  have key : ∀ l : List OperandIndex, d.planned op = l →
      (d.deallocInput op) = deallocInputLoop d l := by
    intro l hl
    unfold deallocInput
    cases hp : d.dealloc_tensor_map op with
    | none =>
      have : l = [] := by simpa [planned, hp] using hl.symm
      subst this
      rfl
    | some input_set =>
      have : l = input_set := by simpa [planned, hp] using hl.symm
      subst this
      rfl
  rw [key (d.planned op) rfl]
  have hmap := deallocInputLoop_map (d.planned op) d
  have hrel := deallocInputLoop_released (d.planned op) d
  have honly : ∀ x, (deallocInputLoop d (d.planned op)).state.dynamic_mem_mgr.mem_alloc_map x
          ≠ d.dynamic_mem_mgr.mem_alloc_map x →
      x ∈ d.planned op ∧ d.dynamicFlag x = true ∧ d.allocated x = true ∧
        (deallocInputLoop d (d.planned op)).state.allocated x = false := by
    intro x hne
    rcases hmap x with h | ⟨h1, h2, h3⟩
    · exact absurd h hne
    · refine ⟨h2, h3, ?_, by simp [allocated, h1]⟩
      rw [h1] at hne
      cases hm : d.dynamic_mem_mgr.mem_alloc_map x with
      | none => exact absurd hm.symm hne
      | some a => simp [allocated, hm]
  refine ⟨(deallocInputLoop_tensors _ d).1, (deallocInputLoop_tensors _ d).2, honly,
    fun a ha => deallocInputLoop_allocators _ d a ha, (deallocInputLoop_error _ d).1, ?_⟩
  intro hreg
  constructor
  · intro x
    constructor
    · rintro ⟨h1, h2⟩
      have hne : (deallocInputLoop d (d.planned op)).state.dynamic_mem_mgr.mem_alloc_map x
          ≠ d.dynamic_mem_mgr.mem_alloc_map x := by
        intro h
        simp only [allocated] at h1 h2
        rw [h, h1] at h2
        cases h2
      obtain ⟨h3, h4, h5, _⟩ := honly x hne
      exact ⟨h3, h4, h5⟩
    · rintro ⟨h1, h2, h3⟩
      exact ⟨h3, by simp [allocated, hrel x hreg h1 h2]⟩
  · intro x a hx hdx hm
    obtain ⟨t, ht⟩ : ∃ t, d.tensors x = some t := Option.isSome_iff_exists.mp (hreg x hx)
    have hd : t.is_dynamic = true := by simpa [dynamicFlag, ht] using hdx
    exact deallocInputLoop_owns x t a hd (d.planned op) d ht (Or.inr ⟨hm, hx⟩) hreg

/-- Witness of C5: in `sampleDynamicPlanned` operand 0 is planned after operation
5, dynamic and allocated; `deallocInput 5` deallocates it and `deallocInput 6`
does not. In `samplePlanned` operand 0 is planned and dynamic and not allocated,
and `deallocInput 5` changes no allocation. -/
theorem deallocInput_releases_witness :
    sampleDynamicPlanned.planned 5 = [0] ∧ sampleDynamicPlanned.dynamicFlag 0 = true ∧
    sampleDynamicPlanned.allocated 0 = true ∧
    (sampleDynamicPlanned.deallocInput 5).state.allocated 0 = false ∧
    (sampleDynamicPlanned.deallocInput 5).state.dynamic_mem_mgr.owns 0 = false ∧
    (sampleDynamicPlanned.deallocInput 6).state.allocated 0 = true ∧
    samplePlanned.allocated 0 = false ∧
    (samplePlanned.deallocInput 5).state.dynamic_mem_mgr.mem_alloc_map 0
      = samplePlanned.dynamic_mem_mgr.mem_alloc_map 0 ∧
    (samplePlanned.deallocInput 5).state.dynamic_mem_mgr.allocators
      = samplePlanned.dynamic_mem_mgr.allocators :=
  ⟨rfl, rfl, rfl,
    ((((deallocInput_releases sampleDynamicPlanned 5).2.2.2.2.2 (by decide)).1 0).2
      ⟨by decide, rfl, rfl⟩).2,
    ((deallocInput_releases sampleDynamicPlanned 5).2.2.2.2.2 (by decide)).2 0 0 (by decide)
      rfl rfl,
    rfl, rfl, rfl, rfl⟩

/-- C6: let the tensor of `x` be dynamic and let its buffer be the allocation
that the memory manager holds for `x`. After `deallocSubgraphOutput x`, and after
`deallocInput op` for an operation `op` that `x` is planned after (all operands
planned after `op` being registered), the tensor holds no buffer, and the next
`applyShape x s`, for every shape `s` (one of the former byte size included),
succeeds, issues exactly one `allocate` and no `deallocate`, and gives the tensor
a new buffer. -/
theorem released_operand_unallocated (d : DynamicTensorManager) (x : OperandIndex)
    (t : Tensor) (a : Nat) (ht : d.tensors x = some t) (hd : t.is_dynamic = true)
    (ha : t.allocator = some a) (hm : d.dynamic_mem_mgr.mem_alloc_map x = some a) :
    ((d.deallocSubgraphOutput x).error = none ∧
      (d.deallocSubgraphOutput x).state.bufferOf x = none ∧
      ∀ s, AllocatesAnew (d.deallocSubgraphOutput x).state x s t.data_type) ∧
    (∀ op, x ∈ d.planned op → (∀ y ∈ d.planned op, (d.tensors y).isSome = true) →
      (d.deallocInput op).error = none ∧
      (d.deallocInput op).state.bufferOf x = none ∧
      ∀ s, AllocatesAnew (d.deallocInput op).state x s t.data_type) := by
  constructor
  · have h : d.deallocSubgraphOutput x
        = { state := { d with dynamic_mem_mgr := d.dynamic_mem_mgr.deallocate x },
            error := none } := by
      simp [deallocSubgraphOutput, ht, hd]
    rw [h]
    have h1 := allocatesAnew_of_released
      { d with dynamic_mem_mgr := d.dynamic_mem_mgr.deallocate x } x t a ht ha
      (owns_deallocate_self _ x a hm)
    exact ⟨rfl, h1.1, h1.2⟩
  · intro op hx hreg
    cases hp : d.dealloc_tensor_map op with
    | none => simp [planned, hp] at hx
    | some input_set =>
      have hpl : d.planned op = input_set := by simp [planned, hp]
      rw [hpl] at hx hreg
      have h : d.deallocInput op = deallocInputLoop d input_set := by simp [deallocInput, hp]
      rw [h]
      have ht1 : (deallocInputLoop d input_set).state.tensors x = some t := by
        rw [(deallocInputLoop_tensors input_set d).1]
        exact ht
      have ho := deallocInputLoop_owns x t a hd input_set d ht (Or.inr ⟨hm, hx⟩) hreg
      have h1 := allocatesAnew_of_released (deallocInputLoop d input_set).state x t a ht1 ha ho
      exact ⟨(deallocInputLoop_calls input_set d hreg).1, h1.1, h1.2⟩

/-- Witness of C6 on `sampleDynamicPlanned`, whose operand 0 is dynamic, holds
allocation 0 (24 bytes) and is planned after operation 5: after `deallocInput 5`
the tensor holds no buffer and `applyShape 0 [2, 3]`, of the same 24 bytes,
allocates anew. -/
theorem released_operand_unallocated_witness :
    sampleDynamicPlanned.tensors 0
      = some { info := { sampleInfo with is_dynamic := true }, layout := Layout.NHWC,
               static_buffer := none, allocator := some 0 } ∧
    sampleDynamicPlanned.dynamic_mem_mgr.mem_alloc_map 0 = some 0 ∧
    0 ∈ sampleDynamicPlanned.planned 5 ∧
    (sampleDynamicPlanned.deallocInput 5).state.bufferOf 0 = none ∧
    AllocatesAnew (sampleDynamicPlanned.deallocInput 5).state 0 { dims := [2, 3] }
      DataType.FLOAT32 ∧
    (sampleDynamicPlanned.deallocSubgraphOutput 0).state.bufferOf 0 = none :=
  ⟨rfl, rfl, by decide,
    ((released_operand_unallocated sampleDynamicPlanned 0
      { info := { sampleInfo with is_dynamic := true }, layout := Layout.NHWC,
        static_buffer := none, allocator := some 0 } 0 rfl rfl rfl rfl).2 5
      (by decide) (by decide)).2.1,
    ((released_operand_unallocated sampleDynamicPlanned 0
      { info := { sampleInfo with is_dynamic := true }, layout := Layout.NHWC,
        static_buffer := none, allocator := some 0 } 0 rfl rfl rfl rfl).2 5
      (by decide) (by decide)).2.2 { dims := [2, 3] },
    (released_operand_unallocated sampleDynamicPlanned 0
      { info := { sampleInfo with is_dynamic := true }, layout := Layout.NHWC,
        static_buffer := none, allocator := some 0 } 0 rfl rfl rfl rfl).1.2.1⟩

/-! ### The dynamic flag -/

theorem dynamicFlag_update (d : DynamicTensorManager) (m : DynamicMemoryManager)
    (j : OperandIndex) (t1 : Tensor) (ind : OperandIndex)
    (h1 : d.dynamicFlag j = true → t1.is_dynamic = true) (h : d.dynamicFlag ind = true) :
    dynamicFlag { d with dynamic_mem_mgr := m, tensors := Function.update d.tensors j (some t1) }
      ind = true := by
  by_cases hij : ind = j
  · subst hij
    simpa [dynamicFlag] using h1 h
  · simpa [dynamicFlag, Function.update_noteq hij] using h

theorem dynamicFlag_allocTensorMem (d : DynamicTensorManager) (j : OperandIndex) (t1 : Tensor)
    (ow : Bool) (ind : OperandIndex) (h1 : t1.is_dynamic = true)
    (h : d.dynamicFlag ind = true) : (allocTensorMem d j t1 ow).dynamicFlag ind = true := by
  unfold allocTensorMem
  apply dynamicFlag_update d _ j _ ind _ h
  intro _
  cases ow <;> simpa [Tensor.setBuffer, Tensor.overwriteBuffer, Tensor.is_dynamic] using h1

theorem dynamicFlag_applyShape (d : DynamicTensorManager) (j : OperandIndex) (s : Shape)
    (ind : OperandIndex) (h : d.dynamicFlag ind = true) :
    (d.applyShape j s).state.dynamicFlag ind = true := by
  unfold applyShape
  cases hj : d.tensors j with
  | none => exact h
  | some t =>
    dsimp only
    split_ifs
    · exact dynamicFlag_allocTensorMem d j _ true ind (is_dynamic_setShape t s) h
    · exact dynamicFlag_allocTensorMem d j _ false ind (is_dynamic_setShape t s) h
    · exact dynamicFlag_allocTensorMem
        { d with dynamic_mem_mgr := d.dynamic_mem_mgr.deallocate j } j _ false ind
        (is_dynamic_setShape t s) h
    · exact h

theorem dynamicFlag_allocateTensorMem (d : DynamicTensorManager) (j : OperandIndex)
    (t : Tensor) (s : Shape) (ind : OperandIndex) (ht : d.tensors j = some t)
    (h : d.dynamicFlag ind = true) : (allocateTensorMem d j t s).dynamicFlag ind = true := by
  unfold allocateTensorMem
  apply dynamicFlag_update d _ j _ ind _ h
  intro hj
  simpa [dynamicFlag, ht, Tensor.setBuffer, setShape, Tensor.is_dynamic] using hj

theorem dynamicFlag_allocate (d : DynamicTensorManager) (j : OperandIndex) (s : Shape)
    (ind : OperandIndex) (h : d.dynamicFlag ind = true) :
    (d.allocate j s).state.dynamicFlag ind = true := by
  unfold allocate
  cases hj : d.tensors j with
  | none => exact h
  | some t =>
    dsimp only
    split_ifs
    · exact dynamicFlag_allocateTensorMem d j t s ind hj h
    · exact dynamicFlag_allocateTensorMem
        { d with dynamic_mem_mgr := d.dynamic_mem_mgr.deallocate j } j t s ind hj h
    · exact h

theorem dynamicFlag_changeShape (d : DynamicTensorManager) (j : OperandIndex) (s : Shape)
    (ind : OperandIndex) (h : d.dynamicFlag ind = true) :
    (d.changeShape j s).state.dynamicFlag ind = true := by
  unfold changeShape
  cases hj : d.tensors j with
  | none => exact h
  | some t =>
    exact dynamicFlag_update d d.dynamic_mem_mgr j _ ind (fun _ => is_dynamic_setShape t s) h

theorem dynamicFlag_of_tensors_eq (d d1 : DynamicTensorManager) (ind : OperandIndex)
    (ht : d1.tensors = d.tensors) (h : d.dynamicFlag ind = true) :
    d1.dynamicFlag ind = true := by
  simpa [dynamicFlag, ht] using h

theorem dynamicFlag_step (d : DynamicTensorManager) (op : Op) (ind : OperandIndex)
    (h : d.dynamicFlag ind = true) : (step d op).state.dynamicFlag ind = true := by
  cases op with
  | applyShape j s => exact dynamicFlag_applyShape d j s ind h
  | allocate j s => exact dynamicFlag_allocate d j s ind h
  | changeShape j s => exact dynamicFlag_changeShape d j s ind h
  | planDealloc o x =>
    apply dynamicFlag_of_tensors_eq d _ ind _ h
    simp only [step, planDealloc]
    cases d.dealloc_tensor_map o <;> rfl
  | deallocInput o =>
    apply dynamicFlag_of_tensors_eq d _ ind _ h
    simp only [step, deallocInput]
    cases d.dealloc_tensor_map o with
    | none => rfl
    | some input_set => exact (deallocInputLoop_tensors input_set d).1
  | deallocSubgraphOutput x =>
    apply dynamicFlag_of_tensors_eq d _ ind _ h
    simp only [step, deallocSubgraphOutput]
    cases d.tensors x with
    | none => rfl
    | some t => dsimp only; split_ifs <;> rfl

theorem dynamicFlag_run (ops : List Op) :
    ∀ (d : DynamicTensorManager) (ind : OperandIndex), d.dynamicFlag ind = true →
      (run d ops).dynamicFlag ind = true := by
  induction ops with
  | nil => intro d ind h; exact h
  | cons op ops ih => intro d ind h; exact ih _ ind (dynamicFlag_step d op ind h)

/-- C7: no call of `applyShape`, `allocate`, `changeShape`, `planDealloc`,
`deallocInput` or `deallocSubgraphOutput`, and no sequence of such calls (calls
stopped by an error included), clears the dynamic flag: a tensor registered for
`ind` whose flag is set in a state is still registered, with its flag set, in
every state reached from there. -/
theorem dynamic_flag_never_cleared (d : DynamicTensorManager) (ops : List Op)
    (ind : OperandIndex) (t : Tensor) (ht : d.tensors ind = some t)
    (hd : t.is_dynamic = true) :
    ∃ t1, (run d ops).tensors ind = some t1 ∧ t1.is_dynamic = true := by
  have h : d.dynamicFlag ind = true := by simp [dynamicFlag, ht, hd]
  have h1 := dynamicFlag_run ops d ind h
  unfold dynamicFlag at h1
  cases hr : (run d ops).tensors ind with
  | none => simp [hr] at h1
  | some t1 => exact ⟨t1, rfl, by simpa [hr] using h1⟩

/-- Witness of C7 on `sampleDynamicPlanned` and a run through all six methods. -/
theorem dynamic_flag_never_cleared_witness :
    sampleDynamicPlanned.tensors 0
      = some { info := { sampleInfo with is_dynamic := true }, layout := Layout.NHWC,
               static_buffer := none, allocator := some 0 } ∧
    ∃ t1, (run sampleDynamicPlanned
            [Op.deallocInput 5, Op.applyShape 0 { dims := [4] }, Op.changeShape 0 { dims := [1] },
             Op.allocate 0 { dims := [7] }, Op.planDealloc 6 0,
             Op.deallocSubgraphOutput 0]).tensors 0 = some t1 ∧
      t1.is_dynamic = true :=
  ⟨rfl, dynamic_flag_never_cleared sampleDynamicPlanned _ 0 _ rfl rfl⟩

/-! ### Registration -/

/-- C10: `buildTensor ind info layout` stops with an assertion failure when a
tensor is already registered for `ind`, and the state, so the existing
registration, is unchanged; when none is registered it succeeds, the tensor
registered for `ind` afterwards is the one built from `info` and `layout`
(holding no buffer), and every other registration, the memory manager and the
plan are unchanged. -/
theorem buildTensor_registers (d : DynamicTensorManager) (ind : OperandIndex)
    (info : OperandInfo) (layout : Layout) :
    ((d.tensors ind).isSome = true →
      (d.buildTensor ind info layout).error = some Error.assertion ∧
      (d.buildTensor ind info layout).state = d) ∧
    (d.tensors ind = none →
      (d.buildTensor ind info layout).error = none ∧
      (d.buildTensor ind info layout).state.tensors ind = some (Tensor.make info layout) ∧
      (∀ j, j ≠ ind → (d.buildTensor ind info layout).state.tensors j = d.tensors j) ∧
      (d.buildTensor ind info layout).state.dynamic_mem_mgr = d.dynamic_mem_mgr ∧
      (d.buildTensor ind info layout).state.dealloc_tensor_map = d.dealloc_tensor_map) := by
  constructor
  · intro h
    simp [buildTensor, h]
  · intro h
    refine ⟨by simp [buildTensor, h], by simp [buildTensor, h], ?_, by simp [buildTensor, h],
      by simp [buildTensor, h]⟩
    intro j hj
    simp [buildTensor, h, Function.update_noteq hj]

/-- Witness of C10: registering operand 0 again in `sampleFresh` fails and keeps
the registration; registering operand 1 succeeds and keeps that of operand 0. -/
theorem buildTensor_registers_witness :
    (sampleFresh.tensors 0).isSome = true ∧
    (sampleFresh.buildTensor 0 sampleInfo Layout.NCHW).error = some Error.assertion ∧
    (sampleFresh.buildTensor 0 sampleInfo Layout.NCHW).state = sampleFresh ∧
    sampleFresh.tensors 1 = none ∧
    (sampleFresh.buildTensor 1 sampleInfo Layout.NCHW).state.tensors 1
      = some (Tensor.make sampleInfo Layout.NCHW) ∧
    (sampleFresh.buildTensor 1 sampleInfo Layout.NCHW).state.tensors 0 = sampleFresh.tensors 0 :=
  ⟨rfl,
    ((buildTensor_registers sampleFresh 0 sampleInfo Layout.NCHW).1 rfl).1,
    ((buildTensor_registers sampleFresh 0 sampleInfo Layout.NCHW).1 rfl).2,
    rfl,
    ((buildTensor_registers sampleFresh 1 sampleInfo Layout.NCHW).2 rfl).2.1,
    ((buildTensor_registers sampleFresh 1 sampleInfo Layout.NCHW).2 rfl).2.2.1 0 (by decide)⟩

/-! ### The first runtime shape, and the deprecated `allocate` -/

/-- C33: for every registered tensor whose dynamic flag is not yet set,
`applyShape ind s` succeeds, performs no `deallocate` and exactly one `allocate`
of the byte size of `s`, and overwrites the buffer with that of the new allocator
object, whether or not the tensor held a buffer placed by the static allocator and
whether or not the byte size changed; no allocator object is released and the
static buffer the tensor recorded is kept as it was. -/
theorem applyShape_first_runtime_shape (d : DynamicTensorManager) (ind : OperandIndex)
    (s : Shape) (t : Tensor) (ht : d.tensors ind = some t) (hd : t.is_dynamic = false) :
    (d.applyShape ind s).error = none ∧
    (d.applyShape ind s).state.dynamic_mem_mgr.calls
      = d.dynamic_mem_mgr.calls
          ++ [MemCall.allocate ind (s.num_elements * sizeOfDataType t.data_type)] ∧
    (d.applyShape ind s).state.dynamic_mem_mgr.allocators
      = d.dynamic_mem_mgr.allocators
          ++ [{ capacity := s.num_elements * sizeOfDataType t.data_type, released := false }] ∧
    (d.applyShape ind s).state.bufferOf ind
      = some (Buffer.dynamic_buffer d.dynamic_mem_mgr.allocators.length) ∧
    (d.applyShape ind s).state.tensors ind
      = some { info := { shape := s, data_type := t.data_type, is_dynamic := true },
               layout := t.layout, static_buffer := t.static_buffer,
               allocator := some d.dynamic_mem_mgr.allocators.length } := by
  have h : d.applyShape ind s
      = { state := allocTensorMem d ind (setShape t s).set_dynamic true, error := none } := by
    simp [applyShape, ht, hd]
  rw [h]
  refine ⟨rfl, ?_, ?_, ?_, ?_⟩
  · simp [allocTensorMem_mgr, DynamicMemoryManager.allocate, Tensor.total_size,
      OperandInfo.total_size, setShape, Tensor.set_dynamic, Tensor.data_type]
  · simp [allocTensorMem_mgr, DynamicMemoryManager.allocate, Tensor.total_size,
      OperandInfo.total_size, setShape, Tensor.set_dynamic, Tensor.data_type]
  · exact allocTensorMem_bufferOf d ind _ true
  · simp [allocTensorMem_tensors, setShape, Tensor.set_dynamic, Tensor.data_type]

/-- Witness of C33 on `sampleStatic`, whose tensor holds a static buffer of the
byte size the new shape needs: one `allocate` of 8 bytes and a new buffer. -/
theorem applyShape_first_runtime_shape_witness :
    sampleStatic.tensors 0 = some staticTensor ∧ staticTensor.is_dynamic = false ∧
    sampleStatic.bufferOf 0 = some (Buffer.static_buffer 100) ∧
    (sampleStatic.applyShape 0 { dims := [2] }).state.dynamic_mem_mgr.calls
      = [MemCall.allocate 0 8] ∧
    (sampleStatic.applyShape 0 { dims := [2] }).state.bufferOf 0
      = some (Buffer.dynamic_buffer 0) :=
  ⟨rfl, rfl, rfl,
    (applyShape_first_runtime_shape sampleStatic 0 { dims := [2] } staticTensor rfl rfl).2.1,
    (applyShape_first_runtime_shape sampleStatic 0 { dims := [2] } staticTensor rfl rfl).2.2.2.1⟩

theorem set_dynamic_of_dynamic (t : Tensor) (hd : t.is_dynamic = true) : t.set_dynamic = t := by
  cases t with
  | mk info layout sb al =>
    cases info with
    | mk sh dt dy =>
      simp only [Tensor.is_dynamic] at hd
      simp [Tensor.set_dynamic, hd]

theorem allocateTensorMem_eq (d : DynamicTensorManager) (ind : OperandIndex) (t : Tensor)
    (s : Shape) : allocateTensorMem d ind t s = allocTensorMem d ind (setShape t s) false := by
  simp [allocateTensorMem, allocTensorMem]

/-- C35: for every registered tensor whose dynamic flag is already set, the
deprecated `allocate ind s` and `applyShape ind s` have the same outcome: the
same state (so the same shape, buffer and flag of every tensor, and the same
calls received by the memory manager) and the same error status. -/
theorem allocate_eq_applyShape_of_dynamic (d : DynamicTensorManager) (ind : OperandIndex)
    (s : Shape) (t : Tensor) (ht : d.tensors ind = some t) (hd : t.is_dynamic = true) :
    d.allocate ind s = d.applyShape ind s ∧
    (d.allocate ind s).state.tensors ind = (d.applyShape ind s).state.tensors ind ∧
    (d.allocate ind s).state.bufferOf ind = (d.applyShape ind s).state.bufferOf ind ∧
    (d.allocate ind s).state.dynamicFlag ind = (d.applyShape ind s).state.dynamicFlag ind ∧
    (d.allocate ind s).state.dynamic_mem_mgr.calls
      = (d.applyShape ind s).state.dynamic_mem_mgr.calls := by
  have halloc : ∀ d1 : DynamicTensorManager,
      allocateTensorMem d1 ind t s = allocTensorMem d1 ind (setShape t s).set_dynamic false := by
    intro d1
    rw [set_dynamic_of_dynamic (setShape t s) (by simpa [setShape, Tensor.is_dynamic] using hd)]
    exact allocateTensorMem_eq d1 ind t s
  have h : d.allocate ind s = d.applyShape ind s := by
    simp only [allocate, applyShape, ht, hd, halloc]
    simp
  rw [h]
  exact ⟨rfl, rfl, rfl, rfl, rfl⟩

/-- Witness of C35 on `sampleDynamic` and the shape [4]: both calls release the
buffer of 24 bytes and allocate one of 16 bytes. -/
theorem allocate_eq_applyShape_of_dynamic_witness :
    sampleDynamic.dynamicFlag 0 = true ∧
    sampleDynamic.allocate 0 { dims := [4] } = sampleDynamic.applyShape 0 { dims := [4] } ∧
    (sampleDynamic.applyShape 0 { dims := [4] }).state.dynamic_mem_mgr.calls
      = [MemCall.allocate 0 24, MemCall.deallocate 0, MemCall.allocate 0 16] :=
  ⟨rfl, (allocate_eq_applyShape_of_dynamic sampleDynamic 0 { dims := [4] }
    { info := { sampleInfo with is_dynamic := true }, layout := Layout.NHWC,
      static_buffer := none, allocator := some 0 } rfl rfl).1, rfl⟩

/-! ### The deallocation plan -/

theorem mem_emplace (xs : List OperandIndex) (x z : OperandIndex) :
    z ∈ emplace xs x ↔ z = x ∨ z ∈ xs := by
  unfold emplace
  split_ifs with h
  · constructor
    · intro hz; exact Or.inr hz
    · rintro (rfl | hz)
      · exact h
      · exact hz
  · simp [or_comm]

theorem emplace_of_mem (xs : List OperandIndex) (x : OperandIndex) (h : x ∈ xs) :
    emplace xs x = xs := by
  simp [emplace, h]

theorem planDealloc_error (d : DynamicTensorManager) (op : OperationIndex) (x : OperandIndex) :
    (d.planDealloc op x).error = none := by
  unfold planDealloc; split <;> rfl

theorem planDealloc_tensors (d : DynamicTensorManager) (op : OperationIndex) (x : OperandIndex) :
    (d.planDealloc op x).state.tensors = d.tensors := by
  unfold planDealloc; split <;> rfl

theorem planDealloc_mgr (d : DynamicTensorManager) (op : OperationIndex) (x : OperandIndex) :
    (d.planDealloc op x).state.dynamic_mem_mgr = d.dynamic_mem_mgr := by
  unfold planDealloc; split <;> rfl

theorem planDealloc_map_other (d : DynamicTensorManager) (op op1 : OperationIndex)
    (x : OperandIndex) (h : op1 ≠ op) :
    (d.planDealloc op x).state.dealloc_tensor_map op1 = d.dealloc_tensor_map op1 := by
  unfold planDealloc; split <;> simp [Function.update_noteq h]

theorem mem_planned_planDealloc (d : DynamicTensorManager) (op op1 : OperationIndex)
    (x z : OperandIndex) :
    z ∈ (d.planDealloc op x).state.planned op1
      ↔ (op1 = op ∧ z = x) ∨ z ∈ d.planned op1 := by
  by_cases h : op1 = op
  · subst h
    unfold planDealloc planned
    cases hm : d.dealloc_tensor_map op1 with
    | none => simp
    | some xs => simp [mem_emplace]
  · have h1 := planDealloc_map_other d op op1 x h
    unfold planned
    rw [h1]
    simp [h]

theorem mem_planned_planDeallocAll (pairs : List (OperationIndex × OperandIndex)) :
    ∀ (d : DynamicTensorManager) (op : OperationIndex) (z : OperandIndex),
      z ∈ (planDeallocAll d pairs).planned op ↔ (op, z) ∈ pairs ∨ z ∈ d.planned op := by
  induction pairs with
  | nil => intro d op z; simp [planDeallocAll]
  | cons p ps ih =>
    intro d op z
    have h := ih (d.planDealloc p.1 p.2).state op z
    simp only [planDeallocAll, List.foldl_cons] at h ⊢
    rw [h, mem_planned_planDealloc]
    simp only [List.mem_cons, Prod.ext_iff]
    tauto

theorem planDealloc_twice (d : DynamicTensorManager) (op : OperationIndex) (x : OperandIndex) :
    ((d.planDealloc op x).state.planDealloc op x).state.dealloc_tensor_map
      = (d.planDealloc op x).state.dealloc_tensor_map := by
  unfold planDealloc
  cases hm : d.dealloc_tensor_map op with
  | none => simp [emplace]
  | some xs =>
    simp only [Function.update_same, Function.update_idem]
    rw [emplace_of_mem (emplace xs x) x ((mem_emplace xs x x).2 (Or.inl rfl))]

/-- C34: `planDealloc op x` succeeds, adds `x` to the set planned after `op` and
changes nothing else: the tensors and the memory manager are unchanged, the set of
`op` holds `x` and exactly its earlier members, and the sets of the other
operations are unchanged. Planning the same pair a second time changes nothing,
and planning the same pairs in a different order gives every operation the same
set. -/
theorem planDealloc_adds_to_the_set (d : DynamicTensorManager) (op : OperationIndex)
    (x : OperandIndex) :
    (d.planDealloc op x).error = none ∧
    (d.planDealloc op x).state.tensors = d.tensors ∧
    (d.planDealloc op x).state.dynamic_mem_mgr = d.dynamic_mem_mgr ∧
    (∀ z, z ∈ (d.planDealloc op x).state.planned op ↔ z = x ∨ z ∈ d.planned op) ∧
    (∀ op1, op1 ≠ op →
      (d.planDealloc op x).state.dealloc_tensor_map op1 = d.dealloc_tensor_map op1) ∧
    ((d.planDealloc op x).state.planDealloc op x).state.dealloc_tensor_map
      = (d.planDealloc op x).state.dealloc_tensor_map ∧
    (∀ (pairs pairs1 : List (OperationIndex × OperandIndex)) (op1 : OperationIndex)
        (z : OperandIndex), pairs.Perm pairs1 →
      (z ∈ (planDeallocAll d pairs).planned op1 ↔ z ∈ (planDeallocAll d pairs1).planned op1)) := by
  refine ⟨planDealloc_error d op x, planDealloc_tensors d op x, planDealloc_mgr d op x, ?_,
    fun op1 h => planDealloc_map_other d op op1 x h, planDealloc_twice d op x, ?_⟩
  · intro z
    rw [mem_planned_planDealloc]
    simp
  · intro pairs pairs1 op1 z hp
    rw [mem_planned_planDeallocAll, mem_planned_planDeallocAll, hp.mem_iff]

/-- Witness of C34 on `samplePlanned`, where operand 0 is planned after
operation 5: planning operand 1 after operation 5 keeps operand 0 and leaves the
empty set of operation 6, and two orders of the same three pairs agree. -/
theorem planDealloc_adds_to_the_set_witness :
    samplePlanned.planned 5 = [0] ∧
    (samplePlanned.planDealloc 5 1).state.planned 5 = [0, 1] ∧
    (samplePlanned.planDealloc 5 1).state.dealloc_tensor_map 6 = none ∧
    (2 ∈ (planDeallocAll samplePlanned [(5, 1), (6, 2), (5, 3)]).planned 6
      ↔ 2 ∈ (planDeallocAll samplePlanned [(5, 3), (5, 1), (6, 2)]).planned 6) :=
  ⟨rfl, rfl,
    (planDealloc_adds_to_the_set samplePlanned 5 1).2.2.2.2.1 6 (by decide),
    (planDealloc_adds_to_the_set samplePlanned 5 1).2.2.2.2.2.2
      [(5, 1), (6, 2), (5, 3)] [(5, 3), (5, 1), (6, 2)] 6 2 (by decide)⟩

/-! ### Capacity of the buffers held -/

theorem capacityMatches_deallocate (d : DynamicTensorManager) (ind : OperandIndex)
    (h : CapacityMatches d) :
    CapacityMatches { d with dynamic_mem_mgr := d.dynamic_mem_mgr.deallocate ind } := by
  intro i t a ht ha
  obtain ⟨alloc, h1, h2⟩ := h i t a ht ha
  simp only [DynamicMemoryManager.deallocate]
  cases hm : d.dynamic_mem_mgr.mem_alloc_map ind with
  | none => exact ⟨alloc, h1, h2⟩
  | some b =>
    by_cases hab : b = a
    · subst hab
      have hlt : b < d.dynamic_mem_mgr.allocators.length := by
        rcases List.getElem?_eq_some.mp h1 with ⟨hlt, _⟩
        exact hlt
      refine ⟨{ alloc with released := true }, ?_, ?_⟩
      · simp [releaseAllocator, h1, List.getElem?_set_self hlt]
      · intro hr
        simp at hr
    · exact ⟨alloc, by
        simp only [getElem?_releaseAllocator_ne d.dynamic_mem_mgr.allocators a b hab]
        exact h1, h2⟩

theorem capacityMatches_allocTensorMem (d : DynamicTensorManager) (ind : OperandIndex)
    (t : Tensor) (ow : Bool) (h : CapacityMatches d) :
    CapacityMatches (allocTensorMem d ind t ow) := by
  intro i t1 a ht ha
  by_cases hi : i = ind
  · subst hi
    rw [allocTensorMem_tensors] at ht
    cases ht
    simp only [Option.some.injEq] at ha
    subst ha
    refine ⟨{ capacity := t.total_size, released := false }, ?_, ?_⟩
    · simp [allocTensorMem_mgr, DynamicMemoryManager.allocate]
    · intro _
      simp [Tensor.total_size]
  · have ht1 : d.tensors i = some t1 := by
      cases ow <;> simpa [allocTensorMem, Function.update_noteq hi] using ht
    obtain ⟨alloc, h1, h2⟩ := h i t1 a ht1 ha
    have hlt : a < d.dynamic_mem_mgr.allocators.length := by
      rcases List.getElem?_eq_some.mp h1 with ⟨hlt, _⟩
      exact hlt
    refine ⟨alloc, ?_, h2⟩
    simp [allocTensorMem_mgr, DynamicMemoryManager.allocate, List.getElem?_append_left hlt, h1]

theorem capacityMatches_deallocInputLoop (l : List OperandIndex) :
    ∀ d : DynamicTensorManager, CapacityMatches d →
      CapacityMatches (deallocInputLoop d l).state := by
  induction l with
  | nil => intro d h; exact h
  | cons y l ih =>
    intro d h
    unfold deallocInputLoop
    cases hy : d.tensors y with
    | none => exact h
    | some ty =>
      by_cases hdy : ty.is_dynamic = true
      · simpa [hdy] using ih _ (capacityMatches_deallocate d y h)
      · simpa [hdy] using ih d h

theorem capacityMatches_step (d : DynamicTensorManager) (op : Op) (hop : op.isChangeShape = false)
    (h : CapacityMatches d) : CapacityMatches (step d op).state := by
  cases op with
  | applyShape ind s =>
    simp only [step, applyShape]
    cases ht : d.tensors ind with
    | none => exact h
    | some t =>
      dsimp only
      split_ifs
      · exact capacityMatches_allocTensorMem d ind _ true h
      · exact capacityMatches_allocTensorMem d ind _ false h
      · exact capacityMatches_allocTensorMem _ ind _ false (capacityMatches_deallocate d ind h)
      · exact h
  | allocate ind s =>
    simp only [step, allocate]
    cases ht : d.tensors ind with
    | none => exact h
    | some t =>
      dsimp only
      split_ifs
      · rw [allocateTensorMem_eq]
        exact capacityMatches_allocTensorMem d ind _ false h
      · rw [allocateTensorMem_eq]
        exact capacityMatches_allocTensorMem _ ind _ false (capacityMatches_deallocate d ind h)
      · exact h
  | changeShape ind s => simp [Op.isChangeShape] at hop
  | planDealloc op x =>
    intro i t a ht ha
    simp only [step, planDealloc_tensors, planDealloc_mgr] at ht ⊢
    exact h i t a ht ha
  | deallocInput op =>
    simp only [step, deallocInput]
    cases hm : d.dealloc_tensor_map op with
    | none => exact h
    | some l => exact capacityMatches_deallocInputLoop l d h
  | deallocSubgraphOutput x =>
    simp only [step, deallocSubgraphOutput]
    cases ht : d.tensors x with
    | none => exact h
    | some t =>
      dsimp only
      split_ifs
      · exact h
      · exact capacityMatches_deallocate d x h

theorem capacityMatches_run (ops : List Op) :
    ∀ d : DynamicTensorManager, (∀ op ∈ ops, op.isChangeShape = false) → CapacityMatches d →
      CapacityMatches (run d ops) := by
  induction ops with
  | nil => intro d _ h; exact h
  | cons op ops ih =>
    intro d hops h
    exact ih _ (fun o ho => hops o (List.mem_cons_of_mem op ho))
      (capacityMatches_step d op (hops op (List.mem_cons_self op ops)) h)

theorem capacityMatches_create (reg : OperandIndex → Option Tensor)
    (hreg : ∀ ind t, reg ind = some t → t.allocator = none) : CapacityMatches (create reg) := by
  intro i t a ht ha
  rw [hreg i t ht] at ha
  cases ha

theorem capacityMatches_buildTensor (d : DynamicTensorManager) (ind : OperandIndex)
    (info : OperandInfo) (layout : Layout) (h : CapacityMatches d) :
    CapacityMatches (d.buildTensor ind info layout).state := by
  unfold buildTensor
  split_ifs with hreg
  · exact h
  · intro i t a ht ha
    by_cases hi : i = ind
    · subst hi
      simp only [Function.update_same, Option.some.injEq] at ht
      subst ht
      simp [Tensor.make] at ha
    · simp only [Function.update_noteq hi] at ht
      exact h i t a ht ha

theorem capacity_of_held_buffer (d : DynamicTensorManager) (h : CapacityMatches d)
    (ind : OperandIndex) (t : Tensor) (a : Nat) (ht : d.tensors ind = some t)
    (hb : t.buffer d.dynamic_mem_mgr = some (Buffer.dynamic_buffer a)) :
    ∃ alloc, d.dynamic_mem_mgr.allocators[a]? = some alloc ∧ alloc.released = false ∧
      alloc.capacity = t.total_size := by
  unfold Tensor.buffer at hb
  cases hal : t.allocator with
  | none => simp [hal] at hb
  | some b =>
    simp only [hal] at hb
    split_ifs at hb with ho
    simp only [Option.some.injEq, Buffer.dynamic_buffer.injEq] at hb
    subst hb
    obtain ⟨alloc, h1, h2⟩ := h ind t b ht hal
    have hr : alloc.released = false := by
      simpa [DynamicMemoryManager.owns, h1] using ho
    exact ⟨alloc, h1, hr, h2 hr⟩

theorem capacityMatches_sampleFresh : CapacityMatches sampleFresh :=
  capacityMatches_buildTensor _ 0 sampleInfo Layout.NHWC
    (capacityMatches_create (fun _ => none) (fun _ _ h => by cases h))

/-- C36, counterexample: in `sampleReshaped`, reached from a new manager by
`buildTensor`, `applyShape 0 [2, 3]` and `changeShape 0 [10]`, the float tensor of
operand 0 has the shape [10], which needs 40 bytes, and holds the buffer of the
allocator object 0, whose capacity is 24 bytes; `applyShape 0 [10]` then compares
40 with 40 and leaves that buffer in place. -/
theorem changeShape_breaks_capacity :
    sampleReshaped = run sampleFresh [Op.applyShape 0 { dims := [2, 3] },
      Op.changeShape 0 { dims := [10] }] ∧
    sampleReshaped.bufferOf 0 = some (Buffer.dynamic_buffer 0) ∧
    sampleReshaped.dynamic_mem_mgr.allocators = [{ capacity := 24, released := false }] ∧
    sampleReshaped.tensors 0
      = some { info := { shape := { dims := [10] }, data_type := DataType.FLOAT32,
                         is_dynamic := true },
               layout := Layout.NHWC, static_buffer := none, allocator := some 0 } ∧
    byteSize { dims := [10] } DataType.FLOAT32 = 40 ∧
    sampleReshaped.applyShape 0 { dims := [10] } = { state := sampleReshaped, error := none } := by
  refine ⟨rfl, rfl, rfl, rfl, rfl, ?_⟩
  exact applyShape_same_size sampleReshaped 0 { dims := [10] } _ rfl rfl (by decide) rfl

/-- C36, amended: from a state in which every allocator object handed to a
tensor matches the tensor (as in a new manager and after `buildTensor`), every
run of `applyShape`, `allocate`, `planDealloc`, `deallocInput` and
`deallocSubgraphOutput`, without `changeShape`, reaches a state in which a tensor
that holds a dynamically allocated buffer has a live allocation whose capacity is
the number of elements of its current shape times its element size, which is the
previous size `applyShape` compares with. -/
theorem capacity_invariant (d : DynamicTensorManager) (ops : List Op)
    (hops : ∀ op ∈ ops, op.isChangeShape = false) (h : CapacityMatches d)
    (ind : OperandIndex) (t : Tensor) (a : Nat) (ht : (run d ops).tensors ind = some t)
    (hb : t.buffer (run d ops).dynamic_mem_mgr = some (Buffer.dynamic_buffer a)) :
    ∃ alloc, (run d ops).dynamic_mem_mgr.allocators[a]? = some alloc ∧
      alloc.released = false ∧
      alloc.capacity = t.info.shape.num_elements * sizeOfDataType t.info.data_type ∧
      alloc.capacity = t.total_size := by
  obtain ⟨alloc, h1, h2, h3⟩ :=
    capacity_of_held_buffer (run d ops) (capacityMatches_run ops d hops h) ind t a ht hb
  exact ⟨alloc, h1, h2, h3, h3⟩

/-- Witness of C36 (amended) on `sampleFresh` and a run through the five
methods: the tensor ends with the shape [4] and a live buffer of 16 bytes. -/
theorem capacity_invariant_witness :
    CapacityMatches sampleFresh ∧
    (run sampleFresh [Op.applyShape 0 { dims := [2, 3] }, Op.planDealloc 5 0,
        Op.deallocInput 5, Op.allocate 0 { dims := [4] },
        Op.deallocSubgraphOutput 0, Op.applyShape 0 { dims := [4] }]).tensors 0
      = some { info := { shape := { dims := [4] }, data_type := DataType.FLOAT32,
                         is_dynamic := true },
               layout := Layout.NHWC, static_buffer := none, allocator := some 2 } ∧
    ∃ alloc, (run sampleFresh [Op.applyShape 0 { dims := [2, 3] }, Op.planDealloc 5 0,
        Op.deallocInput 5, Op.allocate 0 { dims := [4] },
        Op.deallocSubgraphOutput 0,
        Op.applyShape 0 { dims := [4] }]).dynamic_mem_mgr.allocators[2]? = some alloc ∧
      alloc.released = false ∧ alloc.capacity = 4 * 4 ∧ alloc.capacity = 16 :=
  ⟨capacityMatches_sampleFresh, rfl,
    capacity_invariant sampleFresh [Op.applyShape 0 { dims := [2, 3] }, Op.planDealloc 5 0,
        Op.deallocInput 5, Op.allocate 0 { dims := [4] },
        Op.deallocSubgraphOutput 0, Op.applyShape 0 { dims := [4] }]
      (by decide) capacityMatches_sampleFresh 0
      { info := { shape := { dims := [4] }, data_type := DataType.FLOAT32, is_dynamic := true },
        layout := Layout.NHWC, static_buffer := none, allocator := some 2 } 2 rfl rfl⟩

end onert

/-! ## Properties of the loader -/

namespace onert

namespace base_loader

theorem loadModel_ignores_verdict {Model SubGraph Graph : Type}
    (dom : LoaderDomain Model SubGraph Graph) (verify : List Nat → Nat → Bool)
    (l : BaseLoader Model Graph) :
    loadModel { dom with VerifyModelBuffer := verify } l = loadModel dom l := by
  have h : ∀ (sgs : List SubGraph) (i : Nat) (acc : List (Nat × Graph)),
      loadSubgraphs { dom with VerifyModelBuffer := verify } sgs i acc
        = loadSubgraphs dom sgs i acc := by
    intro sgs
    induction sgs with
    | nil => intro i acc; rfl
    | cons sg rest ih =>
      intro i acc
      simp only [loadSubgraphs]
      cases dom.loadSubgraph sg with
      | error e => rfl
      | ok g => exact ih _ _
  simp only [loadModel, h]

/-- C1, the input on which the code departs from it: the schema verifier of
`rejectingDomain` rejects the one-byte buffer `[7]`, and yet `loadFromBuffer` on
that buffer, and `loadFromFile` on a file holding it, succeed: the model is read
and one subgraph is produced and handed to the caller. -/
theorem load_succeeds_on_rejected_buffer :
    rejectingDomain.VerifyModelBuffer [7] 1 = false ∧
    (loadFromBuffer rejectingDomain (create []) [7] 1).error = none ∧
    (loadFromBuffer rejectingDomain (create []) [7] 1).loader.model = some [7] ∧
    (loadFromBuffer rejectingDomain (create []) [7] 1).loader.subgraphs = [(0, 7)] ∧
    (loadFromFile sampleFiles rejectingDomain (create []) "model.tflite").error = none ∧
    (loadFromFile sampleFiles rejectingDomain (create []) "model.tflite").loader.subgraphs
      = [(0, 7)] := by
  refine ⟨rfl, rfl, rfl, rfl, ?_, ?_⟩ <;> decide

end base_loader

end onert

/-! ## Properties of operand and operation loading -/

namespace onert

namespace base_loader

open ir

/-! ### Operand indices of an operator -/

theorem tensorIdxToOperandIdx_valid (l : LoaderState) (idx : Int)
    (hv : ValidTensorIndex l idx) :
    tensorIdxToOperandIdx l idx = Except.ok (operandOfTensor l idx) := by
  unfold tensorIdxToOperandIdx operandOfTensor isOptionalInputTensor
  rcases hv with h | ⟨h0, hlt⟩
  · simp [h]
  · have hne : idx ≠ -1 := by omega
    have hnlt : ¬ idx < 0 := by omega
    simp [hne, hnlt, List.getElem?_eq_getElem hlt, List.getD_eq_getElem?_getD]

theorem loadOutputs_valid (l : LoaderState) (outs : List Int) :
    ∀ acc : List OperandIndex, (∀ idx ∈ outs, ValidTensorIndex l idx) →
      loadOutputs l outs acc = Except.ok (acc ++ outs.map (operandOfTensor l)) := by
  induction outs with
  | nil => intro acc _; simp [loadOutputs]
  | cons idx rest ih =>
    intro acc hv
    have h1 := tensorIdxToOperandIdx_valid l idx (hv idx (List.mem_cons_self _ _))
    have h2 := ih (acc ++ [operandOfTensor l idx])
      (fun i hi => hv i (List.mem_cons_of_mem _ hi))
    simp [loadOutputs, h1, h2]

theorem loadInputs_valid (h : LoaderHooks) (l : LoaderState) (op : Operator)
    (code : BuiltinOperator) (hcode : builtinCodeOf l op = Except.ok code) (ins : List Int) :
    ∀ acc : List OperandIndex, (∀ idx ∈ ins, ValidTensorIndex l idx) →
      ((∃ idx ∈ ins, idx = -1 ∧ h.allowOptionalInputTensor code = false) →
        loadInputs h l op ins acc = Except.error
          (LoadError.load_failed "loader doesn't support optional input tensor yet")) ∧
      ((¬ ∃ idx ∈ ins, idx = -1 ∧ h.allowOptionalInputTensor code = false) →
        loadInputs h l op ins acc = Except.ok (acc ++ ins.map (operandOfTensor l))) := by
  induction ins with
  | nil => intro acc _; simp [loadInputs]
  | cons idx rest ih =>
    intro acc hv
    have h1 := tensorIdxToOperandIdx_valid l idx (hv idx (List.mem_cons_self _ _))
    have h2 := ih (acc ++ [operandOfTensor l idx])
      (fun i hi => hv i (List.mem_cons_of_mem _ hi))
    by_cases hbad : idx = -1 ∧ h.allowOptionalInputTensor code = false
    · constructor
      · intro _
        simp [loadInputs, hcode, isOptionalInputTensor, hbad.1, hbad.2]
      · intro hno
        exact absurd ⟨idx, List.mem_cons_self _ _, hbad⟩ hno
    · have hguard : (isOptionalInputTensor idx && !h.allowOptionalInputTensor code) = false := by
        simp only [isOptionalInputTensor]
        by_cases hi : idx = -1
        · have : h.allowOptionalInputTensor code = true := by
            cases hc : h.allowOptionalInputTensor code
            · exact absurd ⟨hi, hc⟩ hbad
            · rfl
          simp [hi, this]
        · simp [hi]
      constructor
      · rintro ⟨i, hi, hbi⟩
        rcases List.mem_cons.mp hi with hi | hi
        · subst hi; exact absurd hbi hbad
        · have := h2.1 ⟨i, hi, hbi⟩
          simp [loadInputs, hcode, hguard, h1, this]
      · intro hno
        have hno1 : ¬ ∃ i ∈ rest, i = -1 ∧ h.allowOptionalInputTensor code = false := by
          rintro ⟨i, hi, hbi⟩
          exact hno ⟨i, List.mem_cons_of_mem _ hi, hbi⟩
        have := h2.2 hno1
        simp [loadInputs, hcode, hguard, h1, this]

theorem loadOperationIO_valid (h : LoaderHooks) (l : LoaderState) (op : Operator)
    (code : BuiltinOperator) (hcode : builtinCodeOf l op = Except.ok code)
    (hin : ∀ idx ∈ op.inputs, ValidTensorIndex l idx)
    (hout : ∀ idx ∈ op.outputs, ValidTensorIndex l idx) :
    ((∃ idx ∈ op.inputs, idx = -1 ∧ h.allowOptionalInputTensor code = false) →
      loadOperationIO h l op = Except.error
        (LoadError.load_failed "loader doesn't support optional input tensor yet")) ∧
    ((¬ ∃ idx ∈ op.inputs, idx = -1 ∧ h.allowOptionalInputTensor code = false) →
      loadOperationIO h l op
        = Except.ok (op.inputs.map (operandOfTensor l), op.outputs.map (operandOfTensor l))) := by
  have hi := loadInputs_valid h l op code hcode op.inputs [] hin
  have ho := loadOutputs_valid l op.outputs [] hout
  constructor
  · intro hbad
    simp [ loadOperationIO, hi.1 hbad]
  · intro hno
    simp [ loadOperationIO, hi.2 hno, ho]

/-- C16: for an operator whose operator code index is in range and whose tensor
indices are the absent index -1 or indices of loaded tensors,
`loadOperationIO` fails if and only if some input index is -1 and
`allowOptionalInputTensor` is false for the builtin code of the operator, and it
fails then with the load error of the optional-input check; when it succeeds the
input and output sequences are the serialized lists mapped index by index, in
order, -1 to the undefined operand index and any other index to the operand
created for that tensor. -/
theorem loadOperationIO_contract (h : LoaderHooks) (l : LoaderState) (op : Operator)
    (code : BuiltinOperator) (hcode : builtinCodeOf l op = Except.ok code)
    (hin : ∀ idx ∈ op.inputs, ValidTensorIndex l idx)
    (hout : ∀ idx ∈ op.outputs, ValidTensorIndex l idx) :
    ((∃ e, loadOperationIO h l op = Except.error e)
      ↔ ∃ idx ∈ op.inputs, idx = -1 ∧ h.allowOptionalInputTensor code = false) ∧
    (∀ e, loadOperationIO h l op = Except.error e →
      e = LoadError.load_failed "loader doesn't support optional input tensor yet") ∧
    (∀ io, loadOperationIO h l op = Except.ok io →
      io.1 = op.inputs.map (operandOfTensor l) ∧ io.2 = op.outputs.map (operandOfTensor l) ∧
      io.1.length = op.inputs.length ∧ io.2.length = op.outputs.length) ∧
    operandOfTensor l (-1) = undefinedOperandIndex ∧
    (∀ idx : Int, 0 ≤ idx → ∀ hlt : idx.toNat < l.tensor_to_operand.length,
      operandOfTensor l idx = l.tensor_to_operand.get ⟨idx.toNat, hlt⟩) := by
  have hv := loadOperationIO_valid h l op code hcode hin hout
  by_cases hbad : ∃ idx ∈ op.inputs, idx = -1 ∧ h.allowOptionalInputTensor code = false
  · have he := hv.1 hbad
    refine ⟨⟨fun _ => hbad, fun _ => ⟨_, he⟩⟩, ?_, ?_, ?_, ?_⟩
    · intro e h1
      rw [he] at h1
      cases h1
      rfl
    · intro io h1
      rw [he] at h1
      cases h1
    · simp [operandOfTensor]
    · intro idx h0 hlt
      have hne : idx ≠ -1 := by omega
      simp [operandOfTensor, hne, List.getD_eq_getElem?_getD, List.getElem?_eq_getElem hlt]
  · have hk := hv.2 hbad
    refine ⟨⟨?_, fun hb => absurd hb hbad⟩, ?_, ?_, ?_, ?_⟩
    · rintro ⟨e, h1⟩
      rw [hk] at h1
      cases h1
    · intro e h1
      rw [hk] at h1
      cases h1
    · intro io h1
      rw [hk] at h1
      cases h1
      simp
    · simp [operandOfTensor]
    · intro idx h0 hlt
      have hne : idx ≠ -1 := by omega
      simp [operandOfTensor, hne, List.getD_eq_getElem?_getD, List.getElem?_eq_getElem hlt]

/-- Witness of C16 on `sampleState`: the custom operator `Foo` with the inputs 0
and -1 fails, because the absent index is not allowed for `CUSTOM`. -/
theorem loadOperationIO_contract_witness :
    builtinCodeOf sampleState (sampleOperator 3 [0, -1] (some [9]))
      = Except.ok BuiltinOperator.CUSTOM ∧
    (∃ e, loadOperationIO sampleHooks sampleState (sampleOperator 3 [0, -1] (some [9]))
      = Except.error e) :=
  ⟨rfl,
    (( loadOperationIO_contract sampleHooks sampleState (sampleOperator 3 [0, -1] (some [9]))
      BuiltinOperator.CUSTOM rfl (by decide) (by decide)).1).2 ⟨-1, by decide, rfl, rfl⟩⟩

/-! ### Structural inputs -/

theorem getElem?_zero_of_one {α : Type} (xs : List α) (x : α) (h : xs[1]? = some x) :
    ∃ y, xs[0]? = some y := by
  cases xs with
  | nil => simp at h
  | cons y ys => exact ⟨y, by simp⟩

theorem loadResizeBilinear_nonconstant (h : LoaderHooks) (l : LoaderState) (op : Operator)
    (subg : Graph) (io : List OperandIndex × List OperandIndex) (size : OperandIndex)
    (o : Operand) (hio : loadOperationIO h l op = Except.ok io) (hk : io.1[1]? = some size)
    (ho : subg.operands[size]? = some o) (hc : o.isConstant = false) :
    loadResizeBilinear h l op subg = stopped subg
      (LoadError.load_failed "ResizeBilinear: non-constant 'size' is not supported.") := by
  obtain ⟨input, h0⟩ := getElem?_zero_of_one io.1 size hk
  simp [loadResizeBilinear, hio, hk, h0, ho, hc]

theorem loadResizeNearestNeighbor_nonconstant (h : LoaderHooks) (l : LoaderState)
    (op : Operator) (subg : Graph) (io : List OperandIndex × List OperandIndex)
    (size : OperandIndex) (o : Operand) (hio : loadOperationIO h l op = Except.ok io)
    (hk : io.1[1]? = some size) (ho : subg.operands[size]? = some o)
    (hc : o.isConstant = false) :
    loadResizeNearestNeighbor h l op subg = stopped subg
      (LoadError.load_failed "ResizeNearestNeighbor: non-constant 'size' is not supported.") := by
  obtain ⟨input, h0⟩ := getElem?_zero_of_one io.1 size hk
  simp [loadResizeNearestNeighbor, hio, hk, h0, ho, hc]

theorem loadTranspose_nonconstant (h : LoaderHooks) (l : LoaderState) (op : Operator)
    (subg : Graph) (io : List OperandIndex × List OperandIndex) (perm : OperandIndex)
    (o : Operand) (hio : loadOperationIO h l op = Except.ok io) (hk : io.1[1]? = some perm)
    (ho : subg.operands[perm]? = some o) (hc : o.isConstant = false) :
    loadTranspose h l op subg = stopped subg
      (LoadError.load_failed "Transpose: non-constant 'perm' is not supported.") := by
  obtain ⟨input, h0⟩ := getElem?_zero_of_one io.1 perm hk
  simp [loadTranspose, hio, hk, h0, ho, hc]

theorem loadSplit_nonconstant (h : LoaderHooks) (l : LoaderState) (op : Operator)
    (subg : Graph) (io : List OperandIndex × List OperandIndex) (axis : OperandIndex)
    (o : Operand) (hio : loadOperationIO h l op = Except.ok io) (hk : io.1[0]? = some axis)
    (ho : subg.operands[axis]? = some o) (hc : o.isConstant = false) :
    (loadSplit h l op subg).subg = subg ∧
    ((loadSplit h l op subg).error
        = some (LoadError.load_failed "Split: non-constant 'axis' is not supported.") ∨
      (loadSplit h l op subg).error = some LoadError.out_of_range) := by
  cases h1 : io.1[1]? with
  | none => simp [loadSplit, hio, hk, h1, stopped]
  | some input => simp [loadSplit, hio, hk, h1, ho, hc, stopped]

theorem loadTile_nonconstant (h : LoaderHooks) (l : LoaderState) (op : Operator)
    (subg : Graph) (io : List OperandIndex × List OperandIndex) (multiples : OperandIndex)
    (o : Operand) (hio : loadOperationIO h l op = Except.ok io)
    (hk : io.1[Tile_MULTIPLES]? = some multiples) (ho : subg.operands[multiples]? = some o)
    (hc : o.isConstant = false) :
    loadTile h l op subg = stopped subg
      (LoadError.load_failed "Tile: non-constant 'multiples' is not supported.") := by
  simp [loadTile, hio, hk, ho, hc]

/-- C13: let the operator be `RESIZE_BILINEAR`, `RESIZE_NEAREST_NEIGHBOR`,
`TRANSPOSE`, `SPLIT` or `TILE`, and let its size, perm, axis or multiples input
(the input at the position `structuralInput` gives) be an operand of the subgraph
that is not constant. Then `loadOperation` fails with an exception that reaches
the caller, and the subgraph is left as it was: no operation is appended. -/
theorem structural_input_must_be_constant (h : LoaderHooks) (l : LoaderState) (op : Operator)
    (subg : Graph) (code : BuiltinOperator) (k : Nat)
    (io : List OperandIndex × List OperandIndex) (index : OperandIndex) (o : Operand)
    (hcode : builtinCodeOf l op = Except.ok code) (hpos : structuralInput code = some k)
    (hio : loadOperationIO h l op = Except.ok io) (hk : io.1[k]? = some index)
    (ho : subg.operands[index]? = some o) (hc : o.isConstant = false) :
    (loadOperation h l op subg).subg = subg ∧
    (loadOperation h l op subg).subg.operations = subg.operations ∧
    ∃ e, (loadOperation h l op subg).error = some e ∧ e.isException = true := by
  have hl : loadOperation h l op subg = dispatchOperation h l op subg code := by
    simp [loadOperation, hcode]
  rw [hl]
  cases code <;> simp only [structuralInput, reduceCtorEq, Option.some.injEq] at hpos
  · subst hpos
    simp [dispatchOperation, loadResizeBilinear_nonconstant h l op subg io index o hio hk ho hc,
      stopped, LoadError.isException]
  · subst hpos
    simp [dispatchOperation,
      loadResizeNearestNeighbor_nonconstant h l op subg io index o hio hk ho hc,
      stopped, LoadError.isException]
  · subst hpos
    simp [dispatchOperation, loadTranspose_nonconstant h l op subg io index o hio hk ho hc,
      stopped, LoadError.isException]
  · subst hpos
    have hs := loadSplit_nonconstant h l op subg io index o hio hk ho hc
    simp only [dispatchOperation]
    refine ⟨hs.1, by rw [hs.1], ?_⟩
    rcases hs.2 with he | he <;> simp [he, LoadError.isException]
  · subst hpos
    simp [dispatchOperation, loadTile_nonconstant h l op subg io index o hio hk ho hc,
      stopped, LoadError.isException]

/-- Witness of C13 on `sampleState` and `sampleGraph`: a `RESIZE_BILINEAR` whose
size input is the operand 1, which has no value. -/
theorem structural_input_must_be_constant_witness :
    builtinCodeOf sampleState (sampleOperator 4 [0, 1] none)
      = Except.ok BuiltinOperator.RESIZE_BILINEAR ∧
    loadOperationIO sampleHooks sampleState (sampleOperator 4 [0, 1] none)
      = Except.ok ([0, 1], [3]) ∧
    sampleOperand.isConstant = false ∧
    (loadOperation sampleHooks sampleState (sampleOperator 4 [0, 1] none) sampleGraph).subg
      = sampleGraph :=
  ⟨rfl, rfl, rfl,
    (structural_input_must_be_constant sampleHooks sampleState (sampleOperator 4 [0, 1] none)
      sampleGraph BuiltinOperator.RESIZE_BILINEAR 1 ([0, 1], [3]) 1 sampleOperand rfl rfl rfl
      rfl rfl rfl).1⟩

/-! ### Reshape -/

/-- C12, counterexample: operand 1 of `sampleGraph`, the new-shape input of the
`RESHAPE` operator with the inputs 0 and 1, is not constant, and `loadOperation`
succeeds and appends the `Reshape` operation. -/
theorem reshape_nonconstant_shape_loads :
    builtinCodeOf sampleState (sampleOperator 0 [0, 1] none)
      = Except.ok BuiltinOperator.RESHAPE ∧
    (sampleGraph.operands[1]?).map Operand.isConstant = some false ∧
    (loadOperation sampleHooks sampleState (sampleOperator 0 [0, 1] none) sampleGraph).error
      = none ∧
    (loadOperation sampleHooks sampleState (sampleOperator 0 [0, 1] none)
        sampleGraph).subg.operations
      = [{ inputs := [0, 1], outputs := [3], param := Param.Reshape [] }] := by
  refine ⟨rfl, rfl, rfl, rfl⟩

/-- C12, amended: loading a `RESHAPE` operator never looks at its operands, so it
does not matter whether the new-shape input is constant. When the operand indices
of the operator load, `loadOperation` succeeds and appends one `Reshape`
operation with these inputs and outputs whose `new_shape` is the list of the
`ReshapeOptions` (empty when the options or the list are absent); it fails only
when `loadOperationIO` fails, with that error and nothing appended. -/
theorem loadReshape_ignores_operands (h : LoaderHooks) (l : LoaderState) (op : Operator)
    (subg : Graph) (hcode : builtinCodeOf l op = Except.ok BuiltinOperator.RESHAPE) :
    (∀ io, loadOperationIO h l op = Except.ok io →
      loadOperation h l op subg
        = { subg := subg.addOperation
              { inputs := io.1, outputs := io.2, param := Param.Reshape (reshapeNewShape op) },
            error := none }) ∧
    (∀ e, loadOperationIO h l op = Except.error e →
      loadOperation h l op subg = { subg := subg, error := some e }) := by
  have hl : loadOperation h l op subg = loadReshape h l op subg := by
    simp [loadOperation, hcode, dispatchOperation]
  rw [hl]
  constructor
  · intro io hio
    simp only [loadReshape, loadOperationTo, hio, appended, reshapeNewShape]
  · intro e hio
    simp only [loadReshape, loadOperationTo, hio, appended]

/-- Witness of amended C12 on `sampleState`. -/
theorem loadReshape_ignores_operands_witness :
    builtinCodeOf sampleState (sampleOperator 0 [0, 1] none)
      = Except.ok BuiltinOperator.RESHAPE ∧
    loadOperationIO sampleHooks sampleState (sampleOperator 0 [0, 1] none)
      = Except.ok ([0, 1], [3]) ∧
    loadOperation sampleHooks sampleState (sampleOperator 0 [0, 1] none) sampleGraph
      = { subg := sampleGraph.addOperation
            { inputs := [0, 1], outputs := [3],
              param := Param.Reshape (reshapeNewShape (sampleOperator 0 [0, 1] none)) },
          error := none } :=
  ⟨rfl, rfl,
    (loadReshape_ignores_operands sampleHooks sampleState (sampleOperator 0 [0, 1] none)
      sampleGraph rfl).1 ([0, 1], [3]) rfl⟩

/-! ### Custom operators -/

theorem builtin_map_unknown (name : String) (hn : name ∉ knownCustomNames) :
    builtin_map name = none := by
  simp only [knownCustomNames, List.mem_cons, List.mem_singleton, not_or, List.mem_nil_iff,
    or_false] at hn
  obtain ⟨h1, h2, h3, h4, h5, h6, h7, h8, h9⟩ := hn
  simp [builtin_map, h1, h2, h3, h4, h5, h6, h7, h8, h9]

/-- C15, the input on which the code departs from it: in `sampleState` the
operator codes 1 and 2 are the custom operators `Einsum` and `FusedBatchNormV3`.
With three inputs each (not two, not five) and custom options present,
`loadOperation` returns without error: the exception of the input-count check is
caught inside `loadCustom`, after the `Einsum` or `FusedBatchNorm` operation was
appended, and a generic `Custom` operation is appended as well. -/
theorem custom_wrong_input_count_loads :
    (loadOperation sampleHooks sampleState (sampleOperator 1 [0, 1, 2] (some [1, 2]))
        sampleGraph).error = none ∧
    (loadOperation sampleHooks sampleState (sampleOperator 1 [0, 1, 2] (some [1, 2]))
        sampleGraph).subg.operations
      = [{ inputs := [0, 1, 2], outputs := [3], param := Param.Einsum "" },
         { inputs := [0, 1, 2], outputs := [3], param := Param.Custom 3 "Einsum" [1, 2] 2 }] ∧
    (loadOperation sampleHooks sampleState (sampleOperator 2 [0, 1, 2] (some [1, 2]))
        sampleGraph).error = none ∧
    (loadOperation sampleHooks sampleState (sampleOperator 2 [0, 1, 2] (some [1, 2]))
        sampleGraph).subg.operations
      = [{ inputs := [0, 1, 2], outputs := [3],
           param := Param.FusedBatchNorm false (Float32.finite 0) "" },
         { inputs := [0, 1, 2], outputs := [3],
           param := Param.Custom 3 "FusedBatchNormV3" [1, 2] 2 }] ∧
    (loadEinsum sampleHooks sampleState (sampleOperator 1 [0, 1, 2] (some [1, 2]))
        sampleGraph).error
      = some (LoadError.load_failed "Einsum: NYI input - only support two inputs") := by
  refine ⟨rfl, rfl, rfl, rfl, rfl⟩

/-- C17, the input on which the code departs from it: the custom operator
`Einsum` with the single input 0 and custom options. `loadOperation` returns
without error and has appended two operations to the subgraph, which had none. -/
theorem loadOperation_appends_two :
    sampleGraph.operations.length = 0 ∧
    (loadOperation sampleHooks sampleState (sampleOperator 1 [0] (some [7])) sampleGraph).error
      = none ∧
    (loadOperation sampleHooks sampleState (sampleOperator 1 [0] (some [7]))
        sampleGraph).subg.operations.length = 2 := by
  refine ⟨rfl, rfl, rfl⟩

/-- C18, counterexample: `Foo` is not a known custom operator, and the operator
`Foo` with the inputs 0 and -1 is not loaded as a generic `Custom` operation:
the absent input is not allowed for `CUSTOM`, so `loadCustom` fails in its
`catch` block and appends nothing. -/
theorem loadCustom_unknown_can_fail :
    "Foo" ∉ knownCustomNames ∧
    (loadCustom sampleHooks sampleState (sampleOperator 3 [0, -1] (some [9])) sampleGraph).error
      = some (LoadError.load_failed "loader doesn't support optional input tensor yet") ∧
    (loadCustom sampleHooks sampleState (sampleOperator 3 [0, -1] (some [9]))
        sampleGraph).subg.operations = [] := by
  refine ⟨by decide, rfl, rfl⟩

/-- C18, amended: for a custom operator (options in the flexbuffers format) whose
name is not one of the nine known names, whose operand indices load and whose
custom options are present, `loadCustom` succeeds and appends one generic
`Custom` operation: its id is the custom code name, its inputs and outputs are
the loaded operand indices in order, its operand constraint is the number of
inputs, and its userdata are the custom option bytes, with their size. -/
theorem loadCustom_generic (h : LoaderHooks) (l : LoaderState) (op : Operator) (subg : Graph)
    (op_code : OperatorCode) (name : String) (io : List OperandIndex × List OperandIndex)
    (bytes : List Nat)
    (hformat : op.custom_options_format = CustomOptionsFormat.FLEXBUFFERS)
    (hop : l.model.operator_codes[op.opcode_index]? = some op_code)
    (hname : op_code.custom_code = some name) (hn : name ∉ knownCustomNames)
    (hio : loadOperationIO h l op = Except.ok io) (hopt : op.custom_options = some bytes) :
    loadCustom h l op subg
      = { subg := subg.addOperation
            { inputs := io.1, outputs := io.2,
              param := Param.Custom io.1.length name bytes bytes.length },
          error := none } ∧
    (loadCustom h l op subg).subg.operations
      = subg.operations
          ++ [{ inputs := io.1, outputs := io.2,
                param := Param.Custom io.1.length name bytes bytes.length }] := by
  have hm := builtin_map_unknown name hn
  have h1 : loadCustom h l op subg
      = { subg := subg.addOperation
            { inputs := io.1, outputs := io.2,
              param := Param.Custom io.1.length name bytes bytes.length },
          error := none } := by
    simp [loadCustom, hformat, hop, hname, loadKnownCustom, hm, stopped, LoadError.isException,
      loadGenericCustom, hio, hopt]
  rw [h1]
  exact ⟨rfl, rfl⟩

/-- Witness of amended C18: the operator `Foo` of `sampleState` with the inputs 0
and 1 and the option byte 9. -/
theorem loadCustom_generic_witness :
    "Foo" ∉ knownCustomNames ∧
    loadOperationIO sampleHooks sampleState (sampleOperator 3 [0, 1] (some [9]))
      = Except.ok ([0, 1], [3]) ∧
    (loadCustom sampleHooks sampleState (sampleOperator 3 [0, 1] (some [9]))
        sampleGraph).subg.operations
      = sampleGraph.operations
          ++ [{ inputs := [0, 1], outputs := [3], param := Param.Custom 2 "Foo" [9] 1 }] :=
  ⟨by decide, rfl,
    (loadCustom_generic sampleHooks sampleState (sampleOperator 3 [0, 1] (some [9])) sampleGraph
      { builtin_code := BuiltinOperator.CUSTOM, custom_code := some "Foo" } "Foo" ([0, 1], [3])
      [9] rfl rfl rfl (by decide) rfl rfl).2⟩

/-! ### Tensor types -/

/-- C20: `tensorTypeToDataType` succeeds exactly on `FLOAT32`, `INT32`, `BOOL`,
`UINT8`, `INT8` and `INT64`, which it maps to `FLOAT32`, `INT32`, `BOOL8`,
`QUANT_UINT8_ASYMM`, `QUANT_INT8_SYMM` and `INT64`; the mapping is injective; on
every other tensor type it fails with the unsupported-type error. -/
theorem tensorTypeToDataType_contract :
    tensorTypeToDataType TensorType.FLOAT32 = Except.ok DataType.FLOAT32 ∧
    tensorTypeToDataType TensorType.INT32 = Except.ok DataType.INT32 ∧
    tensorTypeToDataType TensorType.BOOL = Except.ok DataType.BOOL8 ∧
    tensorTypeToDataType TensorType.UINT8 = Except.ok DataType.QUANT_UINT8_ASYMM ∧
    tensorTypeToDataType TensorType.INT8 = Except.ok DataType.QUANT_INT8_SYMM ∧
    tensorTypeToDataType TensorType.INT64 = Except.ok DataType.INT64 ∧
    (∀ type, (∃ data_type, tensorTypeToDataType type = Except.ok data_type)
      ↔ type ∈ [TensorType.FLOAT32, TensorType.INT32, TensorType.BOOL, TensorType.UINT8,
                TensorType.INT8, TensorType.INT64]) ∧
    (∀ type, type ∉ [TensorType.FLOAT32, TensorType.INT32, TensorType.BOOL, TensorType.UINT8,
                     TensorType.INT8, TensorType.INT64] →
      tensorTypeToDataType type
        = Except.error (LoadError.load_failed "Unsupported tensor type")) ∧
    (∀ type1 type2 data_type, tensorTypeToDataType type1 = Except.ok data_type →
      tensorTypeToDataType type2 = Except.ok data_type → type1 = type2) := by
  refine ⟨rfl, rfl, rfl, rfl, rfl, rfl, ?_, ?_, ?_⟩
  · intro type
    cases type <;> simp [tensorTypeToDataType]
  · intro type hn
    cases type <;> simp [tensorTypeToDataType] at hn ⊢
  · intro type1 type2 data_type h1 h2
    cases type1 <;> cases type2 <;> simp [tensorTypeToDataType] at h1 h2 ⊢ <;>
      (subst h1; simp at h2)

theorem loadScale_cases (scale : Option (List Float32)) :
    ((∃ e, loadScale scale = Except.error e) ↔ ∃ s, scale = some s ∧ s.length ≠ 1) ∧
    (∀ r, loadScale scale = Except.ok r →
      r = (match scale with
           | some [value] => value
           | _ => Float32.finite 0)) := by
  rcases scale with _ | s
  · simp [loadScale]
  · rcases s with _ | ⟨a, _ | ⟨b, t⟩⟩ <;> simp [loadScale]

theorem loadZeroPoint_cases (zero_point : Option (List Int)) :
    ((∃ e, loadZeroPoint zero_point = Except.error e)
      ↔ (∃ z, zero_point = some z ∧ z.length ≠ 1) ∨
        (∃ value, zero_point = some [value] ∧ (value < -2147483648 ∨ 2147483647 < value))) ∧
    (∀ r, loadZeroPoint zero_point = Except.ok r →
      r = (match zero_point with
           | some [value] => value
           | _ => 0)) := by
  rcases zero_point with _ | z
  · simp [loadZeroPoint]
  · rcases z with _ | ⟨a, _ | ⟨b, t⟩⟩
    · simp [loadZeroPoint]
    · by_cases hlo : a < -2147483648
      · simp [loadZeroPoint, hlo]
      · by_cases hhi : a > 2147483647
        · simp [loadZeroPoint, hlo, hhi]
        · have hhi1 : ¬ 2147483647 < a := hhi
          simp [loadZeroPoint, hlo, hhi, hhi1]
    · simp [loadZeroPoint]

theorem quantizationRejected_some (q : QuantizationParameters) :
    QuantizationRejected (some q)
      ↔ (∃ s, q.scale = some s ∧ s.length ≠ 1) ∨
        (∃ z, q.zero_point = some z ∧ z.length ≠ 1) ∨
        q.details_as_CustomQuantization = true := by
  constructor
  · rintro ⟨q1, hq, h⟩
    cases hq
    exact h
  · intro h
    exact ⟨q, rfl, h⟩

theorem zeroPointOutOfRange_some (q : QuantizationParameters) :
    ZeroPointOutOfRange (some q)
      ↔ ∃ value, q.zero_point = some [value] ∧ (value < -2147483648 ∨ 2147483647 < value) := by
  constructor
  · rintro ⟨q1, value, hq, h⟩
    cases hq
    exact ⟨value, h⟩
  · rintro ⟨value, h⟩
    exact ⟨q, value, rfl, h⟩

theorem loadQuantization_cases (q_params : Option QuantizationParameters) :
    ((∃ e, loadQuantization q_params = Except.error e)
      ↔ QuantizationRejected q_params ∨ ZeroPointOutOfRange q_params) ∧
    (∀ r, loadQuantization q_params = Except.ok r →
      r = (declaredScale q_params, declaredZeroPoint q_params)) := by
  rcases q_params with _ | q
  · simp [loadQuantization, QuantizationRejected, ZeroPointOutOfRange, declaredScale,
      declaredZeroPoint]
  · have hs := loadScale_cases q.scale
    have hz := loadZeroPoint_cases q.zero_point
    rw [quantizationRejected_some, zeroPointOutOfRange_some]
    cases hsr : loadScale q.scale with
    | error e =>
      have h1 := hs.1.mp ⟨e, hsr⟩
      constructor
      · simp only [loadQuantization, hsr]
        exact ⟨fun _ => Or.inl (Or.inl h1), fun _ => ⟨e, rfl⟩⟩
      · intro r hr
        simp [loadQuantization, hsr] at hr
    | ok s =>
      have hs1 : ¬ ∃ s, q.scale = some s ∧ s.length ≠ 1 := by
        intro hex
        obtain ⟨e, he⟩ := hs.1.mpr hex
        rw [hsr] at he
        cases he
      have hs2 := hs.2 s hsr
      cases hzr : loadZeroPoint q.zero_point with
      | error e =>
        have h1 := hz.1.mp ⟨e, hzr⟩
        constructor
        · simp only [loadQuantization, hsr, hzr]
          refine ⟨fun _ => ?_, fun _ => ⟨e, rfl⟩⟩
          rcases h1 with h1 | h1
          · exact Or.inl (Or.inr (Or.inl h1))
          · exact Or.inr h1
        · intro r hr
          simp [loadQuantization, hsr, hzr] at hr
      | ok z =>
        have hz1 : ¬ ((∃ z, q.zero_point = some z ∧ z.length ≠ 1) ∨
            (∃ value, q.zero_point = some [value] ∧
              (value < -2147483648 ∨ 2147483647 < value))) := by
          intro hex
          obtain ⟨e, he⟩ := hz.1.mpr hex
          rw [hzr] at he
          cases he
        have hz2 := hz.2 z hzr
        cases hd : q.details_as_CustomQuantization with
        | true =>
          constructor
          · have he : loadQuantization (some q) = Except.error
                (LoadError.load_failed "Custom Quantization is not supported") := by
              simp [loadQuantization, hsr, hzr, hd]
            exact ⟨fun _ => Or.inl (Or.inr (Or.inr rfl)), fun _ => ⟨_, he⟩⟩
          · intro r hr
            simp [loadQuantization, hsr, hzr, hd] at hr
        | false =>
          have hk : loadQuantization (some q) = Except.ok (s, z) := by
            simp [loadQuantization, hsr, hzr, hd]
          constructor
          · constructor
            · rintro ⟨e, he⟩
              rw [hk] at he
              cases he
            · rintro (h1 | h1)
              · rcases h1 with h1 | h1 | h1
                · exact absurd h1 hs1
                · exact absurd (Or.inl h1) hz1
                · cases h1
              · exact absurd (Or.inr h1) hz1
          · intro r hr
            rw [hk] at hr
            cases hr
            exact Prod.ext hs2 hz2

theorem loadSparsity_preserves (type_info type_info1 : TypeInfo)
    (sparsity : Option SparsityParameters)
    (h : loadSparsity type_info sparsity = Except.ok type_info1) :
    type_info1.scale = type_info.scale ∧ type_info1.offset = type_info.offset ∧
    type_info1.type = type_info.type := by
  unfold loadSparsity at h
  repeat' split at h
  all_goals cases h
  all_goals exact ⟨rfl, rfl, rfl⟩

theorem typeInfo_setOperandValue_new (g : Graph) (shape : Shape) (type_info : TypeInfo)
    (data : Data) :
    ∃ o, ((g.addOperand shape type_info).1.setOperandValue g.operands.length data).operands[
        g.operands.length]? = some o ∧ o.typeInfo = type_info := by
  simp [Graph.addOperand, Graph.setOperandValue, Graph.modifyOperand]

theorem typeInfo_addOperand_new (g : Graph) (shape : Shape) (type_info : TypeInfo) :
    ∃ o, (g.addOperand shape type_info).1.operands[g.operands.length]? = some o ∧
      o.typeInfo = type_info := by
  simp [Graph.addOperand]

theorem setOperandValue_addOperand (g : Graph) (shape : Shape) (type_info : TypeInfo)
    (data : Data) :
    (g.addOperand shape type_info).1.setOperandValue g.operands.length data
      = { g with operands :=
            g.operands ++ [{ shape := shape, typeInfo := type_info, data := some data }] } := by
  simp [Graph.addOperand, Graph.setOperandValue, Graph.modifyOperand]

theorem loadOperandValue_cases (l : LoaderState) (g : Graph) (i : OperandIndex)
    (data : Option BufferData) :
    (data = none ∧ loadOperandValue l g i data = Except.ok (l, g)) ∨
    (∃ d, data = some d ∧ l.fd = none ∧
      loadOperandValue l g i data
        = Except.ok (l, g.setOperandValue i (Data.ExternalData d.bytes))) ∨
    (∃ d fd, data = some d ∧ l.fd = some fd ∧
      readsUnmapped l d.offset d.bytes.length = true ∧
      loadOperandValue l g i data = Except.error LoadError.unmapped_access) ∨
    (∃ d fd, data = some d ∧ l.fd = some fd ∧
      readsUnmapped l d.offset d.bytes.length = false ∧
      loadOperandValue l g i data
        = Except.ok (deallocateMmappedArea l d.offset d.bytes.length,
            g.setOperandValue i (Data.CachedData d.bytes))) := by
  rcases data with _ | d
  · exact Or.inl ⟨rfl, rfl⟩
  · cases hfd : l.fd with
    | none =>
      refine Or.inr (Or.inl ⟨d, rfl, rfl, ?_⟩)
      simp [loadOperandValue, hfd]
    | some fd =>
      cases hr : readsUnmapped l d.offset d.bytes.length with
      | true =>
        refine Or.inr (Or.inr (Or.inl ⟨d, fd, rfl, rfl, hr, ?_⟩))
        simp [loadOperandValue, hfd, hr]
      | false =>
        refine Or.inr (Or.inr (Or.inr ⟨d, fd, rfl, rfl, hr, ?_⟩))
        simp [loadOperandValue, hfd, hr]

/-- The value that `loadOperandValue` sets for a data section: none for a null
section, a view of the bytes when the model is from memory, a copy otherwise. -/
theorem loadOperandValue_new (l : LoaderState) (g : Graph) (shape : Shape)
    (type_info : TypeInfo) (data : Option BufferData) (valued : LoaderState × Graph)
    (h : loadOperandValue l (g.addOperand shape type_info).1 g.operands.length data
      = Except.ok valued) :
    valued.2.operations = g.operations ∧
    valued.2.operands = g.operands ++
      [{ shape := shape, typeInfo := type_info,
         data := data.map (fun d =>
           if l.fd = none then Data.ExternalData d.bytes else Data.CachedData d.bytes) }] := by
  rcases loadOperandValue_cases l (g.addOperand shape type_info).1 g.operands.length data with
    ⟨hd, hk⟩ | ⟨d, hd, hfd, hk⟩ | ⟨d, fd, hd, hfd, _, hk⟩ | ⟨d, fd, hd, hfd, _, hk⟩
  · rw [hk] at h
    cases h
    subst hd
    simp [Graph.addOperand]
  · rw [hk] at h
    cases h
    subst hd
    simp [setOperandValue_addOperand, hfd]
  · rw [hk] at h
    cases h
  · rw [hk] at h
    cases h
    subst hd
    simp [setOperandValue_addOperand, hfd]

/-- What a successful `loadOperand` went through: the type, the quantization and
the sparsity were accepted, the buffer exists, the value was set, the name is
there and the tensor is not a variable; the operand is the last one of the
subgraph. -/
theorem loadOperand_success (l : LoaderState) (tensor : Tensor) (subg : Graph)
    (idx : OperandIndex) (h : (loadOperand l tensor subg).result = Except.ok idx) :
    ∃ data_type quantization type_info1 buffer valued name,
      tensorTypeToDataType tensor.type = Except.ok data_type ∧
      loadQuantization tensor.quantization = Except.ok quantization ∧
      loadSparsity { type := data_type, scale := quantization.1, offset := quantization.2,
                     sparse2DMetadata := none } tensor.sparsity = Except.ok type_info1 ∧
      l.model.buffers[tensor.buffer]? = some buffer ∧
      loadOperandValue l
        (subg.addOperand (match tensor.shape with
                          | some tensor_shape => { dims := tensor_shape }
                          | none => { dims := [] }) type_info1).1
        subg.operands.length buffer.data = Except.ok valued ∧
      tensor.name = some name ∧ tensor.is_variable = false ∧
      idx = subg.operands.length ∧
      (loadOperand l tensor subg).subg = valued.2 ∧
      (loadOperand l tensor subg).loader
        = { valued.1 with
            tensor_names := emplaceName valued.1.tensor_names subg.operands.length name } := by
  cases ht : tensorTypeToDataType tensor.type with
  | error e => simp [loadOperand, ht] at h
  | ok data_type =>
    cases hq : loadQuantization tensor.quantization with
    | error e => simp [loadOperand, ht, hq] at h
    | ok quantization =>
      cases hsp : loadSparsity
          { type := data_type, scale := quantization.1, offset := quantization.2,
            sparse2DMetadata := none } tensor.sparsity with
      | error e => simp [loadOperand, ht, hq, hsp] at h
      | ok type_info1 =>
        cases hb : l.model.buffers[tensor.buffer]? with
        | none => simp [loadOperand, ht, hq, hsp, hb] at h
        | some buffer =>
          cases hval : loadOperandValue l
              (subg.addOperand (match tensor.shape with
                                | some tensor_shape => { dims := tensor_shape }
                                | none => { dims := [] }) type_info1).1
              subg.operands.length buffer.data with
          | error e =>
            have hval1 := hval
            simp only [Graph.addOperand] at hval1
            simp [loadOperand, ht, hq, hsp, hb, Graph.addOperand, hval1] at h
          | ok valued =>
            have hval1 := hval
            simp only [Graph.addOperand] at hval1
            cases hn : tensor.name with
            | none => simp [loadOperand, ht, hq, hsp, hb, Graph.addOperand, hval1, hn] at h
            | some name =>
              cases hv : tensor.is_variable with
              | true => simp [loadOperand, ht, hq, hsp, hb, Graph.addOperand, hval1, hn, hv] at h
              | false =>
                refine ⟨data_type, quantization, type_info1, buffer, valued, name, rfl, rfl, hsp,
                  rfl, hval, rfl, rfl, ?_, ?_, ?_⟩
                · simp [loadOperand, ht, hq, hsp, hb, Graph.addOperand, hval1, hn, hv] at h
                  exact h.symm
                · simp [loadOperand, ht, hq, hsp, hb, Graph.addOperand, hval1, hn, hv]
                · simp [loadOperand, ht, hq, hsp, hb, Graph.addOperand, hval1, hn, hv]

theorem loadOperand_ok (l : LoaderState) (tensor : Tensor) (subg : Graph) (idx : OperandIndex)
    (h : (loadOperand l tensor subg).result = Except.ok idx) :
    ∃ data_type quantization type_info o,
      tensorTypeToDataType tensor.type = Except.ok data_type ∧
      loadQuantization tensor.quantization = Except.ok quantization ∧
      type_info.scale = quantization.1 ∧ type_info.offset = quantization.2 ∧
      type_info.type = data_type ∧
      idx = subg.operands.length ∧
      (loadOperand l tensor subg).subg.operands[idx]? = some o ∧ o.typeInfo = type_info := by
  obtain ⟨data_type, quantization, type_info1, buffer, valued, name, ht, hq, hsp, _, hval, _, _,
    hidx, hsubg, _⟩ := loadOperand_success l tensor subg idx h
  have hp := loadSparsity_preserves _ _ _ hsp
  have hnew := (loadOperandValue_new l subg _ type_info1 buffer.data valued hval).2
  refine ⟨data_type, quantization, type_info1,
    { shape := (match tensor.shape with
                | some tensor_shape => { dims := tensor_shape }
                | none => { dims := [] }),
      typeInfo := type_info1,
      data := buffer.data.map (fun d =>
        if l.fd = none then Data.ExternalData d.bytes else Data.CachedData d.bytes) },
    ht, hq, hp.1, hp.2.1, hp.2.2, hidx, ?_, rfl⟩
  rw [hsubg, hnew, hidx]
  simp

/-- C14, counterexample: the quantization table `wideZeroPoint` declares the
single zero point 2147483648, no scale and no custom details. No scale or
zero-point vector has a length other than 1 and there are no custom details, and
yet `loadOperand` fails, on the assertion that the zero point fits `int32_t`. -/
theorem zero_point_out_of_range_fails :
    ¬ QuantizationRejected (some wideZeroPoint) ∧
    loadQuantization (some wideZeroPoint) = Except.error LoadError.assertion ∧
    (loadOperand sampleState (sampleTensor (some wideZeroPoint)) sampleGraph).result
      = Except.error LoadError.assertion := by
  refine ⟨?_, rfl, rfl⟩
  rw [quantizationRejected_some]
  simp [wideZeroPoint]

/-- C14, amended: with respect to quantization, `loadOperand` fails if and only
if a present scale or zero-point vector has a length other than 1, or custom
quantization details are present, or the single zero-point value is outside the
range of `int32_t` (an assertion). When the tensor type is supported, such a
failure is the failure of `loadOperand`, and no operand is created. When
`loadOperand` succeeds, the scale and the zero point of the new operand are the
single declared values, or 0 when the vector or the whole table is absent. -/
theorem loadOperand_quantization (l : LoaderState) (tensor : Tensor) (subg : Graph) :
    ((∃ e, loadQuantization tensor.quantization = Except.error e)
      ↔ QuantizationRejected tensor.quantization ∨ ZeroPointOutOfRange tensor.quantization) ∧
    (∀ data_type e, tensorTypeToDataType tensor.type = Except.ok data_type →
      loadQuantization tensor.quantization = Except.error e →
      (loadOperand l tensor subg).result = Except.error e ∧
      (loadOperand l tensor subg).subg = subg) ∧
    (∀ idx, (loadOperand l tensor subg).result = Except.ok idx →
      ¬ QuantizationRejected tensor.quantization ∧
      ¬ ZeroPointOutOfRange tensor.quantization ∧
      ∃ o, (loadOperand l tensor subg).subg.operands[idx]? = some o ∧
        o.typeInfo.scale = declaredScale tensor.quantization ∧
        o.typeInfo.offset = declaredZeroPoint tensor.quantization) := by
  have hq := loadQuantization_cases tensor.quantization
  refine ⟨hq.1, ?_, ?_⟩
  · intro data_type e ht he
    simp [loadOperand, ht, he]
  · intro idx hidx
    obtain ⟨data_type, quantization, type_info, o, _, hok, hs, hz, _, _, ho, hto⟩ :=
      loadOperand_ok l tensor subg idx hidx
    have hr := hq.2 quantization hok
    have hno : ¬ (QuantizationRejected tensor.quantization ∨
        ZeroPointOutOfRange tensor.quantization) := by
      intro hbad
      obtain ⟨e, he⟩ := hq.1.mpr hbad
      rw [hok] at he
      cases he
    refine ⟨fun hb => hno (Or.inl hb), fun hb => hno (Or.inr hb), o, ho, ?_, ?_⟩
    · rw [hto, hs, hr]
    · rw [hto, hz, hr]

/-- Witness of amended C14: the tensor with the table `sampleQuantization` loads
as operand 4, with the scale 1/2 and the zero point 3. -/
theorem loadOperand_quantization_witness :
    (loadOperand sampleState (sampleTensor (some sampleQuantization)) sampleGraph).result
      = Except.ok 4 ∧
    declaredScale (some sampleQuantization) = Float32.finite (1 / 2) ∧
    declaredZeroPoint (some sampleQuantization) = 3 ∧
    ∃ o, (loadOperand sampleState (sampleTensor (some sampleQuantization))
          sampleGraph).subg.operands[4]? = some o ∧
      o.typeInfo.scale = declaredScale (sampleTensor (some sampleQuantization)).quantization ∧
      o.typeInfo.offset
        = declaredZeroPoint (sampleTensor (some sampleQuantization)).quantization :=
  ⟨rfl, rfl, rfl,
    ((loadOperand_quantization sampleState (sampleTensor (some sampleQuantization))
      sampleGraph).2.2 4 rfl).2.2⟩

/-! ### Subgraphs of the model -/

theorem loadSubgraphs_cases {Model SubGraph Graph : Type}
    (dom : LoaderDomain Model SubGraph Graph) (sgs : List SubGraph) :
    ∀ (i : Nat) (acc : List (Nat × Graph)),
      (∀ e, loadSubgraphs dom sgs i acc = Except.error e →
        ∃ sg ∈ sgs, dom.loadSubgraph sg = Except.error e) ∧
      (∀ r, loadSubgraphs dom sgs i acc = Except.ok r →
        ∃ gs, List.Forall₂ (fun sg g => dom.loadSubgraph sg = Except.ok g) sgs gs ∧
          r = acc ++ List.enumFrom i gs) := by
  induction sgs with
  | nil =>
    intro i acc
    constructor
    · intro e h
      simp [loadSubgraphs] at h
    · intro r h
      simp only [loadSubgraphs, Except.ok.injEq] at h
      exact ⟨[], List.Forall₂.nil, by simp [h]⟩
  | cons sg rest ih =>
    intro i acc
    cases hsg : dom.loadSubgraph sg with
    | error e1 =>
      constructor
      · intro e h
        simp only [loadSubgraphs, hsg, Except.error.injEq] at h
        exact ⟨sg, List.mem_cons_self _ _, by rw [hsg, h]⟩
      · intro r h
        simp [loadSubgraphs, hsg] at h
    | ok g =>
      have ih1 := ih (i + 1) (acc ++ [(i, g)])
      constructor
      · intro e h
        simp only [loadSubgraphs, hsg] at h
        obtain ⟨sg1, hmem, he⟩ := ih1.1 e h
        exact ⟨sg1, List.mem_cons_of_mem _ hmem, he⟩
      · intro r h
        simp only [loadSubgraphs, hsg] at h
        obtain ⟨gs, hall, hr⟩ := ih1.2 r h
        exact ⟨g :: gs, List.Forall₂.cons hsg hall, by simp [hr, List.enumFrom]⟩

/-- C19: when `loadModel` fails, the subgraphs collection of the caller is
exactly what it was before the call, and some serialized subgraph failed to load
with that error; when it succeeds, every serialized subgraph loaded, and the
collection is replaced by the loaded subgraphs, the i-th one under the index i. -/
theorem loadModel_subgraphs {Model SubGraph Graph : Type}
    (dom : LoaderDomain Model SubGraph Graph) (l : BaseLoader Model Graph) :
    (∀ e, (loadModel dom l).error = some e →
      (loadModel dom l).loader.subgraphs = l.subgraphs ∧
      ∃ sg ∈ dom.subgraphs (dom.GetModel l.base), dom.loadSubgraph sg = Except.error e) ∧
    ((loadModel dom l).error = none →
      ∃ gs, List.Forall₂ (fun sg g => dom.loadSubgraph sg = Except.ok g)
          (dom.subgraphs (dom.GetModel l.base)) gs ∧
        (loadModel dom l).loader.subgraphs = List.enum gs ∧
        ∀ (i : Nat) (g : Graph), gs[i]? = some g → (List.enum gs)[i]? = some (i, g)) := by
  have hc := loadSubgraphs_cases dom (dom.subgraphs (dom.GetModel l.base)) 0 []
  cases hr : loadSubgraphs dom (dom.subgraphs (dom.GetModel l.base)) 0 [] with
  | error e1 =>
    have hm : loadModel dom l
        = { loader := { l with model := some (dom.GetModel l.base) }, error := some e1 } := by
      simp [loadModel, hr]
    rw [hm]
    constructor
    · intro e he
      simp only [Option.some.injEq] at he
      subst he
      exact ⟨rfl, hc.1 e1 hr⟩
    · intro he
      simp at he
  | ok r =>
    have hm : loadModel dom l
        = { loader := { l with model := some (dom.GetModel l.base), subgraphs := r },
            error := none } := by
      simp [loadModel, hr]
    rw [hm]
    constructor
    · intro e he
      simp at he
    · intro _
      obtain ⟨gs, hall, hgs⟩ := hc.2 r hr
      refine ⟨gs, hall, by simp [hgs, List.enum], ?_⟩
      intro i g hg
      simp [List.enum, List.getElem?_enumFrom, hg]

/-- Witness of C19: `rejectingDomain` loads the one subgraph of the buffer `[7]`
under the index 0; with `failingDomain` the subgraph 0 fails to load and the
collection `[(0, 9)]` of the caller stays. -/
theorem loadModel_subgraphs_witness :
    (∃ gs, (loadModel rejectingDomain { create [] with base := [7] }).loader.subgraphs
        = List.enum gs) ∧
    (loadModel failingDomain { create [(0, 9)] with base := [5, 0, 6] }).loader.subgraphs
      = [(0, 9)] :=
  ⟨by
      obtain ⟨gs, _, hgs, _⟩ :=
        (loadModel_subgraphs rejectingDomain { create [] with base := [7] }).2 rfl
      exact ⟨gs, hgs⟩,
    ((loadModel_subgraphs failingDomain { create [(0, 9)] with base := [5, 0, 6] }).1
      (LoadError.load_failed "bad subgraph") rfl).1⟩

/-! ### Values of constant operands -/

theorem deallocateMmappedArea_fd (l : LoaderState) (ptr : Int) (size : Nat) :
    (deallocateMmappedArea l ptr size).fd = l.fd := by
  unfold deallocateMmappedArea
  simp only
  split <;> rfl

theorem loadOperandValue_unmapped (l : LoaderState) (g : Graph) (i : OperandIndex)
    (data : Option BufferData) (valued : LoaderState × Graph) :
    loadOperandValue l g i data = Except.ok valued →
    valued.1.unmapped
      = (match data with
         | some d =>
           if l.fd = none then l.unmapped
           else (deallocateMmappedArea l d.offset d.bytes.length).unmapped
         | none => l.unmapped) := by
  intro h
  rcases loadOperandValue_cases l g i data with
    ⟨hd, hk⟩ | ⟨d, hd, hfd, hk⟩ | ⟨d, fd, hd, hfd, _, hk⟩ | ⟨d, fd, hd, hfd, _, hk⟩
  · rw [hk] at h
    cases h
    simp [hd]
  · rw [hk] at h
    cases h
    simp [hd, hfd]
  · rw [hk] at h
    cases h
  · rw [hk] at h
    cases h
    simp [hd, hfd]

/-- The operand that a successful `loadOperand` creates and what is left of the
loader: the value is none for a null data section, a view of the bytes when the
model is from memory, a copy otherwise, and the range of the copy was given to
`deallocateMmappedArea`. -/
theorem loadOperand_value (l : LoaderState) (tensor : Tensor) (subg : Graph)
    (idx : OperandIndex) :
    (loadOperand l tensor subg).result = Except.ok idx →
    ∃ buffer o, l.model.buffers[tensor.buffer]? = some buffer ∧
      idx = subg.operands.length ∧
      (loadOperand l tensor subg).subg.operands[idx]? = some o ∧
      o.data = buffer.data.map (fun d =>
        if l.fd = none then Data.ExternalData d.bytes else Data.CachedData d.bytes) ∧
      (loadOperand l tensor subg).loader.unmapped
        = (match buffer.data with
           | some d =>
             if l.fd = none then l.unmapped
             else (deallocateMmappedArea l d.offset d.bytes.length).unmapped
           | none => l.unmapped) := by
  intro h
  obtain ⟨data_type, quantization, type_info1, buffer, valued, name, _, _, _, hb, hval, _, _,
    hidx, hsubg, hloader⟩ := loadOperand_success l tensor subg idx h
  have hnew := (loadOperandValue_new l subg _ type_info1 buffer.data valued hval).2
  have hun := loadOperandValue_unmapped l _ _ buffer.data valued hval
  refine ⟨buffer, ?o, hb, hidx, ?a, ?b, ?c⟩
  case a =>
    rw [hsubg, hnew, hidx]
    exact List.getElem?_concat_length _ _
  case b => rfl
  case c =>
    rw [hloader]
    exact hun

theorem loadOperand_unmapped_of_memory (l : LoaderState) (tensor : Tensor) (subg : Graph)
    (hfd : l.fd = none) : (loadOperand l tensor subg).loader.unmapped = l.unmapped := by
  unfold loadOperand
  simp only
  split
  · rfl
  · split
    · rfl
    · split
      · rfl
      · split
        · rfl
        · rename_i buffer _
          split
          · rfl
          · rename_i valued hval
            have hu : valued.1.unmapped = l.unmapped := by
              rw [loadOperandValue_unmapped l _ _ buffer.data valued hval]
              split <;> simp [hfd]
            split
            · exact hu
            · split <;> exact hu

/-- C21, the input on which the code departs from it: the data section of
buffer 2 of `sampleState` is present and has zero length. `loadOperand` tests the
data section for null only, so the tensor that refers to this buffer is loaded
as a constant operand, with a value of no bytes. -/
theorem empty_data_section_loads_constant :
    sampleState.model.buffers[2]? = some { data := some { offset := 72, bytes := [] } } ∧
    (loadOperand sampleState (sampleTensorOf 2 "t") sampleGraph).result = Except.ok 4 ∧
    ∃ o, (loadOperand sampleState (sampleTensorOf 2 "t") sampleGraph).subg.operands[4]? = some o ∧
      o.isConstant = true ∧ o.data = some (Data.ExternalData []) ∧ o.valueBytes.length = 0 :=
  ⟨rfl, rfl, _, rfl, rfl, rfl, rfl⟩

/-- The value of an operand by the origin of the model, for a loader that is
used once: a loader as constructed loads a model from a buffer with `_fd` equal to
-1, and a loader that opened, measured and mapped a file loads the model with
`_fd` equal to the descriptor. With `_fd` equal to -1, `loadOperand` never hands
a range to `munmap`, and the value of every operand it loads with a data section
is a view (`ExternalData`) of the bytes of that section. With `_fd` a
descriptor, the value of every operand it loads with a data section is a copy
(`CachedData`) of these bytes, and what was handed to `munmap` is what
`deallocateMmappedArea` hands over for the offset and the length of the bytes
that were copied. -/
theorem loadOperand_value_ownership {Model SubGraph G : Type} (files : FileSystem)
    (dom : LoaderDomain Model SubGraph G) :
    (∀ (subgs : List (Nat × G)) (buffer : List Nat) (size : Nat),
      ∃ b : BaseLoader Model G, b.fd = none ∧ b.base = buffer ∧
        loadFromBuffer dom (create subgs) buffer size = loadModel dom b) ∧
    (∀ (b : BaseLoader Model G) (file_path : String) (fd size : Nat) (base : List Nat),
      files.open_rdonly file_path = some fd → files.fstat fd = some size →
      files.mmap fd size = some base →
      ∃ b1 : BaseLoader Model G, b1.fd = some fd ∧ b1.base = base ∧
        loadFromFile files dom b file_path = loadModel dom b1) ∧
    (∀ (l : LoaderState) (tensor : Tensor) (subg : Graph), l.fd = none →
      (loadOperand l tensor subg).loader.unmapped = l.unmapped ∧
      ∀ idx, (loadOperand l tensor subg).result = Except.ok idx →
        ∃ buffer o, l.model.buffers[tensor.buffer]? = some buffer ∧
          (loadOperand l tensor subg).subg.operands[idx]? = some o ∧
          o.data = buffer.data.map (fun d => Data.ExternalData d.bytes)) ∧
    (∀ (l : LoaderState) (tensor : Tensor) (subg : Graph) (fd : Nat) (idx : OperandIndex),
      l.fd = some fd → (loadOperand l tensor subg).result = Except.ok idx →
        ∃ buffer o, l.model.buffers[tensor.buffer]? = some buffer ∧
          (loadOperand l tensor subg).subg.operands[idx]? = some o ∧
          o.data = buffer.data.map (fun d => Data.CachedData d.bytes) ∧
          (loadOperand l tensor subg).loader.unmapped
            = (match buffer.data with
               | some d => (deallocateMmappedArea l d.offset d.bytes.length).unmapped
               | none => l.unmapped)) := by
  refine ⟨?_, ?_, ?_, ?_⟩
  · intro subgs buffer size
    exact ⟨_, rfl, rfl, rfl⟩
  · intro b file_path fd size base ho hs hm
    refine ⟨{ b with fd := some fd, base := base, verifier := (base, size) }, rfl, rfl, ?_⟩
    simp [loadFromFile, ho, hs, hm]
  · intro l tensor subg hfd
    refine ⟨loadOperand_unmapped_of_memory l tensor subg hfd, ?_⟩
    intro idx hidx
    obtain ⟨buffer, o, hb, _, ho, hdata, _⟩ := loadOperand_value l tensor subg idx hidx
    refine ⟨buffer, o, hb, ho, ?_⟩
    rw [hdata]
    simp [hfd]
  · intro l tensor subg fd idx hfd hidx
    obtain ⟨buffer, o, hb, _, ho, hdata, hun⟩ := loadOperand_value l tensor subg idx hidx
    refine ⟨buffer, o, hb, ho, ?_, ?_⟩
    · rw [hdata]
      simp [hfd]
    · rw [hun]
      cases buffer.data <;> simp [hfd]

theorem pageOfBytes_length : pageOfBytes.length = 4096 := by
  unfold pageOfBytes
  exact List.length_replicate 4096 7

theorem loadOperand_mappedState_first :
    loadOperand mappedState (sampleTensorOf 1 "a") emptyGraph
      = { loader := { mappedState with unmapped := [(4096, 4096)], tensor_names := [(0, "a")] },
          subg := { operands := [{ sampleOperand with
                       data := some (Data.CachedData pageOfBytes) }],
                    operations := [] },
          result := Except.ok 0 } := by
  have h1 : Int.tdiv 8191 4096 = 1 := rfl
  have h2 : Int.tdiv 8192 4096 = 2 := rfl
  simp [loadOperand, loadOperandValue, readsUnmapped, deallocateMmappedArea, mappedState,
    sampleTensorOf, emptyGraph, tensorTypeToDataType, loadQuantization, loadSparsity,
    Graph.addOperand, Graph.setOperandValue, Graph.modifyOperand, emplaceName, sampleOperand,
    pageOfBytes_length, h1, h2]

theorem loadOperand_mappedState_second :
    loadOperand { mappedState with unmapped := [(4096, 4096)], tensor_names := [(0, "a")] }
        (sampleTensorOf 1 "b")
        { operands := [{ sampleOperand with data := some (Data.CachedData pageOfBytes) }],
          operations := [] }
      = { loader := { mappedState with unmapped := [(4096, 4096)], tensor_names := [(0, "a")] },
          subg := { operands := [{ sampleOperand with
                       data := some (Data.CachedData pageOfBytes) }, sampleOperand],
                    operations := [] },
          result := Except.error LoadError.unmapped_access } := by
  simp [loadOperand, loadOperandValue, readsUnmapped, deallocateMmappedArea, mappedState,
    sampleTensorOf, emptyGraph, tensorTypeToDataType, loadQuantization, loadSparsity,
    Graph.addOperand, Graph.setOperandValue, Graph.modifyOperand, emplaceName, sampleOperand,
    pageOfBytes_length]

/-- The two origins on the samples: in `sampleState`, a model from memory, the
tensor that refers to buffer 1 gets a view of the two bytes of that buffer and nothing is handed to
`munmap`; in `mappedState`, a model mapped from a file, the tensor that refers to
buffer 1 gets a copy of the page of bytes, and the page is handed to `munmap`. -/
theorem loadOperand_value_ownership_witness :
    sampleState.fd = none ∧
    (loadOperand sampleState (sampleTensorOf 1 "t") sampleGraph).result = Except.ok 4 ∧
    (loadOperand sampleState (sampleTensorOf 1 "t") sampleGraph).loader.unmapped
      = sampleState.unmapped ∧
    (∃ buffer o, sampleState.model.buffers[(sampleTensorOf 1 "t").buffer]? = some buffer ∧
      (loadOperand sampleState (sampleTensorOf 1 "t") sampleGraph).subg.operands[4]? = some o ∧
      o.data = buffer.data.map (fun d => Data.ExternalData d.bytes)) ∧
    (loadOperand sampleState (sampleTensorOf 1 "t") sampleGraph).subg.operands[4]?
      = some { sampleOperand with data := some (Data.ExternalData [2, 2]) } ∧
    mappedState.fd = some 3 ∧
    (∃ buffer o, mappedState.model.buffers[(sampleTensorOf 1 "a").buffer]? = some buffer ∧
      (loadOperand mappedState (sampleTensorOf 1 "a") emptyGraph).subg.operands[0]? = some o ∧
      o.data = buffer.data.map (fun d => Data.CachedData d.bytes) ∧
      (loadOperand mappedState (sampleTensorOf 1 "a") emptyGraph).loader.unmapped
        = (match buffer.data with
           | some d => (deallocateMmappedArea mappedState d.offset d.bytes.length).unmapped
           | none => mappedState.unmapped)) ∧
    (loadOperand mappedState (sampleTensorOf 1 "a") emptyGraph).loader.unmapped
      = [(4096, 4096)] :=
  ⟨rfl, rfl,
    ((loadOperand_value_ownership sampleFiles rejectingDomain).2.2.1 sampleState
      (sampleTensorOf 1 "t") sampleGraph rfl).1,
    ((loadOperand_value_ownership sampleFiles rejectingDomain).2.2.1 sampleState
      (sampleTensorOf 1 "t") sampleGraph rfl).2 4 rfl,
    rfl, rfl,
    (loadOperand_value_ownership sampleFiles rejectingDomain).2.2.2 mappedState
      (sampleTensorOf 1 "a") emptyGraph 3 0 rfl
      (by rw [loadOperand_mappedState_first]),
    by rw [loadOperand_mappedState_first]⟩

/-- C22, the input on which the code departs from it: a loader that loaded the
file `model.tflite` and is then given a buffer. `loadFromFile` leaves the closed
descriptor 3 in `_fd` and `loadFromBuffer` does not set `_fd` back to -1, so the
model in the caller's buffer is loaded with `_fd` equal to 3. With that `_fd`, as
in `mappedState`, the value of the tensor `a` is a copy (`CachedData`) of the
page of bytes and not a view of the caller's bytes, and the page of the caller's
buffer from 4096 to 8192 is handed to `munmap`. -/
theorem reused_loader_copies_and_unmaps :
    (loadFromFile sampleFiles failingDomain (create []) "model.tflite").error = none ∧
    (loadFromFile sampleFiles failingDomain (create []) "model.tflite").loader.fd = some 3 ∧
    (∀ (buffer : List Nat) (size : Nat),
      ∃ b : BaseLoader (List Nat) Nat, b.fd = some 3 ∧ b.base = buffer ∧
        loadFromBuffer failingDomain
            (loadFromFile sampleFiles failingDomain (create []) "model.tflite").loader buffer size
          = loadModel failingDomain b) ∧
    mappedState.fd = some 3 ∧
    (loadOperand mappedState (sampleTensorOf 1 "a") emptyGraph).result = Except.ok 0 ∧
    (loadOperand mappedState (sampleTensorOf 1 "a") emptyGraph).subg.operands[0]?
      = some { sampleOperand with data := some (Data.CachedData pageOfBytes) } ∧
    (loadOperand mappedState (sampleTensorOf 1 "a") emptyGraph).loader.unmapped
      = [(4096, 4096)] := by
  rw [loadOperand_mappedState_first]
  refine ⟨rfl, rfl, ?_, rfl, rfl, rfl, rfl⟩
  intro buffer size
  exact ⟨_, rfl, rfl, rfl⟩

/-- C24, the input on which the code departs from it: in `mappedState` two
tensors refer to buffer 1, whose data fill the second page of the mapping. The
first `loadOperand` copies the page and hands it to `munmap` at once; the tensor
`b`, which has not yet copied its data, still refers to that page. The second
`loadOperand` then reads bytes that are no longer mapped: the load ends there,
and the operand of `b` has no value. -/
theorem shared_buffer_unmapped_before_second_copy :
    (sampleTensorOf 1 "a").buffer = (sampleTensorOf 1 "b").buffer ∧
    (loadOperand mappedState (sampleTensorOf 1 "a") emptyGraph).result = Except.ok 0 ∧
    (loadOperand mappedState (sampleTensorOf 1 "a") emptyGraph).loader.unmapped
      = [(4096, 4096)] ∧
    readsUnmapped (loadOperand mappedState (sampleTensorOf 1 "a") emptyGraph).loader 4096
      pageOfBytes.length = true ∧
    (loadOperand (loadOperand mappedState (sampleTensorOf 1 "a") emptyGraph).loader
      (sampleTensorOf 1 "b")
      (loadOperand mappedState (sampleTensorOf 1 "a") emptyGraph).subg).result
      = Except.error LoadError.unmapped_access ∧
    (loadOperand (loadOperand mappedState (sampleTensorOf 1 "a") emptyGraph).loader
      (sampleTensorOf 1 "b")
      (loadOperand mappedState (sampleTensorOf 1 "a") emptyGraph).subg).subg.operands[1]?
      = some sampleOperand := by
  rw [loadOperand_mappedState_first, loadOperand_mappedState_second]
  refine ⟨rfl, rfl, rfl, ?_, rfl, rfl⟩
  simp [readsUnmapped, pageOfBytes_length]

/-! ### Release of mapped pages -/

theorem tdiv_mul_eq_pageCeil (s P : Int) (hP : 0 < P) (hs : 0 ≤ s) :
    Int.tdiv (s + (P - 1)) P * P = pageCeil P s := by
  unfold pageCeil
  congr 1
  rw [Int.tdiv_eq_ediv (by omega) (by omega)]
  symm
  rw [Int.ceil_eq_iff]
  have hPq : (0 : ℚ) < P := by exact_mod_cast hP
  constructor
  · rw [lt_div_iff₀ hPq]
    have h1 : (s + (P - 1)) / P * P ≤ s + (P - 1) := Int.ediv_mul_le _ (by omega)
    have h2 : ((s + (P - 1)) / P - 1) * P < s := by
      nlinarith
    exact_mod_cast h2
  · rw [div_le_iff₀ hPq]
    have h1 : s + (P - 1) < ((s + (P - 1)) / P + 1) * P := by
      have := Int.lt_ediv_add_one_mul_self (s + (P - 1)) hP
      linarith
    have h2 : s ≤ (s + (P - 1)) / P * P := by nlinarith
    exact_mod_cast h2

theorem tdiv_mul_eq_pageFloor (e P : Int) (hP : 0 < P) (he : 0 ≤ e) :
    Int.tdiv e P * P = pageFloor P e := by
  unfold pageFloor
  congr 1
  rw [Int.tdiv_eq_ediv he (by omega)]
  symm
  rw [Int.floor_eq_iff]
  have hPq : (0 : ℚ) < P := by exact_mod_cast hP
  constructor
  · rw [le_div_iff₀ hPq]
    have h1 : e / P * P ≤ e := Int.ediv_mul_le _ (by omega)
    exact_mod_cast h1
  · rw [div_lt_iff₀ hPq]
    have h1 : e < (e / P + 1) * P := by
      have := Int.lt_ediv_add_one_mul_self e hP
      linarith
    exact_mod_cast h1

theorem pageCeil_bounds (s P : Int) (hP : 0 < P) :
    s ≤ pageCeil P s ∧ pageCeil P s < s + P := by
  unfold pageCeil
  have hPq : (0 : ℚ) < P := by exact_mod_cast hP
  have h1 := Int.le_ceil ((s : ℚ) / (P : ℚ))
  have h2 := Int.ceil_lt_add_one ((s : ℚ) / (P : ℚ))
  rw [div_le_iff₀ hPq] at h1
  rw [← sub_lt_iff_lt_add, lt_div_iff₀ hPq] at h2
  constructor
  · exact_mod_cast h1
  · have h3 : (((⌈(s : ℚ) / (P : ℚ)⌉ * P : Int)) : ℚ) < ((s + P : Int) : ℚ) := by
      push_cast
      linarith
    exact_mod_cast h3

theorem pageFloor_bounds (e P : Int) (hP : 0 < P) :
    pageFloor P e ≤ e ∧ e < pageFloor P e + P := by
  unfold pageFloor
  have hPq : (0 : ℚ) < P := by exact_mod_cast hP
  have h1 := Int.floor_le ((e : ℚ) / (P : ℚ))
  have h2 := Int.lt_floor_add_one ((e : ℚ) / (P : ℚ))
  rw [le_div_iff₀ hPq] at h1
  rw [div_lt_iff₀ hPq] at h2
  constructor
  · exact_mod_cast h1
  · have h3 : ((e : Int) : ℚ) < (((⌊(e : ℚ) / (P : ℚ)⌋ * P + P : Int)) : ℚ) := by
      push_cast
      linarith
    exact_mod_cast h3

/-- C23: for a positive page size `P` and a range that starts at the offset
`s >= 0` from the mapping base and has `n` bytes, `deallocateMmappedArea` hands
to `munmap` the one range from `ceil(s/P)*P` to `floor((s+n)/P)*P` when that
range is not empty, and nothing otherwise; it changes nothing else. Both ends
are multiples of `P`, the range lies within the requested one, and less than one
page is kept at either edge. -/
theorem deallocateMmappedArea_contract (l : LoaderState) (s : Int) (n : Nat)
    (hP : 0 < l.pagesize) (hs : 0 ≤ s) :
    (pageCeil l.pagesize s < pageFloor l.pagesize (s + n) →
      deallocateMmappedArea l s n
        = { l with unmapped := l.unmapped ++
              [(pageCeil l.pagesize s,
                pageFloor l.pagesize (s + n) - pageCeil l.pagesize s)] }) ∧
    (¬ pageCeil l.pagesize s < pageFloor l.pagesize (s + n) →
      deallocateMmappedArea l s n = l) ∧
    l.pagesize ∣ pageCeil l.pagesize s ∧ l.pagesize ∣ pageFloor l.pagesize (s + n) ∧
    s ≤ pageCeil l.pagesize s ∧ pageCeil l.pagesize s < s + l.pagesize ∧
    pageFloor l.pagesize (s + n) ≤ s + n ∧
    s + n < pageFloor l.pagesize (s + n) + l.pagesize := by
  have hc := tdiv_mul_eq_pageCeil s l.pagesize hP hs
  have hf := tdiv_mul_eq_pageFloor (s + n) l.pagesize hP (by omega)
  have hcb := pageCeil_bounds s l.pagesize hP
  have hfb := pageFloor_bounds (s + n) l.pagesize hP
  refine ⟨?_, ?_, ?_, ?_, hcb.1, hcb.2, hfb.1, hfb.2⟩
  · intro hlt
    have : pageFloor l.pagesize (s + n) - pageCeil l.pagesize s > 0 := by omega
    simp only [deallocateMmappedArea, hc, hf, this, if_true]
  · intro hge
    have : ¬ pageFloor l.pagesize (s + n) - pageCeil l.pagesize s > 0 := by omega
    simp only [deallocateMmappedArea, hc, hf, this, if_false]
  · exact ⟨_, (mul_comm _ _)⟩
  · exact ⟨_, (mul_comm _ _)⟩

/-- Witness of C23 on `sampleState`, with pages of 4096 bytes: of the 10000 bytes
from offset 100, the page from 4096 to 8192 is handed to `munmap`. -/
theorem deallocateMmappedArea_contract_witness :
    (0 : Int) < sampleState.pagesize ∧
    (deallocateMmappedArea sampleState 100 10000).unmapped = [(4096, 4096)] ∧
    ((100 : Int) ≤ pageCeil sampleState.pagesize 100 ∧
      pageCeil sampleState.pagesize 100 < 100 + sampleState.pagesize) :=
  ⟨by decide, by decide,
    (deallocateMmappedArea_contract sampleState 100 10000 (by decide) (by decide)).2.2.2.2.1,
    (deallocateMmappedArea_contract sampleState 100 10000 (by decide) (by decide)).2.2.2.2.2.1⟩

/-! ### Convolution, LeakyRelu and control flow -/

theorem appended_loadOperationTo (h : LoaderHooks) (l : LoaderState) (op : Operator)
    (subg : Graph) (param : Param) :
    (∃ e, loadOperationIO h l op = Except.error e ∧
      appended subg (loadOperationTo h l op subg param) = stopped subg e) ∨
    (∃ io, loadOperationIO h l op = Except.ok io ∧
      appended subg (loadOperationTo h l op subg param)
        = { subg := subg.addOperation { inputs := io.1, outputs := io.2, param := param },
            error := none }) := by
  cases hio : loadOperationIO h l op with
  | error e => exact Or.inl ⟨e, rfl, by simp [appended, loadOperationTo, hio, stopped]⟩
  | ok io => exact Or.inr ⟨io, rfl, by simp [appended, loadOperationTo, hio]⟩

/-- An operator whose tensor indices are valid and whose absent inputs, if any,
are allowed for its builtin code: the operation that `loadOperationTo` appends. -/
theorem appended_valid (h : LoaderHooks) (l : LoaderState) (op : Operator) (subg : Graph)
    (param : Param) (code : BuiltinOperator) (hcode : builtinCodeOf l op = Except.ok code)
    (hin : ∀ idx ∈ op.inputs, ValidTensorIndex l idx)
    (hout : ∀ idx ∈ op.outputs, ValidTensorIndex l idx)
    (habsent : h.allowOptionalInputTensor code = true ∨ (-1 : Int) ∉ op.inputs) :
    appended subg (loadOperationTo h l op subg param)
      = { subg := { operands := subg.operands,
                    operations := subg.operations ++
                      [{ inputs := op.inputs.map (operandOfTensor l),
                         outputs := op.outputs.map (operandOfTensor l), param := param }] },
          error := none } := by
  have hno : ¬ ∃ idx ∈ op.inputs, idx = -1 ∧ h.allowOptionalInputTensor code = false := by
    rintro ⟨idx, hmem, hidx, hfalse⟩
    rcases habsent with ha | ha
    · rw [ha] at hfalse
      cases hfalse
    · exact ha (hidx ▸ hmem)
  have hio := (loadOperationIO_valid h l op code hcode hin hout).2 hno
  simp [appended, loadOperationTo, hio, Graph.addOperation]

/-- C28: for an `IF` operator with its options table, valid tensor indices and no
absent input that is not allowed, `loadOperation` runs `loadIf`, which appends
one `If` operation whose parameters are the serialized then and else subgraph
indices converted to `uint32_t`, and changes nothing else; likewise `loadWhile`
for a `WHILE` operator, with the cond and body subgraph indices. When either
handler fails, the subgraph is as it was. The conversion leaves every index from
0 to 4294967295 as it is and yields a 32-bit unsigned value. -/
theorem control_flow_indices (h : LoaderHooks) (l : LoaderState) (subg : Graph) :
    (∀ (op : Operator) (options : IfOptions),
      builtinCodeOf l op = Except.ok BuiltinOperator.IF →
      op.builtin_options_as_IfOptions = some options →
      (∀ idx ∈ op.inputs, ValidTensorIndex l idx) →
      (∀ idx ∈ op.outputs, ValidTensorIndex l idx) →
      (h.allowOptionalInputTensor BuiltinOperator.IF = true ∨ (-1 : Int) ∉ op.inputs) →
      loadOperation h l op subg = loadIf h l op subg ∧
      loadIf h l op subg
        = { subg := { operands := subg.operands,
                      operations := subg.operations ++
                        [{ inputs := op.inputs.map (operandOfTensor l),
                           outputs := op.outputs.map (operandOfTensor l),
                           param := Param.If (toUInt32 options.then_subgraph_index)
                             (toUInt32 options.else_subgraph_index) }] },
            error := none }) ∧
    (∀ (op : Operator) (options : WhileOptions),
      builtinCodeOf l op = Except.ok BuiltinOperator.WHILE →
      op.builtin_options_as_WhileOptions = some options →
      (∀ idx ∈ op.inputs, ValidTensorIndex l idx) →
      (∀ idx ∈ op.outputs, ValidTensorIndex l idx) →
      (h.allowOptionalInputTensor BuiltinOperator.WHILE = true ∨ (-1 : Int) ∉ op.inputs) →
      loadOperation h l op subg = loadWhile h l op subg ∧
      loadWhile h l op subg
        = { subg := { operands := subg.operands,
                      operations := subg.operations ++
                        [{ inputs := op.inputs.map (operandOfTensor l),
                           outputs := op.outputs.map (operandOfTensor l),
                           param := Param.While (toUInt32 options.cond_subgraph_index)
                             (toUInt32 options.body_subgraph_index) }] },
            error := none }) ∧
    (∀ (op : Operator),
      ((loadIf h l op subg).error ≠ none → (loadIf h l op subg).subg = subg) ∧
      ((loadWhile h l op subg).error ≠ none → (loadWhile h l op subg).subg = subg)) ∧
    (∀ index : Int, 0 ≤ index → index < 4294967296 → (toUInt32 index : Int) = index) ∧
    (∀ index : Int, toUInt32 index < 4294967296) := by
  refine ⟨?_, ?_, ?_, ?_, ?_⟩
  · intro op options hcode hopt hin hout habsent
    refine ⟨by simp [loadOperation, hcode, dispatchOperation], ?_⟩
    simp only [loadIf, hopt]
    exact appended_valid h l op subg _ BuiltinOperator.IF hcode hin hout habsent
  · intro op options hcode hopt hin hout habsent
    refine ⟨by simp [loadOperation, hcode, dispatchOperation], ?_⟩
    simp only [loadWhile, hopt]
    exact appended_valid h l op subg _ BuiltinOperator.WHILE hcode hin hout habsent
  · intro op
    constructor
    · intro herr
      unfold loadIf at herr ⊢
      split
      · rfl
      · rename_i options _
        rcases appended_loadOperationTo h l op subg
          (Param.If (toUInt32 options.then_subgraph_index)
            (toUInt32 options.else_subgraph_index)) with ⟨e, _, hk⟩ | ⟨io, _, hk⟩
        · simp only [hk]
          rfl
        · simp [*] at herr
    · intro herr
      unfold loadWhile at herr ⊢
      split
      · rfl
      · rename_i options _
        rcases appended_loadOperationTo h l op subg
          (Param.While (toUInt32 options.cond_subgraph_index)
            (toUInt32 options.body_subgraph_index)) with ⟨e, _, hk⟩ | ⟨io, _, hk⟩
        · simp only [hk]
          rfl
        · simp [*] at herr
  · intro index h0 hlt
    unfold toUInt32
    rw [Int.emod_eq_of_lt h0 hlt]
    exact Int.toNat_of_nonneg h0
  · intro index
    unfold toUInt32
    have h1 : index % 4294967296 < 4294967296 := Int.emod_lt_of_pos _ (by norm_num)
    have h0 : 0 ≤ index % 4294967296 := Int.emod_nonneg _ (by norm_num)
    omega

/-- Witness of C28: the operators `sampleIf` and `sampleWhile`, which refer to
the subgraphs 1 and 2, load as one operation each, with the parameters 1 and 2. -/
theorem control_flow_indices_witness :
    (loadOperation sampleHooks sampleState sampleIf sampleGraph).subg.operations
      = [{ inputs := [0, 1], outputs := [3], param := Param.If 1 2 }] ∧
    (loadOperation sampleHooks sampleState sampleWhile sampleGraph).subg.operations
      = [{ inputs := [0], outputs := [3], param := Param.While 1 2 }] ∧
    loadOperation sampleHooks sampleState sampleIf sampleGraph
      = loadIf sampleHooks sampleState sampleIf sampleGraph ∧
    loadOperation sampleHooks sampleState sampleWhile sampleGraph
      = loadWhile sampleHooks sampleState sampleWhile sampleGraph ∧
    (toUInt32 7 : Int) = 7 :=
  ⟨rfl, rfl,
    ((control_flow_indices sampleHooks sampleState sampleGraph).1 sampleIf
      { then_subgraph_index := 1, else_subgraph_index := 2 } rfl rfl (by decide) (by decide)
      (Or.inr (by decide))).1,
    ((control_flow_indices sampleHooks sampleState sampleGraph).2.1 sampleWhile
      { cond_subgraph_index := 1, body_subgraph_index := 2 } rfl rfl (by decide) (by decide)
      (Or.inr (by decide))).1,
    (control_flow_indices sampleHooks sampleState sampleGraph).2.2.2.1 7 (by decide)
      (by decide)⟩

/-! ### Sparsity -/

theorem parseSparseIndexVector_status (dim1 : DimensionMetadata) :
    (ParseSparseIndexVector dim1).1 = true ↔
      ∃ segments indices, dim1.array_segments = some segments ∧
        dim1.array_indices = some indices ∧
        (∃ values, segments = SparseIndexVector.Int32Vector (some values) ∨
          segments = SparseIndexVector.Uint16Vector (some values) ∨
          segments = SparseIndexVector.Uint8Vector (some values)) ∧
        (∃ values, indices = SparseIndexVector.Int32Vector (some values) ∨
          indices = SparseIndexVector.Uint16Vector (some values) ∨
          indices = SparseIndexVector.Uint8Vector (some values)) := by
  rcases dim1 with ⟨format, seg, ind⟩
  rcases seg with _ | (⟨_ | v⟩ | ⟨_ | v⟩ | ⟨_ | v⟩ | _) <;>
    rcases ind with _ | (⟨_ | w⟩ | ⟨_ | w⟩ | ⟨_ | w⟩ | _) <;>
    simp [ParseSparseIndexVector, copyIndexVector, Copy]

theorem loadSparsity_cases (type_info : TypeInfo) (sparsity : SparsityParameters) :
    (AcceptedSparsity sparsity ∧ ∃ type_info1, loadSparsity type_info (some sparsity)
        = Except.ok type_info1) ∨
    (¬ AcceptedSparsity sparsity ∧ ∃ e, loadSparsity type_info (some sparsity)
        = Except.error e ∧ (sparsity.dim_metadata ≠ none → e.isException = true)) := by
  rcases sparsity with ⟨dims⟩
  rcases dims with _ | dims
  · right
    simp [AcceptedSparsity, loadSparsity]
  · rcases dims with _ | ⟨dim0, _ | ⟨dim1, _ | ⟨dim2, rest⟩⟩⟩
    · right
      simp [AcceptedSparsity, loadSparsity, LoadError.isException]
    · right
      simp [AcceptedSparsity, loadSparsity, LoadError.isException]
    · by_cases h0 : dim0.format = DimensionType.DENSE
      · by_cases h1 : dim1.format = DimensionType.SPARSE_CSR
        · have hp := parseSparseIndexVector_status dim1
          cases hparse : ParseSparseIndexVector dim1 with
          | mk status arrays =>
            rcases arrays with ⟨w1_segments, w1_indices⟩
            cases status with
            | false =>
              right
              rw [hparse] at hp
              have hno := (not_congr hp).mp (by simp)
              constructor
              · rintro ⟨d0, d1, segments, indices, hd, _, _, hs, hi, hsv, hiv⟩
                simp only [Option.some.injEq, List.cons.injEq, and_true] at hd
                obtain ⟨rfl, rfl⟩ := hd
                exact hno ⟨segments, indices, hs, hi, hsv, hiv⟩
              · simp [loadSparsity, h0, h1, hparse, LoadError.isException]
            | true =>
              left
              rw [hparse] at hp
              obtain ⟨segments, indices, hs, hi, hsv, hiv⟩ := hp.mp rfl
              constructor
              · exact ⟨dim0, dim1, segments, indices, rfl, h0, h1, hs, hi, hsv, hiv⟩
              · simp [loadSparsity, h0, h1, hparse]
        · right
          constructor
          · rintro ⟨d0, d1, segments, indices, hd, _, hf1, _⟩
            simp only [Option.some.injEq, List.cons.injEq, and_true] at hd
            obtain ⟨rfl, rfl⟩ := hd
            exact h1 hf1
          · simp [loadSparsity, h0, h1, LoadError.isException]
      · right
        constructor
        · rintro ⟨d0, d1, segments, indices, hd, hf0, _⟩
          simp only [Option.some.injEq, List.cons.injEq, and_true] at hd
          obtain ⟨rfl, rfl⟩ := hd
          exact h0 hf0
        · simp [loadSparsity, h0, LoadError.isException]
    · right
      simp [AcceptedSparsity, loadSparsity, LoadError.isException]

/-- The sparsity descriptors that are accepted: for a tensor with a sparsity
table, the sparsity part of `loadOperand` succeeds if and only if the table has exactly two dimension-metadata entries, the
first `DENSE` and the second `SPARSE_CSR`, with the segment and the index array
of the second both present, each an `Int32`, `Uint16` or `Uint8` vector with
non-null values. A successful `loadOperand` has such a table. With any other
table `loadOperand` fails and leaves the subgraph as it was; the failure of the
sparsity part is a load error, except that a null `dim_metadata` vector is
dereferenced. -/
theorem loadOperand_sparsity (l : LoaderState) (tensor : Tensor) (subg : Graph)
    (sparsity : SparsityParameters) (hs : tensor.sparsity = some sparsity) :
    (∀ type_info, (∃ type_info1, loadSparsity type_info tensor.sparsity = Except.ok type_info1)
      ↔ AcceptedSparsity sparsity) ∧
    (∀ idx, (loadOperand l tensor subg).result = Except.ok idx → AcceptedSparsity sparsity) ∧
    (¬ AcceptedSparsity sparsity →
      (∃ e, (loadOperand l tensor subg).result = Except.error e) ∧
      (loadOperand l tensor subg).subg = subg ∧
      ∀ type_info, ∃ e, loadSparsity type_info tensor.sparsity = Except.error e ∧
        (sparsity.dim_metadata ≠ none → e.isException = true)) := by
  have hiff : ∀ type_info,
      (∃ type_info1, loadSparsity type_info tensor.sparsity = Except.ok type_info1)
        ↔ AcceptedSparsity sparsity := by
    intro type_info
    rw [hs]
    rcases loadSparsity_cases type_info sparsity with ⟨ha, hk⟩ | ⟨hna, e, he, _⟩
    · exact ⟨fun _ => ha, fun _ => hk⟩
    · constructor
      · rintro ⟨t, ht⟩
        rw [he] at ht
        cases ht
      · intro ha
        exact absurd ha hna
  refine ⟨hiff, ?_, ?_⟩
  · intro idx hidx
    obtain ⟨data_type, quantization, type_info1, _, _, _, _, _, hsp, _⟩ :=
      loadOperand_success l tensor subg idx hidx
    exact (hiff _).mp ⟨type_info1, hsp⟩
  · intro hna
    refine ⟨?_, ?_, ?_⟩
    · cases hr : (loadOperand l tensor subg).result with
      | error e => exact ⟨e, rfl⟩
      | ok idx =>
        obtain ⟨data_type, quantization, type_info1, _, _, _, _, _, hsp, _⟩ :=
          loadOperand_success l tensor subg idx hr
        exact absurd ((hiff _).mp ⟨type_info1, hsp⟩) hna
    · unfold loadOperand
      simp only
      split
      · rfl
      · split
        · rfl
        · split
          · rfl
          · rename_i type_info1 hsp
            exact absurd ((hiff _).mp ⟨type_info1, hsp⟩) hna
    · intro type_info
      rw [hs]
      rcases loadSparsity_cases type_info sparsity with ⟨ha, _⟩ | ⟨_, hk⟩
      · exact absurd ha hna
      · exact hk

/-- An accepted descriptor: the tensor `sparseTensor`, whose table is
`sampleSparsity`, loads as the operand 4, and its table is one that is accepted. -/
theorem loadOperand_sparsity_witness :
    sparseTensor.sparsity = some sampleSparsity ∧
    (loadOperand sampleState sparseTensor sampleGraph).result = Except.ok 4 ∧
    AcceptedSparsity sampleSparsity :=
  ⟨rfl, rfl,
    (loadOperand_sparsity sampleState sparseTensor sampleGraph sampleSparsity rfl).2.1 4 rfl⟩

/-- C30, the input on which the code departs from it: the tensor
`nullMetadataTensor`, whose sparsity table has a null `dim_metadata` vector, a
descriptor that is not one of the accepted ones. `loadOperand` takes the size of
the vector without a check for null; the load ends on the null dereference,
which is not a load error that the caller can catch. The null segment and index
arrays of `nullSegmentsTensor` are checked, and there the load fails with a load
error. -/
theorem null_dim_metadata_is_dereferenced :
    nullMetadataTensor.sparsity = some { dim_metadata := none } ∧
    ¬ AcceptedSparsity { dim_metadata := none } ∧
    (loadOperand sampleState nullMetadataTensor sampleGraph).result
      = Except.error LoadError.null_dereference ∧
    LoadError.null_dereference.isException = false ∧
    (loadOperand sampleState nullSegmentsTensor sampleGraph).result
      = Except.error (LoadError.load_failed "Error during parsing sparsity index information") ∧
    (LoadError.load_failed "Error during parsing sparsity index information").isException
      = true := by
  refine ⟨rfl, ?_, rfl, rfl, rfl, rfl⟩
  rintro ⟨dim0, dim1, segments, indices, h, _⟩
  cases h

/-! ### Operands of the subgraph while operations are loaded -/

theorem loadOperationTo_operands (h : LoaderHooks) (l : LoaderState) (op : Operator)
    (subg : Graph) (param : Param) (added : Graph × Operation)
    (hadded : loadOperationTo h l op subg param = Except.ok added) :
    added.1.operands = subg.operands := by
  unfold loadOperationTo at hadded
  split at hadded
  · cases hadded
  · cases hadded
    rfl

theorem appended_operands (h : LoaderHooks) (l : LoaderState) (op : Operator) (subg : Graph)
    (param : Param) :
    (appended subg (loadOperationTo h l op subg param)).subg.operands = subg.operands := by
  unfold appended
  split
  · rfl
  · rename_i added hadded
    exact loadOperationTo_operands h l op subg param added hadded

theorem loadConv2D_operands (h : LoaderHooks) (l : LoaderState) (op : Operator) (subg : Graph) :
    (loadConv2D h l op subg).subg.operands = subg.operands := by
  unfold loadConv2D
  repeat' split
  all_goals simp [stopped, appended_operands]

theorem loadDepthwiseConv2D_operands (h : LoaderHooks) (l : LoaderState) (op : Operator)
    (subg : Graph) :
    (loadDepthwiseConv2D h l op subg).subg.operands = subg.operands := by
  unfold loadDepthwiseConv2D
  repeat' split
  all_goals simp [stopped, appended_operands]

theorem loadTransposeConv_operands (h : LoaderHooks) (l : LoaderState) (op : Operator)
    (subg : Graph) :
    (loadTransposeConv h l op subg).subg.operands = subg.operands := by
  unfold loadTransposeConv
  repeat' split
  all_goals simp [stopped, appended_operands]

theorem loadReshape_operands (h : LoaderHooks) (l : LoaderState) (op : Operator) (subg : Graph) :
    (loadReshape h l op subg).subg.operands = subg.operands := by
  unfold loadReshape
  repeat' split
  all_goals simp [stopped, appended_operands]

theorem loadSoftmax_operands (h : LoaderHooks) (l : LoaderState) (op : Operator) (subg : Graph) :
    (loadSoftmax h l op subg).subg.operands = subg.operands := by
  unfold loadSoftmax
  repeat' split
  all_goals simp [stopped, appended_operands]

theorem loadConcatenation_operands (h : LoaderHooks) (l : LoaderState) (op : Operator)
    (subg : Graph) :
    (loadConcatenation h l op subg).subg.operands = subg.operands := by
  unfold loadConcatenation
  repeat' split
  all_goals simp [stopped, appended_operands]

theorem loadAddV2_operands (h : LoaderHooks) (l : LoaderState) (op : Operator) (subg : Graph) :
    (loadAddV2 h l op subg).subg.operands = subg.operands := by
  unfold loadAddV2
  repeat' split
  all_goals try simp_all [stopped, appended_operands, Graph.addOperation]
  all_goals repeat' split
  all_goals simp_all [stopped, appended_operands, Graph.addOperation]

theorem loadPack_operands (h : LoaderHooks) (l : LoaderState) (op : Operator) (subg : Graph) :
    (loadPack h l op subg).subg.operands = subg.operands := by
  unfold loadPack
  repeat' split
  all_goals simp [stopped, appended_operands]

theorem loadResizeBilinear_operands (h : LoaderHooks) (l : LoaderState) (op : Operator)
    (subg : Graph) :
    (loadResizeBilinear h l op subg).subg.operands = subg.operands := by
  unfold loadResizeBilinear
  repeat' split
  all_goals try simp_all [stopped, appended_operands, Graph.addOperation]
  all_goals repeat' split
  all_goals simp_all [stopped, appended_operands, Graph.addOperation]

theorem loadResizeNearestNeighbor_operands (h : LoaderHooks) (l : LoaderState) (op : Operator)
    (subg : Graph) :
    (loadResizeNearestNeighbor h l op subg).subg.operands = subg.operands := by
  unfold loadResizeNearestNeighbor
  repeat' split
  all_goals try simp_all [stopped, appended_operands, Graph.addOperation]
  all_goals repeat' split
  all_goals simp_all [stopped, appended_operands, Graph.addOperation]

theorem loadTranspose_operands (h : LoaderHooks) (l : LoaderState) (op : Operator) (subg : Graph) :
    (loadTranspose h l op subg).subg.operands = subg.operands := by
  unfold loadTranspose
  repeat' split
  all_goals simp [stopped, appended_operands, Graph.addOperation]

theorem loadReduceAll_operands (h : LoaderHooks) (l : LoaderState) (op : Operator) (subg : Graph) :
    (loadReduceAll h l op subg).subg.operands = subg.operands := by
  unfold loadReduceAll
  repeat' split
  all_goals simp [stopped, appended_operands]

theorem loadGather_operands (h : LoaderHooks) (l : LoaderState) (op : Operator) (subg : Graph) :
    (loadGather h l op subg).subg.operands = subg.operands := by
  unfold loadGather
  repeat' split
  all_goals simp [stopped, appended_operands]

theorem loadBatchMatMul_operands (h : LoaderHooks) (l : LoaderState) (op : Operator)
    (subg : Graph) :
    (loadBatchMatMul h l op subg).subg.operands = subg.operands := by
  unfold loadBatchMatMul
  repeat' split
  all_goals simp [stopped, appended_operands]

theorem loadSpaceToDepth_operands (h : LoaderHooks) (l : LoaderState) (op : Operator)
    (subg : Graph) :
    (loadSpaceToDepth h l op subg).subg.operands = subg.operands := by
  unfold loadSpaceToDepth
  repeat' split
  all_goals simp [stopped, appended_operands]

theorem loadSqueeze_operands (h : LoaderHooks) (l : LoaderState) (op : Operator) (subg : Graph) :
    (loadSqueeze h l op subg).subg.operands = subg.operands := by
  unfold loadSqueeze
  repeat' split
  all_goals simp [stopped, appended_operands]

theorem loadSplit_operands (h : LoaderHooks) (l : LoaderState) (op : Operator) (subg : Graph) :
    (loadSplit h l op subg).subg.operands = subg.operands := by
  unfold loadSplit
  repeat' split
  all_goals simp [stopped, appended_operands, Graph.addOperation]

theorem loadSplitV_operands (h : LoaderHooks) (l : LoaderState) (op : Operator) (subg : Graph) :
    (loadSplitV h l op subg).subg.operands = subg.operands := by
  unfold loadSplitV
  repeat' split
  all_goals simp [stopped, appended_operands]

theorem loadStridedSlice_operands (h : LoaderHooks) (l : LoaderState) (op : Operator)
    (subg : Graph) :
    (loadStridedSlice h l op subg).subg.operands = subg.operands := by
  unfold loadStridedSlice
  repeat' split
  all_goals simp [stopped, appended_operands]

theorem loadUnpack_operands (h : LoaderHooks) (l : LoaderState) (op : Operator) (subg : Graph) :
    (loadUnpack h l op subg).subg.operands = subg.operands := by
  unfold loadUnpack
  repeat' split
  all_goals simp [stopped, appended_operands]

theorem loadComparison_operands (h : LoaderHooks) (l : LoaderState) (op : Operator) (subg : Graph) :
    (loadComparison h l op subg).subg.operands = subg.operands := by
  unfold loadComparison
  repeat' split
  all_goals simp [stopped, appended_operands]

theorem loadOneHot_operands (h : LoaderHooks) (l : LoaderState) (op : Operator) (subg : Graph) :
    (loadOneHot h l op subg).subg.operands = subg.operands := by
  unfold loadOneHot
  repeat' split
  all_goals simp [stopped, appended_operands]

theorem loadIf_operands (h : LoaderHooks) (l : LoaderState) (op : Operator) (subg : Graph) :
    (loadIf h l op subg).subg.operands = subg.operands := by
  unfold loadIf
  repeat' split
  all_goals simp [stopped, appended_operands]

theorem loadWhile_operands (h : LoaderHooks) (l : LoaderState) (op : Operator) (subg : Graph) :
    (loadWhile h l op subg).subg.operands = subg.operands := by
  unfold loadWhile
  repeat' split
  all_goals simp [stopped, appended_operands]

theorem loadTile_operands (h : LoaderHooks) (l : LoaderState) (op : Operator) (subg : Graph) :
    (loadTile h l op subg).subg.operands = subg.operands := by
  unfold loadTile
  repeat' split
  all_goals simp [stopped, appended_operands, Graph.addOperation]

theorem loadLogSoftmax_operands (h : LoaderHooks) (l : LoaderState) (op : Operator) (subg : Graph) :
    (loadLogSoftmax h l op subg).subg.operands = subg.operands := by
  unfold loadLogSoftmax
  exact appended_operands _ _ _ _ _

theorem loadLeakyRelu_operands (h : LoaderHooks) (l : LoaderState) (op : Operator) (subg : Graph) :
    (loadLeakyRelu h l op subg).subg.operands = subg.operands := by
  unfold loadLeakyRelu loadElementwiseActivation
  repeat' split
  all_goals simp [stopped, appended_operands]

theorem loadPool2D_operands (h : LoaderHooks) (l : LoaderState) (op : Operator) (subg : Graph)
    (op_type : PoolType) :
    (loadPool2D h l op subg op_type).subg.operands = subg.operands := by
  unfold loadPool2D
  repeat' split
  all_goals simp [stopped, appended_operands]

theorem loadBinaryArithmetic_operands (h : LoaderHooks) (l : LoaderState) (op : Operator)
    (subg : Graph)
    (op_type : ArithmeticType) :
    (loadBinaryArithmetic h l op subg op_type).subg.operands = subg.operands := by
  unfold loadBinaryArithmetic
  repeat' split
  all_goals simp [stopped, appended_operands]

theorem loadElementwiseActivation_operands (h : LoaderHooks) (l : LoaderState) (op : Operator)
    (subg : Graph)
    (op_type : ElementwiseActivationType) (alpha beta : Float32) :
    (loadElementwiseActivation h l op subg op_type alpha beta).subg.operands = subg.operands := by
  unfold loadElementwiseActivation
  exact appended_operands _ _ _ _ _

theorem loadReduce_operands (h : LoaderHooks) (l : LoaderState) (op : Operator) (subg : Graph)
    (reduce_type : ReduceType) :
    (loadReduce h l op subg reduce_type).subg.operands = subg.operands := by
  unfold loadReduce
  repeat' split
  all_goals simp [stopped, appended_operands]

theorem loadElementwiseBinary_operands (h : LoaderHooks) (l : LoaderState) (op : Operator)
    (subg : Graph)
    (op_type : ElementwiseBinaryType) :
    (loadElementwiseBinary h l op subg op_type).subg.operands = subg.operands := by
  unfold loadElementwiseBinary
  exact appended_operands _ _ _ _ _

theorem loadEinsum_operands (h : LoaderHooks) (l : LoaderState) (op : Operator) (subg : Graph) :
    (loadEinsum h l op subg).subg.operands = subg.operands := by
  unfold loadEinsum
  split
  · rfl
  · simp only
    split
    · rfl
    · rename_i added hadded
      have hops := loadOperationTo_operands _ _ _ _ _ _ hadded
      split <;> exact hops

theorem loadFusedBatchNorm_operands (h : LoaderHooks) (l : LoaderState) (op : Operator)
    (subg : Graph) :
    (loadFusedBatchNorm h l op subg).subg.operands = subg.operands := by
  unfold loadFusedBatchNorm
  split
  · rfl
  · simp only
    split
    · rfl
    · rename_i added hadded
      have hops := loadOperationTo_operands _ _ _ _ _ _ hadded
      split <;> exact hops

theorem loadArgMax_operands (h : LoaderHooks) (l : LoaderState) (op : Operator) (subg : Graph) :
    (loadArgMax h l op subg).subg.operands = subg.operands := by
  unfold loadArgMax
  split
  · rfl
  · simp only
    split
    · split
      · rfl
      · split
        · rfl
        · rename_i added hadded
          have hops := loadOperationTo_operands _ _ _ _ _ _ hadded
          split
          · exact hops
          · split
            · exact hops
            · split <;> exact hops
    · rfl

theorem loadOperationTo_ok (h : LoaderHooks) (l : LoaderState) (op : Operator)
    (subg : Graph) (param : Param) (added : Graph × Operation)
    (hadded : loadOperationTo h l op subg param = Except.ok added) :
    ∃ io, loadOperationIO h l op = Except.ok io ∧ added.1.operands = subg.operands ∧
      added.2.inputs = io.1 ∧ added.2.outputs = io.2 := by
  unfold loadOperationTo at hadded
  split at hadded
  · cases hadded
  · rename_i io hio
    cases hadded
    exact ⟨io, hio, rfl, rfl, rfl⟩

theorem retypedAt_of_eq (ks : List OperandIndex) (type : DataType) (g g1 : Graph)
    (heq : g1.operands = g.operands) : RetypedAt ks type g g1 := by
  refine ⟨by rw [heq], ?_⟩
  intro i o hi
  exact ⟨o, by rw [heq]; exact hi, ⟨rfl, rfl, rfl, rfl, rfl⟩, Or.inl rfl⟩

theorem retypedAt_modify (g : Graph) (k : OperandIndex) (f : Operand → Operand)
    (type : DataType)
    (hf : ∀ o, g.operands[k]? = some o → SameButType o (f o) ∧
      ((f o).typeInfo.type = o.typeInfo.type ∨
        (o.typeInfo.type = DataType.QUANT_UINT8_ASYMM ∧ (f o).typeInfo.type = type))) :
    RetypedAt [k] type g (g.modifyOperand k f) := by
  unfold Graph.modifyOperand
  cases hk : g.operands[k]? with
  | none => exact retypedAt_of_eq _ _ _ _ rfl
  | some ko =>
    have hfk := hf ko hk
    have hlt : k < g.operands.length := by
      rcases List.getElem?_eq_some_iff.mp hk with ⟨hlt, _⟩
      exact hlt
    refine ⟨by simp, ?_⟩
    intro i o hi
    by_cases hik : i = k
    · subst hik
      rw [hk] at hi
      cases hi
      refine ⟨f ko, by simp [List.getElem?_set_self hlt], hfk.1, ?_⟩
      rcases hfk.2 with h1 | h1
      · exact Or.inl h1
      · exact Or.inr ⟨by simp, h1⟩
    · refine ⟨o, ?_, ⟨rfl, rfl, rfl, rfl, rfl⟩, Or.inl rfl⟩
      simp only
      rw [List.getElem?_set_ne (fun hki => hik hki.symm)]
      exact hi

theorem retypedAt_trans (ks ks1 : List OperandIndex) (type : DataType) (g g1 g2 : Graph)
    (h1 : RetypedAt ks type g g1) (h2 : RetypedAt ks1 type g1 g2) :
    RetypedAt (ks ++ ks1) type g g2 := by
  refine ⟨h2.1.trans h1.1, ?_⟩
  intro i o hi
  obtain ⟨o1, ho1, hs1, ht1⟩ := h1.2 i o hi
  obtain ⟨o2, ho2, hs2, ht2⟩ := h2.2 i o1 ho1
  refine ⟨o2, ho2, ?_, ?_⟩
  · obtain ⟨a1, a2, a3, a4, a5⟩ := hs1
    obtain ⟨b1, b2, b3, b4, b5⟩ := hs2
    exact ⟨b1.trans a1, b2.trans a2, b3.trans a3, b4.trans a4, b5.trans a5⟩
  · rcases ht1 with ht1 | ⟨hm1, hq1, hn1⟩
    · rcases ht2 with ht2 | ⟨hm2, hq2, hn2⟩
      · exact Or.inl (ht2.trans ht1)
      · exact Or.inr ⟨List.mem_append_right _ hm2, ht1 ▸ hq2, hn2⟩
    · rcases ht2 with ht2 | ⟨hm2, hq2, hn2⟩
      · exact Or.inr ⟨List.mem_append_left _ hm1, hq1, ht2.trans hn1⟩
      · exact Or.inr ⟨List.mem_append_left _ hm1, hq1, hn2⟩

theorem qasymm8ToUint8_retypes (o : Operand) :
    SameButType o (qasymm8ToUint8 o) ∧
    ((qasymm8ToUint8 o).typeInfo.type = o.typeInfo.type ∨
      (o.typeInfo.type = DataType.QUANT_UINT8_ASYMM ∧
        (qasymm8ToUint8 o).typeInfo.type = DataType.UINT8)) := by
  unfold qasymm8ToUint8
  split
  · rename_i hq
    exact ⟨⟨rfl, rfl, rfl, rfl, rfl⟩, Or.inr ⟨hq, rfl⟩⟩
  · exact ⟨⟨rfl, rfl, rfl, rfl, rfl⟩, Or.inl rfl⟩

/-- What `loadFC` does to the operands: only the weights, the second input, can
get another element type, and only when the first input is a float operand. -/
theorem loadFC_retypes (h : LoaderHooks) (l : LoaderState) (op : Operator) (subg : Graph) :
    ∃ ks, RetypedAt ks DataType.QUANT_INT8_SYMM subg (loadFC h l op subg).subg ∧
      ∀ k ∈ ks, ∃ io input_index input_operand,
        loadOperationIO h l op = Except.ok io ∧ io.1[1]? = some k ∧
        io.1[0]? = some input_index ∧ subg.operands[input_index]? = some input_operand ∧
        input_operand.typeInfo.type = DataType.FLOAT32 := by
  unfold loadFC
  split
  · exact ⟨[], retypedAt_of_eq _ _ _ _ rfl, by simp⟩
  · split
    · exact ⟨[], retypedAt_of_eq _ _ _ _ rfl, by simp⟩
    · split
      · exact ⟨[], retypedAt_of_eq _ _ _ _ rfl, by simp⟩
      · rename_i added hadded
        obtain ⟨io, hio, hops, hin, _⟩ := loadOperationTo_ok _ _ _ _ _ _ hadded
        simp only
        split
        · exact ⟨[], retypedAt_of_eq _ _ _ _ hops, by simp⟩
        · rename_i input_index hinput
          split
          · exact ⟨[], retypedAt_of_eq _ _ _ _ hops, by simp⟩
          · rename_i input_operand hinput_operand
            split
            · exact ⟨[], retypedAt_of_eq _ _ _ _ hops, by simp⟩
            · rename_i weights_index hweights
              split
              · exact ⟨[], retypedAt_of_eq _ _ _ _ hops, by simp⟩
              · rename_i weights_operand hweights_operand
                split
                · rename_i htypes
                  refine ⟨[weights_index], ?_, ?_⟩
                  · have hm := retypedAt_modify added.1 weights_index
                      (fun o => o.setType DataType.QUANT_INT8_SYMM) DataType.QUANT_INT8_SYMM
                      (by
                        intro o ho
                        rw [hweights_operand] at ho
                        cases ho
                        exact ⟨⟨rfl, rfl, rfl, rfl, rfl⟩, Or.inr ⟨htypes.2, rfl⟩⟩)
                    have h0 := retypedAt_of_eq [] DataType.QUANT_INT8_SYMM subg added.1 hops
                    exact retypedAt_trans [] [weights_index] _ _ _ _ h0 hm
                  · intro k hk
                    simp only [List.mem_singleton] at hk
                    subst hk
                    refine ⟨io, input_index, input_operand, hio, ?_, ?_, ?_, htypes.1⟩
                    · rw [← hin]
                      exact hweights
                    · rw [← hin]
                      exact hinput
                    · rw [← hops]
                      exact hinput_operand
                · exact ⟨[], retypedAt_of_eq _ _ _ _ hops, by simp⟩

/-- What `loadElementwiseUnary` does to the operands: only for a cast, and only
the first input and the first output can get another element type. -/
theorem loadElementwiseUnary_retypes (h : LoaderHooks) (l : LoaderState) (op : Operator)
    (subg : Graph) (op_type : ElementwiseUnaryType) :
    ∃ ks, RetypedAt ks DataType.UINT8 subg (loadElementwiseUnary h l op subg op_type).subg ∧
      ∀ k ∈ ks, op_type = ElementwiseUnaryType.CAST ∧
        ∃ io, loadOperationIO h l op = Except.ok io ∧
          (io.1[0]? = some k ∨ io.2[0]? = some k) := by
  unfold loadElementwiseUnary
  split
  · exact ⟨[], retypedAt_of_eq _ _ _ _ rfl, by simp⟩
  · rename_i added hadded
    obtain ⟨io, hio, hops, hin, hout⟩ := loadOperationTo_ok _ _ _ _ _ _ hadded
    have h0 := retypedAt_of_eq [] DataType.UINT8 subg added.1 hops
    simp only
    split
    · rename_i hcast
      split
      · exact ⟨[], h0, by simp⟩
      · rename_i input_index hinput
        split
        · exact ⟨[], h0, by simp⟩
        · have hm1 := retypedAt_modify added.1 input_index qasymm8ToUint8 DataType.UINT8
            (fun o _ => qasymm8ToUint8_retypes o)
          have h1 := retypedAt_trans [] [input_index] _ _ _ _ h0 hm1
          have hk1 : ∀ k ∈ ([] : List OperandIndex) ++ [input_index],
              op_type = ElementwiseUnaryType.CAST ∧
              ∃ io, loadOperationIO h l op = Except.ok io ∧
                (io.1[0]? = some k ∨ io.2[0]? = some k) := by
            intro k hk
            simp only [List.nil_append, List.mem_singleton] at hk
            subst hk
            exact ⟨hcast, io, hio, Or.inl (by rw [← hin]; exact hinput)⟩
          split
          · exact ⟨_, h1, hk1⟩
          · rename_i output_index houtput
            split
            · exact ⟨_, h1, hk1⟩
            · have hm2 := retypedAt_modify (added.1.modifyOperand input_index qasymm8ToUint8)
                output_index qasymm8ToUint8 DataType.UINT8
                (fun o _ => qasymm8ToUint8_retypes o)
              refine ⟨_, retypedAt_trans _ [output_index] _ _ _ _ h1 hm2, ?_⟩
              intro k hk
              rcases List.mem_append.mp hk with hk | hk
              · exact hk1 k hk
              · simp only [List.mem_singleton] at hk
                subst hk
                exact ⟨hcast, io, hio, Or.inr (by rw [← hout]; exact houtput)⟩
    · exact ⟨[], h0, by simp⟩

theorem loadElementwiseUnary_operands (h : LoaderHooks) (l : LoaderState) (op : Operator)
    (subg : Graph) (op_type : ElementwiseUnaryType)
    (hne : op_type ≠ ElementwiseUnaryType.CAST) :
    (loadElementwiseUnary h l op subg op_type).subg.operands = subg.operands := by
  unfold loadElementwiseUnary
  split
  · rfl
  · rename_i added hadded
    simp only [hne, if_false]
    exact loadOperationTo_operands _ _ _ _ _ _ hadded

theorem loadGenericCustom_operands (h : LoaderHooks) (l : LoaderState) (op : Operator)
    (subg : Graph) (custom_op_name : String) :
    (loadGenericCustom h l op subg custom_op_name).subg.operands = subg.operands := by
  unfold loadGenericCustom
  repeat' split
  all_goals simp_all [stopped, Graph.addOperation]

theorem loadKnownCustom_operands (h : LoaderHooks) (l : LoaderState) (op : Operator)
    (subg : Graph) (custom_op_name : String) :
    (loadKnownCustom h l op subg custom_op_name).subg.operands = subg.operands := by
  unfold loadKnownCustom
  split
  all_goals simp [stopped, appended_operands, loadAddV2_operands, loadReduceAll_operands,
    loadBatchMatMul_operands, loadEinsum_operands, loadFusedBatchNorm_operands,
    loadElementwiseUnary_operands]

theorem loadCustom_operands (h : LoaderHooks) (l : LoaderState) (op : Operator) (subg : Graph) :
    (loadCustom h l op subg).subg.operands = subg.operands := by
  unfold loadCustom
  split
  · rfl
  · split
    · rfl
    · split
      · rfl
      · simp only
        split
        · exact loadKnownCustom_operands _ _ _ _ _
        · split
          · rw [loadGenericCustom_operands]
            exact loadKnownCustom_operands _ _ _ _ _
          · exact loadKnownCustom_operands _ _ _ _ _

theorem dispatchOperation_operands (h : LoaderHooks) (l : LoaderState) (op : Operator)
    (subg : Graph) (code : BuiltinOperator) :
    (code = BuiltinOperator.FULLY_CONNECTED ∧
      dispatchOperation h l op subg code = loadFC h l op subg) ∨
    (code = BuiltinOperator.CAST ∧
      dispatchOperation h l op subg code
        = loadElementwiseUnary h l op subg ElementwiseUnaryType.CAST) ∨
    (dispatchOperation h l op subg code).subg.operands = subg.operands := by
  cases code
  case FULLY_CONNECTED => exact Or.inl ⟨rfl, rfl⟩
  case CAST => exact Or.inr (Or.inl ⟨rfl, rfl⟩)
  all_goals right; right
  all_goals simp [dispatchOperation, stopped, appended_operands, loadConv2D_operands,
    loadDepthwiseConv2D_operands, loadTransposeConv_operands, loadReshape_operands,
    loadSoftmax_operands, loadConcatenation_operands, loadAddV2_operands, loadPack_operands,
    loadResizeBilinear_operands, loadResizeNearestNeighbor_operands, loadTranspose_operands,
    loadReduceAll_operands, loadGather_operands, loadBatchMatMul_operands,
    loadSpaceToDepth_operands, loadSqueeze_operands, loadSplit_operands, loadSplitV_operands,
    loadStridedSlice_operands, loadUnpack_operands, loadComparison_operands,
    loadEinsum_operands, loadFusedBatchNorm_operands, loadOneHot_operands, loadIf_operands,
    loadWhile_operands, loadArgMax_operands, loadTile_operands, loadLogSoftmax_operands,
    loadLeakyRelu_operands, loadPool2D_operands, loadBinaryArithmetic_operands,
    loadElementwiseActivation_operands, loadReduce_operands, loadElementwiseBinary_operands,
    loadElementwiseUnary_operands, loadCustom_operands]

/-- C29, counterexample: in `hybridGraph` the operand 1 has 8-bit asymmetric
quantized elements and the operand 0 is a float operand. Loading the
`FULLY_CONNECTED` operator `sampleFullyConnected`, whose input is the operand 0
and whose weights are the operand 1, succeeds and changes the data type of the
operand 1, which existed before, to `QUANT_INT8_SYMM`. -/
theorem fully_connected_retypes_weights :
    hybridGraph.operands[1]? = some quantizedOperand ∧
    quantizedOperand.typeInfo.type = DataType.QUANT_UINT8_ASYMM ∧
    (loadOperation sampleHooks sampleState sampleFullyConnected hybridGraph).error = none ∧
    (loadOperation sampleHooks sampleState sampleFullyConnected hybridGraph).subg.operands[1]?
      = some (quantizedOperand.setType DataType.QUANT_INT8_SYMM) ∧
    (quantizedOperand.setType DataType.QUANT_INT8_SYMM).typeInfo.type
      = DataType.QUANT_INT8_SYMM ∧
    (quantizedOperand.setType DataType.QUANT_INT8_SYMM).typeInfo.type
      ≠ quantizedOperand.typeInfo.type :=
  ⟨rfl, rfl, rfl, rfl, rfl, by decide⟩

/-- C29, amended: loading an operation keeps the number of operands, and keeps
the shape, the scale, the zero point, the sparsity metadata and the value of
every operand that exists in the subgraph. It keeps the data type of the operand
too, with two exceptions, both for an operand of the type `QUANT_UINT8_ASYMM`:
for a `FULLY_CONNECTED` operator the weights, the second input, become
`QUANT_INT8_SYMM` when the first input is a `FLOAT32` operand, and for a `CAST`
operator the first input and the first output become `UINT8`. -/
theorem loadOperation_operand_metadata (h : LoaderHooks) (l : LoaderState) (op : Operator)
    (subg : Graph) (i : Nat) (o : Operand) (hi : subg.operands[i]? = some o) :
    (loadOperation h l op subg).subg.operands.length = subg.operands.length ∧
    ∃ o1, (loadOperation h l op subg).subg.operands[i]? = some o1 ∧
      o1.shape = o.shape ∧ o1.typeInfo.scale = o.typeInfo.scale ∧
      o1.typeInfo.offset = o.typeInfo.offset ∧
      o1.typeInfo.sparse2DMetadata = o.typeInfo.sparse2DMetadata ∧ o1.data = o.data ∧
      (o1.typeInfo.type = o.typeInfo.type ∨
        (builtinCodeOf l op = Except.ok BuiltinOperator.FULLY_CONNECTED ∧
          o.typeInfo.type = DataType.QUANT_UINT8_ASYMM ∧
          o1.typeInfo.type = DataType.QUANT_INT8_SYMM ∧
          ∃ io input_index input_operand,
            loadOperationIO h l op = Except.ok io ∧ io.1[1]? = some i ∧
            io.1[0]? = some input_index ∧
            subg.operands[input_index]? = some input_operand ∧
            input_operand.typeInfo.type = DataType.FLOAT32) ∨
        (builtinCodeOf l op = Except.ok BuiltinOperator.CAST ∧
          o.typeInfo.type = DataType.QUANT_UINT8_ASYMM ∧
          o1.typeInfo.type = DataType.UINT8 ∧
          ∃ io, loadOperationIO h l op = Except.ok io ∧
            (io.1[0]? = some i ∨ io.2[0]? = some i))) := by
  unfold loadOperation
  cases hcode : builtinCodeOf l op with
  | error e => exact ⟨rfl, o, hi, rfl, rfl, rfl, rfl, rfl, Or.inl rfl⟩
  | ok code =>
    simp only
    rcases dispatchOperation_operands h l op subg code with ⟨hc, hd⟩ | ⟨hc, hd⟩ | hd
    · rw [hd]
      obtain ⟨ks, hr, hks⟩ := loadFC_retypes h l op subg
      obtain ⟨o1, ho1, ⟨s1, s2, s3, s4, s5⟩, ht⟩ := hr.2 i o hi
      refine ⟨hr.1, o1, ho1, s1, s2, s3, s4, s5, ?_⟩
      rcases ht with ht | ⟨hm, hq, hn⟩
      · exact Or.inl ht
      · exact Or.inr (Or.inl ⟨by rw [hc], hq, hn, hks i hm⟩)
    · rw [hd]
      obtain ⟨ks, hr, hks⟩ :=
        loadElementwiseUnary_retypes h l op subg ElementwiseUnaryType.CAST
      obtain ⟨o1, ho1, ⟨s1, s2, s3, s4, s5⟩, ht⟩ := hr.2 i o hi
      refine ⟨hr.1, o1, ho1, s1, s2, s3, s4, s5, ?_⟩
      rcases ht with ht | ⟨hm, hq, hn⟩
      · exact Or.inl ht
      · exact Or.inr (Or.inr ⟨by rw [hc], hq, hn, (hks i hm).2⟩)
    · refine ⟨by rw [hd], o, by rw [hd]; exact hi, rfl, rfl, rfl, rfl, rfl, Or.inl rfl⟩

/-- Witness of amended C29: loading `sampleFullyConnected` into `hybridGraph`
keeps the four operands, and the float operand 0 keeps its shape and its
quantization. -/
theorem loadOperation_operand_metadata_witness :
    hybridGraph.operands[0]? = some sampleOperand ∧
    (loadOperation sampleHooks sampleState sampleFullyConnected hybridGraph).subg.operands.length
      = 4 ∧
    ∃ o1, (loadOperation sampleHooks sampleState sampleFullyConnected
          hybridGraph).subg.operands[0]? = some o1 ∧
      o1.shape = sampleOperand.shape ∧ o1.typeInfo.scale = sampleOperand.typeInfo.scale ∧
      o1.typeInfo.offset = sampleOperand.typeInfo.offset :=
  ⟨rfl, rfl,
    match (loadOperation_operand_metadata sampleHooks sampleState sampleFullyConnected
      hybridGraph 0 sampleOperand rfl).2 with
    | ⟨o1, ho1, hshape, hscale, hoffset, _⟩ => ⟨o1, ho1, hshape, hscale, hoffset⟩⟩

/-! ### Whole pages inside a released range -/

theorem page_within (P s e k : Int) (hP : 0 < P) (hs : s ≤ k * P) (he : (k + 1) * P ≤ e) :
    pageCeil P s ≤ k * P ∧ (k + 1) * P ≤ pageFloor P e := by
  have hc := pageCeil_bounds s P hP
  have hf := pageFloor_bounds e P hP
  unfold pageCeil at hc ⊢
  unfold pageFloor at hf ⊢
  constructor
  · have h1 : ⌈(s : ℚ) / (P : ℚ)⌉ * P < (k + 1) * P := by linarith
    have h2 : ⌈(s : ℚ) / (P : ℚ)⌉ < k + 1 := lt_of_mul_lt_mul_right h1 hP.le
    exact mul_le_mul_of_nonneg_right (by omega) hP.le
  · have h1 : k * P < ⌊(e : ℚ) / (P : ℚ)⌋ * P := by linarith
    have h2 : k < ⌊(e : ℚ) / (P : ℚ)⌋ := lt_of_mul_lt_mul_right h1 hP.le
    exact mul_le_mul_of_nonneg_right (by omega) hP.le

theorem page_between (P s e : Int) (hP : 0 < P) (h : pageCeil P s < pageFloor P e) :
    ∃ k : Int, s ≤ k * P ∧ (k + 1) * P ≤ e := by
  have hc := pageCeil_bounds s P hP
  have hf := pageFloor_bounds e P hP
  unfold pageCeil at hc h
  unfold pageFloor at hf h
  refine ⟨⌈(s : ℚ) / (P : ℚ)⌉, hc.1, ?_⟩
  have h2 : ⌈(s : ℚ) / (P : ℚ)⌉ < ⌊(e : ℚ) / (P : ℚ)⌋ := lt_of_mul_lt_mul_right h hP.le
  have h3 : (⌈(s : ℚ) / (P : ℚ)⌉ + 1) * P ≤ ⌊(e : ℚ) / (P : ℚ)⌋ * P :=
    mul_le_mul_of_nonneg_right (by omega) hP.le
  linarith

/-- C37: for a positive page size `P` and a range that starts at the offset
`s >= 0` and has `n` bytes, `deallocateMmappedArea` releases as much as the
alignment allows: for every aligned page from `k*P` to `(k+1)*P` that lies wholly
inside the range from `s` to `s+n`, the one range it hands to `munmap` contains
that page; and when the range contains no whole aligned page, the area size it
computes is zero or negative and `munmap` is not called. -/
theorem deallocateMmappedArea_whole_pages (l : LoaderState) (s : Int) (n : Nat)
    (hP : 0 < l.pagesize) (hs : 0 ≤ s) :
    (∀ k : Int, s ≤ k * l.pagesize → (k + 1) * l.pagesize ≤ s + n →
      ∃ a m, deallocateMmappedArea l s n = { l with unmapped := l.unmapped ++ [(a, m)] } ∧
        a ≤ k * l.pagesize ∧ (k + 1) * l.pagesize ≤ a + m) ∧
    ((¬ ∃ k : Int, s ≤ k * l.pagesize ∧ (k + 1) * l.pagesize ≤ s + n) →
      Int.tdiv (s + n) l.pagesize * l.pagesize
          - Int.tdiv (s + (l.pagesize - 1)) l.pagesize * l.pagesize ≤ 0 ∧
        deallocateMmappedArea l s n = l) := by
  have hc := tdiv_mul_eq_pageCeil s l.pagesize hP hs
  have hf := tdiv_mul_eq_pageFloor (s + n) l.pagesize hP (by omega)
  constructor
  · intro k hk1 hk2
    have hw := page_within l.pagesize s (s + n) k hP hk1 hk2
    have hpos : pageFloor l.pagesize (s + n) - pageCeil l.pagesize s > 0 := by
      have : k * l.pagesize < (k + 1) * l.pagesize := by linarith
      omega
    refine ⟨pageCeil l.pagesize s, pageFloor l.pagesize (s + n) - pageCeil l.pagesize s,
      ?_, hw.1, by omega⟩
    simp only [deallocateMmappedArea, hc, hf, hpos, if_true]
  · intro hno
    have hle : ¬ pageFloor l.pagesize (s + n) - pageCeil l.pagesize s > 0 := by
      intro hpos
      exact hno (page_between l.pagesize s (s + n) hP (by omega))
    refine ⟨by rw [hc, hf]; omega, ?_⟩
    simp only [deallocateMmappedArea, hc, hf, hle, if_false]

/-- Witness of C37 on `sampleState`, with pages of 4096 bytes: the page from 4096
to 8192 lies inside the 10000 bytes from offset 100 and is handed to `munmap`;
the 5000 bytes from offset 100 contain no whole page and nothing is released. -/
theorem deallocateMmappedArea_whole_pages_witness :
    (0 : Int) < sampleState.pagesize ∧ (100 : Int) ≤ 1 * sampleState.pagesize ∧
    (1 + 1) * sampleState.pagesize ≤ (100 : Int) + (10000 : Nat) ∧
    (∃ a m, deallocateMmappedArea sampleState 100 10000
        = { sampleState with unmapped := sampleState.unmapped ++ [(a, m)] } ∧
      a ≤ 1 * sampleState.pagesize ∧ (1 + 1) * sampleState.pagesize ≤ a + m) ∧
    deallocateMmappedArea sampleState 100 5000 = sampleState :=
  ⟨by decide, by decide, by decide,
    (deallocateMmappedArea_whole_pages sampleState 100 10000 (by decide) (by decide)).1 1
      (by decide) (by decide),
    rfl⟩

/-! ### Copy of sparse index vectors -/

theorem toUInt16_eq_iff (v : Int) : ((toUInt16 v : Nat) : Int) = v ↔ 0 ≤ v ∧ v ≤ 65535 := by
  unfold toUInt16
  have h1 : 0 ≤ v % 65536 := Int.emod_nonneg v (by decide)
  have h2 : v % 65536 < 65536 := Int.emod_lt_of_pos v (by decide)
  rw [Int.toNat_of_nonneg h1]
  constructor
  · intro h
    omega
  · intro h
    omega

/-- C38: for the values of a sparse index vector (of an `Int32Vector`,
`Uint16Vector` or `Uint8Vector`, for which `ParseSparseIndexVector` calls `Copy`),
`Copy` returns true and appends to the target exactly as many entries as the
vector has, in the same order, after the entries the target had: the i-th
appended entry is the i-th value reduced modulo 2^16, which equals the value
exactly when the value is between 0 and 65535. `Copy` returns false exactly when
the values are null, and then it appends nothing. -/
theorem Copy_contract (values : Option (List Int)) (arr : List Nat) :
    (∀ vs, values = some vs →
      Copy values arr = (true, arr ++ vs.map (fun v => (v % 2 ^ 16).toNat)) ∧
      (Copy values arr).2.length = arr.length + vs.length ∧
      (∀ (i : Nat) (v : Int), vs[i]? = some v →
        (Copy values arr).2[arr.length + i]? = some (v % 2 ^ 16).toNat ∧
        ((((v % 2 ^ 16).toNat : Nat) : Int) = v ↔ 0 ≤ v ∧ v ≤ 65535)) ∧
      (∀ i, i < arr.length → (Copy values arr).2[i]? = arr[i]?)) ∧
    (values = none → Copy values arr = (false, arr)) ∧
    ((Copy values arr).1 = false ↔ values = none) ∧
    copyIndexVector (SparseIndexVector.Int32Vector values) arr = some (Copy values arr) ∧
    copyIndexVector (SparseIndexVector.Uint16Vector values) arr = some (Copy values arr) ∧
    copyIndexVector (SparseIndexVector.Uint8Vector values) arr = some (Copy values arr) := by
  refine ⟨?_, ?_, ?_, rfl, rfl, rfl⟩
  · rintro vs rfl
    refine ⟨rfl, by simp [Copy], ?_, ?_⟩
    · intro i v hv
      refine ⟨?_, toUInt16_eq_iff v⟩
      simp only [Copy]
      rw [List.getElem?_append_right (Nat.le_add_right _ _)]
      simp [hv, toUInt16]
    · intro i hi
      simp only [Copy]
      rw [List.getElem?_append_left hi]
  · rintro rfl
    rfl
  · cases values with
    | none => simp [Copy]
    | some vs => simp [Copy]

/-- Witness of C38: four values, two of them outside the 16-bit range, are
appended after the entry 9; null values leave the target as it was. -/
theorem Copy_contract_witness :
    Copy (some [3, 65536, -1, 70000]) [9] = (true, [9, 3, 0, 65535, 4464]) ∧
    (Copy (some [3, 65536, -1, 70000]) [9]).2[1 + 2]? = some 65535 ∧
    Copy none [9] = (false, [9]) :=
  ⟨rfl,
    ((((Copy_contract (some [3, 65536, -1, 70000]) [9]).1 [3, 65536, -1, 70000] rfl).2.2.1 2 (-1)
      (by decide)).1).trans (by decide),
    (Copy_contract none [9]).2.1 rfl⟩

/-! ### Determinism of operand loading -/

/-- The operand that a successful `loadOperand` adds. -/
theorem loadOperand_new_operand (l : LoaderState) (tensor : Tensor) (subg : Graph)
    (idx : OperandIndex) (h : (loadOperand l tensor subg).result = Except.ok idx) :
    ∃ data_type quantization type_info1 buffer,
      tensorTypeToDataType tensor.type = Except.ok data_type ∧
      loadQuantization tensor.quantization = Except.ok quantization ∧
      loadSparsity { type := data_type, scale := quantization.1, offset := quantization.2,
                     sparse2DMetadata := none } tensor.sparsity = Except.ok type_info1 ∧
      l.model.buffers[tensor.buffer]? = some buffer ∧
      (loadOperand l tensor subg).subg.operands[idx]?
        = some { shape := { dims := tensor.shape.getD [] }, typeInfo := type_info1,
                 data := buffer.data.map (fun d =>
                   if l.fd = none then Data.ExternalData d.bytes
                   else Data.CachedData d.bytes) } := by
  obtain ⟨data_type, quantization, type_info1, buffer, valued, name, ht, hq, hsp, hb, hval, _, _,
    hidx, hsubg, _⟩ := loadOperand_success l tensor subg idx h
  have hnew := (loadOperandValue_new l subg _ type_info1 buffer.data valued hval).2
  refine ⟨data_type, quantization, type_info1, buffer, ht, hq, hsp, hb, ?_⟩
  rw [hsubg, hnew, hidx, List.getElem?_concat_length]
  cases tensor.shape <;> rfl

/-- C31: loading is deterministic. Two loads of the same serialized tensor of
the same model, whatever the origin of the bytes (memory or a mapped file) and
whatever was loaded before, give, when both succeed, operands with the same shape
(the serialized dimensions in order), the same data type, scale, zero point and
sparsity metadata, and the same value: both are constant or neither is, and the
value contents are the same bytes. -/
theorem loadOperand_deterministic (l1 l2 : LoaderState) (tensor : Tensor) (subg1 subg2 : Graph)
    (idx1 idx2 : OperandIndex) (hmodel : l1.model = l2.model)
    (h1 : (loadOperand l1 tensor subg1).result = Except.ok idx1)
    (h2 : (loadOperand l2 tensor subg2).result = Except.ok idx2) :
    ∃ o1 o2, (loadOperand l1 tensor subg1).subg.operands[idx1]? = some o1 ∧
      (loadOperand l2 tensor subg2).subg.operands[idx2]? = some o2 ∧
      o1.shape = o2.shape ∧ o1.shape.dims = tensor.shape.getD [] ∧
      o1.typeInfo.type = o2.typeInfo.type ∧ o1.typeInfo.scale = o2.typeInfo.scale ∧
      o1.typeInfo.offset = o2.typeInfo.offset ∧
      o1.typeInfo.sparse2DMetadata = o2.typeInfo.sparse2DMetadata ∧
      o1.isConstant = o2.isConstant ∧ o1.valueBytes = o2.valueBytes := by
  obtain ⟨dt1, q1, ti1, b1, ht1, hq1, hsp1, hb1, ho1⟩ :=
    loadOperand_new_operand l1 tensor subg1 idx1 h1
  obtain ⟨dt2, q2, ti2, b2, ht2, hq2, hsp2, hb2, ho2⟩ :=
    loadOperand_new_operand l2 tensor subg2 idx2 h2
  rw [ht1] at ht2
  cases ht2
  rw [hq1] at hq2
  cases hq2
  rw [hsp1] at hsp2
  cases hsp2
  rw [hmodel, hb2] at hb1
  cases hb1
  refine ⟨_, _, ho1, ho2, rfl, rfl, rfl, rfl, rfl, rfl, ?_, ?_⟩
  · cases b1.data <;> rfl
  · cases hd : b1.data with
    | none => rfl
    | some d =>
      simp only [Operand.valueBytes, Option.map_some']
      by_cases hf1 : l1.fd = none <;> by_cases hf2 : l2.fd = none <;> simp [hf1, hf2, Data.bytes]

/-- Witness of C31 on the tensor `w` of buffer 1: a load from memory into
`sampleGraph` and a load of the same model from a mapped file into `emptyGraph`. -/
theorem loadOperand_deterministic_witness :
    sampleState.model = { sampleState with fd := some 3 }.model ∧
    (loadOperand sampleState (sampleTensorOf 1 "w") sampleGraph).result = Except.ok 4 ∧
    (loadOperand { sampleState with fd := some 3 } (sampleTensorOf 1 "w") emptyGraph).result
      = Except.ok 0 ∧
    ∃ o1 o2, (loadOperand sampleState (sampleTensorOf 1 "w") sampleGraph).subg.operands[4]?
        = some o1 ∧
      (loadOperand { sampleState with fd := some 3 } (sampleTensorOf 1 "w")
        emptyGraph).subg.operands[0]? = some o2 ∧
      o1.shape = o2.shape ∧ o1.shape.dims = (sampleTensorOf 1 "w").shape.getD [] ∧
      o1.typeInfo.type = o2.typeInfo.type ∧ o1.typeInfo.scale = o2.typeInfo.scale ∧
      o1.typeInfo.offset = o2.typeInfo.offset ∧
      o1.typeInfo.sparse2DMetadata = o2.typeInfo.sparse2DMetadata ∧
      o1.isConstant = o2.isConstant ∧ o1.valueBytes = o2.valueBytes :=
  ⟨rfl, rfl, rfl,
    loadOperand_deterministic sampleState { sampleState with fd := some 3 }
      (sampleTensorOf 1 "w") sampleGraph emptyGraph 4 0 rfl rfl rfl⟩

/-! ### The axis of ArgMax -/

/-- C39, failing input: an `ARG_MAX` operator with the output type `INT32`
whose axis operand is a single `INT64` element. The operand has one element of 8
bytes, so `operandSize() == 4` is false; `loadArgMax` fails with the message that
an int32 or int64 element is supported, after the operation was appended. The
same operator with a single `INT32` element as axis is loaded. -/
theorem argMax_rejects_int64_axis :
    builtinCodeOf argMaxState (sampleArgMax TensorType.INT32)
      = Except.ok BuiltinOperator.ARG_MAX ∧
    (axisGraph DataType.INT64).operands[1]? = some (singleElementOperand DataType.INT64) ∧
    (singleElementOperand DataType.INT64).shape.num_elements = 1 ∧
    (singleElementOperand DataType.INT64).typeInfo.type = DataType.INT64 ∧
    (singleElementOperand DataType.INT64).operandSize = 8 ∧
    loadOperation sampleHooks argMaxState (sampleArgMax TensorType.INT32)
        (axisGraph DataType.INT64)
      = { subg := { operands := (axisGraph DataType.INT64).operands,
                    operations := [{ inputs := [0, 1], outputs := [3],
                                     param := Param.ArgMax DataType.INT32 }] },
          error := some (LoadError.load_failed
            "ArgMax: `axis` with an int32 or int64 element is only supported.") } ∧
    loadOperation sampleHooks argMaxState (sampleArgMax TensorType.INT32)
        (axisGraph DataType.INT32)
      = { subg := { operands := (axisGraph DataType.INT32).operands,
                    operations := [{ inputs := [0, 1], outputs := [3],
                                     param := Param.ArgMax DataType.INT32 }] },
          error := none } := by
  refine ⟨rfl, rfl, rfl, rfl, rfl, ?_, ?_⟩
  · rfl
  · rfl

/-! ### The dispatch of `loadOperation` -/

/-- C40: `loadOperation` fails with the unsupported-operation error, which is an
exception, and leaves the subgraph as it was (nothing is appended) for every
builtin code that is not in the dispatch list; for every other code it does what
the `switch` does for that code and nothing else; and for each of the 82 codes
of the dispatch list the `switch` runs the one handler of that code. -/
theorem loadOperation_dispatch (h : LoaderHooks) (l : LoaderState) (op : Operator)
    (subg : Graph) :
    (∀ code, builtinCodeOf l op = Except.ok (BuiltinOperator.other code) →
      loadOperation h l op subg
        = { subg := subg, error := some (LoadError.load_failed "Unsupported operation") } ∧
      (LoadError.load_failed "Unsupported operation").isException = true) ∧
    (∀ builtin_op, builtinCodeOf l op = Except.ok builtin_op →
      loadOperation h l op subg = dispatchOperation h l op subg builtin_op) ∧
    dispatchOperation h l op subg BuiltinOperator.CONV_2D = loadConv2D h l op subg ∧
    dispatchOperation h l op subg BuiltinOperator.AVERAGE_POOL_2D
      = loadPool2D h l op subg PoolType.AVG ∧
    dispatchOperation h l op subg BuiltinOperator.DEPTHWISE_CONV_2D
      = loadDepthwiseConv2D h l op subg ∧
    dispatchOperation h l op subg BuiltinOperator.TRANSPOSE_CONV = loadTransposeConv h l op subg ∧
    dispatchOperation h l op subg BuiltinOperator.RESHAPE = loadReshape h l op subg ∧
    dispatchOperation h l op subg BuiltinOperator.SOFTMAX = loadSoftmax h l op subg ∧
    dispatchOperation h l op subg BuiltinOperator.MAX_POOL_2D
      = loadPool2D h l op subg PoolType.MAX ∧
    dispatchOperation h l op subg BuiltinOperator.CONCATENATION = loadConcatenation h l op subg ∧
    dispatchOperation h l op subg BuiltinOperator.FULLY_CONNECTED = loadFC h l op subg ∧
    dispatchOperation h l op subg BuiltinOperator.ADD
      = loadBinaryArithmetic h l op subg ArithmeticType.ADD ∧
    dispatchOperation h l op subg BuiltinOperator.SUB
      = loadBinaryArithmetic h l op subg ArithmeticType.SUB ∧
    dispatchOperation h l op subg BuiltinOperator.MUL
      = loadBinaryArithmetic h l op subg ArithmeticType.MUL ∧
    dispatchOperation h l op subg BuiltinOperator.DIV
      = loadBinaryArithmetic h l op subg ArithmeticType.DIV ∧
    dispatchOperation h l op subg BuiltinOperator.PACK = loadPack h l op subg ∧
    dispatchOperation h l op subg BuiltinOperator.RELU
      = loadElementwiseActivation h l op subg ElementwiseActivationType.RELU
          Float32.infinity (Float32.finite 0) ∧
    dispatchOperation h l op subg BuiltinOperator.RELU_N1_TO_1
      = loadElementwiseActivation h l op subg ElementwiseActivationType.RELU
          (Float32.finite 1) (Float32.finite (-1)) ∧
    dispatchOperation h l op subg BuiltinOperator.RELU6
      = loadElementwiseActivation h l op subg ElementwiseActivationType.RELU
          (Float32.finite 6) (Float32.finite 0) ∧
    dispatchOperation h l op subg BuiltinOperator.RESIZE_BILINEAR = loadResizeBilinear h l op subg ∧
    dispatchOperation h l op subg BuiltinOperator.RESIZE_NEAREST_NEIGHBOR
      = loadResizeNearestNeighbor h l op subg ∧
    dispatchOperation h l op subg BuiltinOperator.RSQRT
      = loadElementwiseUnary h l op subg ElementwiseUnaryType.RSQRT ∧
    dispatchOperation h l op subg BuiltinOperator.SELECT
      = appended subg (loadOperationTo h l op subg Param.Select) ∧
    dispatchOperation h l op subg BuiltinOperator.SELECT_V2
      = appended subg (loadOperationTo h l op subg Param.Select) ∧
    dispatchOperation h l op subg BuiltinOperator.SQRT
      = loadElementwiseUnary h l op subg ElementwiseUnaryType.SQRT ∧
    dispatchOperation h l op subg BuiltinOperator.SQUARED_DIFFERENCE
      = appended subg (loadOperationTo h l op subg Param.SquaredDifference) ∧
    dispatchOperation h l op subg BuiltinOperator.TANH
      = loadElementwiseActivation h l op subg ElementwiseActivationType.TANH
          (Float32.finite 1) (Float32.finite 1) ∧
    dispatchOperation h l op subg BuiltinOperator.TRANSPOSE = loadTranspose h l op subg ∧
    dispatchOperation h l op subg BuiltinOperator.MEAN = loadReduce h l op subg ReduceType.MEAN ∧
    dispatchOperation h l op subg BuiltinOperator.REDUCE_ANY
      = loadReduce h l op subg ReduceType.ANY ∧
    dispatchOperation h l op subg BuiltinOperator.REDUCE_MAX
      = loadReduce h l op subg ReduceType.MAX ∧
    dispatchOperation h l op subg BuiltinOperator.REVERSE_V2
      = appended subg (loadOperationTo h l op subg Param.Reverse) ∧
    dispatchOperation h l op subg BuiltinOperator.PAD
      = appended subg (loadOperationTo h l op subg Param.Pad) ∧
    dispatchOperation h l op subg BuiltinOperator.PADV2
      = appended subg (loadOperationTo h l op subg Param.Pad) ∧
    dispatchOperation h l op subg BuiltinOperator.LOGISTIC
      = loadElementwiseActivation h l op subg ElementwiseActivationType.LOGISTIC
          (Float32.finite 0) (Float32.finite 0) ∧
    dispatchOperation h l op subg BuiltinOperator.EXP
      = loadElementwiseUnary h l op subg ElementwiseUnaryType.EXP ∧
    dispatchOperation h l op subg BuiltinOperator.EXPAND_DIMS
      = appended subg (loadOperationTo h l op subg Param.ExpandDims) ∧
    dispatchOperation h l op subg BuiltinOperator.GATHER = loadGather h l op subg ∧
    dispatchOperation h l op subg BuiltinOperator.SPACE_TO_BATCH_ND
      = appended subg (loadOperationTo h l op subg Param.SpaceToBatchND) ∧
    dispatchOperation h l op subg BuiltinOperator.BATCH_TO_SPACE_ND
      = appended subg (loadOperationTo h l op subg Param.BatchToSpaceND) ∧
    dispatchOperation h l op subg BuiltinOperator.SUM = loadReduce h l op subg ReduceType.SUM ∧
    dispatchOperation h l op subg BuiltinOperator.CUSTOM = loadCustom h l op subg ∧
    dispatchOperation h l op subg BuiltinOperator.SQUEEZE = loadSqueeze h l op subg ∧
    dispatchOperation h l op subg BuiltinOperator.PRELU
      = appended subg (loadOperationTo h l op subg Param.PReLU) ∧
    dispatchOperation h l op subg BuiltinOperator.SPLIT = loadSplit h l op subg ∧
    dispatchOperation h l op subg BuiltinOperator.SPLIT_V = loadSplitV h l op subg ∧
    dispatchOperation h l op subg BuiltinOperator.SLICE
      = appended subg (loadOperationTo h l op subg Param.Slice) ∧
    dispatchOperation h l op subg BuiltinOperator.STRIDED_SLICE = loadStridedSlice h l op subg ∧
    dispatchOperation h l op subg BuiltinOperator.UNPACK = loadUnpack h l op subg ∧
    dispatchOperation h l op subg BuiltinOperator.MINIMUM
      = loadElementwiseBinary h l op subg ElementwiseBinaryType.MIN ∧
    dispatchOperation h l op subg BuiltinOperator.MAXIMUM
      = loadElementwiseBinary h l op subg ElementwiseBinaryType.MAX ∧
    dispatchOperation h l op subg BuiltinOperator.CAST
      = loadElementwiseUnary h l op subg ElementwiseUnaryType.CAST ∧
    dispatchOperation h l op subg BuiltinOperator.EQUAL = loadComparison h l op subg ∧
    dispatchOperation h l op subg BuiltinOperator.NOT_EQUAL = loadComparison h l op subg ∧
    dispatchOperation h l op subg BuiltinOperator.GREATER_EQUAL = loadComparison h l op subg ∧
    dispatchOperation h l op subg BuiltinOperator.GREATER = loadComparison h l op subg ∧
    dispatchOperation h l op subg BuiltinOperator.LESS_EQUAL = loadComparison h l op subg ∧
    dispatchOperation h l op subg BuiltinOperator.LESS = loadComparison h l op subg ∧
    dispatchOperation h l op subg BuiltinOperator.ONE_HOT = loadOneHot h l op subg ∧
    dispatchOperation h l op subg BuiltinOperator.ABS
      = loadElementwiseUnary h l op subg ElementwiseUnaryType.ABS ∧
    dispatchOperation h l op subg BuiltinOperator.COS
      = loadElementwiseUnary h l op subg ElementwiseUnaryType.COS ∧
    dispatchOperation h l op subg BuiltinOperator.SIN
      = loadElementwiseUnary h l op subg ElementwiseUnaryType.SIN ∧
    dispatchOperation h l op subg BuiltinOperator.SHAPE
      = appended subg (loadOperationTo h l op subg Param.Shape) ∧
    dispatchOperation h l op subg BuiltinOperator.REDUCE_PROD
      = loadReduce h l op subg ReduceType.PROD ∧
    dispatchOperation h l op subg BuiltinOperator.IF = loadIf h l op subg ∧
    dispatchOperation h l op subg BuiltinOperator.WHILE = loadWhile h l op subg ∧
    dispatchOperation h l op subg BuiltinOperator.NEG
      = loadElementwiseUnary h l op subg ElementwiseUnaryType.NEG ∧
    dispatchOperation h l op subg BuiltinOperator.ARG_MAX = loadArgMax h l op subg ∧
    dispatchOperation h l op subg BuiltinOperator.LOG
      = loadElementwiseUnary h l op subg ElementwiseUnaryType.LOG ∧
    dispatchOperation h l op subg BuiltinOperator.ROUND
      = loadElementwiseUnary h l op subg ElementwiseUnaryType.ROUND ∧
    dispatchOperation h l op subg BuiltinOperator.POW
      = appended subg (loadOperationTo h l op subg Param.Pow) ∧
    dispatchOperation h l op subg BuiltinOperator.LOGICAL_NOT
      = loadElementwiseUnary h l op subg ElementwiseUnaryType.LOGICAL_NOT ∧
    dispatchOperation h l op subg BuiltinOperator.LOGICAL_OR
      = loadElementwiseBinary h l op subg ElementwiseBinaryType.LOGICAL_OR ∧
    dispatchOperation h l op subg BuiltinOperator.FILL
      = appended subg (loadOperationTo h l op subg Param.Fill) ∧
    dispatchOperation h l op subg BuiltinOperator.ZEROS_LIKE
      = loadElementwiseUnary h l op subg ElementwiseUnaryType.ZEROS_LIKE ∧
    dispatchOperation h l op subg BuiltinOperator.TILE = loadTile h l op subg ∧
    dispatchOperation h l op subg BuiltinOperator.RANGE
      = appended subg (loadOperationTo h l op subg Param.Range) ∧
    dispatchOperation h l op subg BuiltinOperator.BATCH_MATMUL = loadBatchMatMul h l op subg ∧
    dispatchOperation h l op subg BuiltinOperator.LOG_SOFTMAX = loadLogSoftmax h l op subg ∧
    dispatchOperation h l op subg BuiltinOperator.QUANTIZE
      = loadElementwiseUnary h l op subg ElementwiseUnaryType.QUANTIZE ∧
    dispatchOperation h l op subg BuiltinOperator.SPACE_TO_DEPTH = loadSpaceToDepth h l op subg ∧
    dispatchOperation h l op subg BuiltinOperator.L2_NORMALIZATION
      = appended subg (loadOperationTo h l op subg Param.L2Normalization) ∧
    dispatchOperation h l op subg BuiltinOperator.LEAKY_RELU = loadLeakyRelu h l op subg ∧
    dispatchOperation h l op subg BuiltinOperator.RANK
      = appended subg (loadOperationTo h l op subg Param.Rank) := by
  refine ⟨?_, ?_, rfl, rfl, rfl, rfl, rfl, rfl, rfl, rfl, rfl, rfl, rfl, rfl, rfl, rfl, rfl,
    rfl, rfl, rfl, rfl, rfl, rfl, rfl, rfl, rfl, rfl, rfl, rfl, rfl, rfl, rfl, rfl, rfl, rfl, rfl,
    rfl, rfl, rfl, rfl, rfl, rfl, rfl, rfl, rfl, rfl, rfl, rfl, rfl, rfl, rfl, rfl, rfl, rfl, rfl,
    rfl, rfl, rfl, rfl, rfl, rfl, rfl, rfl, rfl, rfl, rfl, rfl, rfl, rfl, rfl, rfl, rfl, rfl, rfl,
    rfl, rfl, rfl, rfl, rfl, rfl, rfl, rfl, rfl, rfl⟩
  · intro code hcode
    exact ⟨by simp [loadOperation, hcode, dispatchOperation, stopped], rfl⟩
  · intro builtin_op hcode
    simp [loadOperation, hcode]

/-- Witness of C40 on an operator whose builtin code, 200, is not in the dispatch
list, and on the `ARG_MAX` operator of `argMaxState`. -/
theorem loadOperation_dispatch_witness :
    builtinCodeOf unsupportedState (sampleOperator 0 [0] none)
      = Except.ok (BuiltinOperator.other 200) ∧
    loadOperation sampleHooks unsupportedState (sampleOperator 0 [0] none) sampleGraph
      = { subg := sampleGraph, error := some (LoadError.load_failed "Unsupported operation") } ∧
    loadOperation sampleHooks argMaxState (sampleArgMax TensorType.INT32) sampleGraph
      = loadArgMax sampleHooks argMaxState (sampleArgMax TensorType.INT32) sampleGraph :=
  ⟨rfl,
    ((loadOperation_dispatch sampleHooks unsupportedState (sampleOperator 0 [0] none)
      sampleGraph).1 200 rfl).1,
    (loadOperation_dispatch sampleHooks argMaxState (sampleArgMax TensorType.INT32)
      sampleGraph).2.1 BuiltinOperator.ARG_MAX rfl⟩

end base_loader

/-! ## Releasing a subgraph output -/

/-- C11: for a registered tensor, `deallocSubgraphOutput ind` succeeds; when the
dynamic flag of the tensor is set it issues exactly one `deallocate ind` and
leaves the tensors and the plan as they were; when the flag is not set it does
nothing at all: the state, and with it the calls of the memory manager, is
unchanged. -/
theorem deallocSubgraphOutput_contract (d : DynamicTensorManager) (ind : OperandIndex)
    (t : Tensor) (ht : d.tensors ind = some t) :
    (d.deallocSubgraphOutput ind).error = none ∧
    (t.is_dynamic = true →
      (d.deallocSubgraphOutput ind).state.dynamic_mem_mgr.calls
        = d.dynamic_mem_mgr.calls ++ [MemCall.deallocate ind] ∧
      (d.deallocSubgraphOutput ind).state.dynamic_mem_mgr = d.dynamic_mem_mgr.deallocate ind ∧
      (d.deallocSubgraphOutput ind).state.tensors = d.tensors ∧
      (d.deallocSubgraphOutput ind).state.dealloc_tensor_map = d.dealloc_tensor_map) ∧
    (t.is_dynamic = false →
      (d.deallocSubgraphOutput ind).state = d ∧
      (d.deallocSubgraphOutput ind).state.dynamic_mem_mgr.calls = d.dynamic_mem_mgr.calls) := by
  refine ⟨?_, ?_, ?_⟩
  · cases hd : t.is_dynamic <;> simp [DynamicTensorManager.deallocSubgraphOutput, ht, hd]
  · intro hd
    simp [DynamicTensorManager.deallocSubgraphOutput, ht, hd, DynamicMemoryManager.deallocate]
  · intro hd
    simp [DynamicTensorManager.deallocSubgraphOutput, ht, hd]

/-- Witness of C11 on `sampleDynamic`, whose operand 0 is dynamic, and on
`sampleFresh`, whose operand 0 is not. -/
theorem deallocSubgraphOutput_contract_witness :
    (DynamicTensorManager.sampleDynamic.deallocSubgraphOutput 0).state.dynamic_mem_mgr.calls
      = DynamicTensorManager.sampleDynamic.dynamic_mem_mgr.calls ++ [MemCall.deallocate 0] ∧
    (DynamicTensorManager.sampleFresh.deallocSubgraphOutput 0).state.dynamic_mem_mgr.calls
      = DynamicTensorManager.sampleFresh.dynamic_mem_mgr.calls :=
  ⟨((deallocSubgraphOutput_contract DynamicTensorManager.sampleDynamic 0
      { info := { DynamicTensorManager.sampleInfo with is_dynamic := true },
        layout := Layout.NHWC, static_buffer := none, allocator := some 0 } rfl).2.1 rfl).1,
    ((deallocSubgraphOutput_contract DynamicTensorManager.sampleFresh 0
      (Tensor.make DynamicTensorManager.sampleInfo Layout.NHWC) rfl).2.2 rfl).2⟩

/-! ## Execution of the test `OneOp_LeakyRelu` -/

open ir base_loader in
theorem OneOp_LeakyRelu_graph_operations :
    OneOp_LeakyRelu_graph.subg.operations
      = [{ inputs := [0], outputs := [1],
           param := Param.ElementwiseActivation ElementwiseActivationType.LEAKY_RELU
             (Float32.finite (1 / 2)) (Float32.finite 1) }] := rfl

open ir base_loader in
/-- C27: executing a graph whose single operation is a `LEAKY_RELU` activation
with the parameter alpha gives an output of the shape of the input, in which
every element `x` of the input is mapped to `x` when `x >= 0` and to `alpha * x`
when `x < 0`. The model of the test `OneOp_LeakyRelu` loads as such a graph with
the alpha 0.5, and on the input 0, 1, 3, 1, -1, -2 of the shape 2x3 its
execution gives 0, 1, 3, 1, -0.5, -1, the output that the test expects. -/
theorem leakyRelu_execution :
    (∀ (g : Graph) (inputs outputs : List OperandIndex) (alpha : Rat) (beta : Float32)
        (input : TensorValue),
      g.operations
        = [{ inputs := inputs, outputs := outputs,
             param := Param.ElementwiseActivation ElementwiseActivationType.LEAKY_RELU
               (Float32.finite alpha) beta }] →
      ∃ output, executeSingle g input = some output ∧
        output.shape = input.shape ∧ output.data.length = input.data.length ∧
        ∀ (i : Nat) (x : Rat), input.data[i]? = some x →
          output.data[i]? = some (if 0 ≤ x then x else alpha * x)) ∧
    OneOp_LeakyRelu_graph.error = none ∧
    OneOp_LeakyRelu_graph.subg.operations
      = [{ inputs := [0], outputs := [1],
           param := Param.ElementwiseActivation ElementwiseActivationType.LEAKY_RELU
             (Float32.finite (1 / 2)) (Float32.finite 1) }] ∧
    OneOp_LeakyRelu_input = { shape := [2, 3], data := [0, 1, 3, 1, -1, -2] } ∧
    executeSingle OneOp_LeakyRelu_graph.subg OneOp_LeakyRelu_input
      = some { shape := [2, 3], data := [0, 1, 3, 1, -1 / 2, -1] } ∧
    OneOp_LeakyRelu_expected = [0, 1, 3, 1, -1 / 2, -1] := by
  refine ⟨?_, rfl, rfl, rfl, ?_, rfl⟩
  · intro g inputs outputs alpha beta input hg
    refine ⟨{ shape := input.shape, data := input.data.map (leakyRelu alpha) }, ?_, rfl, ?_, ?_⟩
    · simp [executeSingle, hg]
    · simp
    · intro i x hx
      simp only [List.getElem?_map, hx, Option.map_some', leakyRelu]
      by_cases h0 : 0 ≤ x
      · simp [h0, not_lt.mpr h0]
      · simp [h0, not_le.mp h0]
  · simp only [executeSingle, OneOp_LeakyRelu_graph_operations, OneOp_LeakyRelu_input]
    norm_num [leakyRelu]

open ir base_loader in
/-- Witness of C27 on the graph and the input of the test. -/
theorem leakyRelu_execution_witness :
    ∃ output, executeSingle OneOp_LeakyRelu_graph.subg OneOp_LeakyRelu_input = some output ∧
      output.shape = OneOp_LeakyRelu_input.shape ∧
      output.data.length = OneOp_LeakyRelu_input.data.length ∧
      ∀ (i : Nat) (x : Rat), OneOp_LeakyRelu_input.data[i]? = some x →
        output.data[i]? = some (if 0 ≤ x then x else 1 / 2 * x) :=
  leakyRelu_execution.1 OneOp_LeakyRelu_graph.subg [0] [1] (1 / 2) (Float32.finite 1)
    OneOp_LeakyRelu_input OneOp_LeakyRelu_graph_operations

end onert
